import Mathlib

/-!
neoGFX: unit conversion (`src/core/geometry.cpp`)

A shallow embedding of `units_context` and `units_converter`.

* `dimension` (a C++ `double`) is embedded as `ℚ`: every statement below is about
  exact arithmetic, not about floating-point rounding.  Division by zero is the
  one place where `ℚ` and IEEE arithmetic disagree (`x / 0 = 0` here, `±inf` or
  `NaN` there); statements that depend on it carry explicit non-zero hypotheses,
  and the counterexamples below are chosen so that the forward conversion alone
  (which never divides by a metric) already decides them.
* a thrown `device_metrics_unavailable` is the `Except.error` result.
* the converter's member functions are `const`; they are embedded as pure
  functions of the converter.  Overloads are told apart by a suffix naming the
  shape (`_size`, `_point`, ...); the explicit-extent overloads carry `_ext`.
* in the namespace `stateful` the same members are embedded a second time, call by
  call on the converter object (`member`), so that what a member leaves of the
  object is a result about its body and not a convention.
-/

namespace neogfx

/-- Modelled from the spec: the enumeration `units` of `geometry.hpp` (not in src).
The eight named units, plus `Unrecognized raw` for any other value an
`enum class` object may hold; the `default:` labels of the conversion switches
are reached exactly by these. -/
inductive units where
  | Pixels
  | Points
  | Picas
  | Ems
  | Millimetres
  | Centimetres
  | Inches
  | Percentage
  | Unrecognized (raw : Nat)
  deriving DecidableEq, Repr

/-- The scalar type `dimension` / `scalar` (a `double` in the source), in exact arithmetic. -/
abbrev dimension := ℚ

/-- Modelled from the spec: `size` of `geometry.hpp` (not in src), fields `cx`, `cy`. -/
structure size where
  cx : dimension
  cy : dimension
  deriving DecidableEq, Repr

/-- Modelled from the spec: `point` of `geometry.hpp` (not in src), fields `x`, `y`. -/
structure point where
  x : dimension
  y : dimension
  deriving DecidableEq, Repr

/-- Modelled from the spec: `delta` of `geometry.hpp` (not in src), fields `dx`, `dy`. -/
structure delta where
  dx : dimension
  dy : dimension
  deriving DecidableEq, Repr

/-- Modelled from the spec: `vector2` (not in src); `v0`, `v1` are `aValue[0]`, `aValue[1]`. -/
structure vector2 where
  v0 : dimension
  v1 : dimension
  deriving DecidableEq, Repr

/-- Modelled from the spec: `rect` of `geometry.hpp` (not in src): a position and extents,
read by `position()` / `extents()` and built by `rect(position, extents)`. -/
structure rect where
  position : point
  extents : size
  deriving DecidableEq, Repr

/-- Modelled from the spec: `margins` of `geometry.hpp` (not in src), in the
brace-initialisation order `left, top, right, bottom`. -/
structure margins where
  left : dimension
  top : dimension
  right : dimension
  bottom : dimension
  deriving DecidableEq, Repr

/-- Modelled from the spec: `operator*` on `size` (not in src): each axis on its own. -/
instance : Mul size := ⟨fun a b => ⟨a.cx * b.cx, a.cy * b.cy⟩⟩
/-- Modelled from the spec: `operator/` on `size` (not in src): each axis on its own. -/
instance : Div size := ⟨fun a b => ⟨a.cx / b.cx, a.cy / b.cy⟩⟩
/-- Modelled from the spec: `operator*` on `point` (not in src): each axis on its own. -/
instance : Mul point := ⟨fun a b => ⟨a.x * b.x, a.y * b.y⟩⟩
/-- Modelled from the spec: `operator/` on `point` (not in src): each axis on its own. -/
instance : Div point := ⟨fun a b => ⟨a.x / b.x, a.y / b.y⟩⟩
/-- Modelled from the spec: `operator*` on `delta` (not in src): each axis on its own. -/
instance : Mul delta := ⟨fun a b => ⟨a.dx * b.dx, a.dy * b.dy⟩⟩
/-- Modelled from the spec: `operator/` on `delta` (not in src): each axis on its own. -/
instance : Div delta := ⟨fun a b => ⟨a.dx / b.dx, a.dy / b.dy⟩⟩
/-- Modelled from the spec: `operator*` on `vector2` (not in src): each axis on its own. -/
instance : Mul vector2 := ⟨fun a b => ⟨a.v0 * b.v0, a.v1 * b.v1⟩⟩
/-- Modelled from the spec: `operator/` on `vector2` (not in src): each axis on its own. -/
instance : Div vector2 := ⟨fun a b => ⟨a.v0 / b.v0, a.v1 / b.v1⟩⟩

/-- The conversion `point(size)` used by the Percentage branches. -/
def size.to_point (s : size) : point := ⟨s.cx, s.cy⟩

/-- The member `size::to_delta()` used by the Percentage branches. -/
def size.to_delta (s : size) : delta := ⟨s.cx, s.cy⟩

/-- Modelled from the spec: the device metrics provider `i_device_metrics` (not in src). -/
structure i_device_metrics where
  horizontal_dpi : dimension
  vertical_dpi : dimension
  em_size : dimension
  extents : size
  deriving DecidableEq, Repr

/-- The object `iSource` a `units_context` delegates to: whether device metrics are
available, and the metrics `device_metrics()` refers to. -/
structure metrics_source where
  device_metrics_available : Bool
  device_metrics : i_device_metrics
  deriving DecidableEq, Repr

/-- The class `units_context`: the borrowed source and the mutable current unit. -/
structure units_context where
  iSource : metrics_source
  iUnits : units
  deriving DecidableEq, Repr

/-- The only failure of a conversion. -/
inductive failure where
  | device_metrics_unavailable
  deriving DecidableEq, Repr

namespace units_context

/-- Constructor `units_context::units_context`: the current unit starts as Pixels. -/
def mk_from (aSource : metrics_source) : units_context := ⟨aSource, units.Pixels⟩

/-- Member `units_context::device_metrics_available`. -/
def device_metrics_available (c : units_context) : Bool := c.iSource.device_metrics_available

/-- Member `units_context::device_metrics`. -/
def device_metrics (c : units_context) : i_device_metrics := c.iSource.device_metrics

/-- Member `units_context::units`. -/
def units (c : units_context) : neogfx.units := c.iUnits

/-- Member `units_context::set_units`: the old unit and the updated context. -/
def set_units (c : units_context) (aUnits : neogfx.units) : neogfx.units × units_context :=
  (c.iUnits, { c with iUnits := aUnits })

end units_context

/-- The class `units_converter`: the bound context and the unit seen at construction. -/
structure units_converter where
  iContext : units_context
  iSavedUnits : units
  deriving DecidableEq, Repr

namespace units_converter

/-- Constructor `units_converter::units_converter`. -/
def mk_from (aContext : units_context) : units_converter := ⟨aContext, aContext.units⟩

/-- Destructor `units_converter::~units_converter`: the context it leaves behind. -/
def destroy (k : units_converter) : units_context := (k.iContext.set_units k.iSavedUnits).2

/-- Member `units_converter::saved_units`. -/
def saved_units (k : units_converter) : neogfx.units := k.iSavedUnits

/-- Member `units_converter::units`. -/
def units (k : units_converter) : neogfx.units := k.iContext.units

/-- Member `units_converter::set_units`: the old unit and the updated converter. -/
def set_units (k : units_converter) (aUnits : neogfx.units) : neogfx.units × units_converter :=
  ((k.iContext.set_units aUnits).1, { k with iContext := (k.iContext.set_units aUnits).2 })

/-- The guard opening every explicit-extent overload:
`!device_metrics_available() && units() != Pixels && units() != Percentage`. -/
def metrics_missing (k : units_converter) : Prop :=
  k.iContext.device_metrics_available = false ∧ k.units ≠ neogfx.units.Pixels ∧
    k.units ≠ neogfx.units.Percentage

instance (k : units_converter) : Decidable k.metrics_missing := by
  unfold metrics_missing; infer_instance

/-- Overload `vector2 units_converter::to_device_units(const size& aExtents, const vector2& aValue)`. -/
def to_device_units_ext_vector2 (k : units_converter) (aExtents : size) (aValue : vector2) :
    Except failure vector2 :=
  if k.metrics_missing then
    throw failure.device_metrics_unavailable
  else
    match k.units with
    | .Points =>
      pure (aValue * vector2.mk ((1 / 72) * k.iContext.device_metrics.horizontal_dpi) ((1 / 72) * k.iContext.device_metrics.vertical_dpi))
    | .Picas =>
      pure (aValue * vector2.mk ((1 / 6) * k.iContext.device_metrics.horizontal_dpi) ((1 / 6) * k.iContext.device_metrics.vertical_dpi))
    | .Ems =>
      pure (aValue * vector2.mk (1 * k.iContext.device_metrics.em_size * k.iContext.device_metrics.horizontal_dpi) (1 * k.iContext.device_metrics.em_size * k.iContext.device_metrics.vertical_dpi))
    | .Millimetres =>
      pure (aValue * vector2.mk ((1 / 25.4) * k.iContext.device_metrics.horizontal_dpi) ((1 / 25.4) * k.iContext.device_metrics.vertical_dpi))
    | .Centimetres =>
      pure (aValue * vector2.mk ((1 / 2.54) * k.iContext.device_metrics.horizontal_dpi) ((1 / 2.54) * k.iContext.device_metrics.vertical_dpi))
    | .Inches =>
      pure (aValue * vector2.mk (1 * k.iContext.device_metrics.horizontal_dpi) (1 * k.iContext.device_metrics.vertical_dpi))
    | .Percentage =>
      pure (vector2.mk aExtents.cx aExtents.cy * vector2.mk (aValue.v0 / 100) (aValue.v1 / 100))
    | _ => pure aValue

/-- Overload `delta units_converter::to_device_units(const size& aExtents, const delta& aValue)`. -/
def to_device_units_ext_delta (k : units_converter) (aExtents : size) (aValue : delta) :
    Except failure delta :=
  if k.metrics_missing then
    throw failure.device_metrics_unavailable
  else
    match k.units with
    | .Points =>
      pure (aValue * delta.mk ((1 / 72) * k.iContext.device_metrics.horizontal_dpi) ((1 / 72) * k.iContext.device_metrics.vertical_dpi))
    | .Picas =>
      pure (aValue * delta.mk ((1 / 6) * k.iContext.device_metrics.horizontal_dpi) ((1 / 6) * k.iContext.device_metrics.vertical_dpi))
    | .Ems =>
      pure (aValue * delta.mk (1 * k.iContext.device_metrics.em_size * k.iContext.device_metrics.horizontal_dpi) (1 * k.iContext.device_metrics.em_size * k.iContext.device_metrics.vertical_dpi))
    | .Millimetres =>
      pure (aValue * delta.mk ((1 / 25.4) * k.iContext.device_metrics.horizontal_dpi) ((1 / 25.4) * k.iContext.device_metrics.vertical_dpi))
    | .Centimetres =>
      pure (aValue * delta.mk ((1 / 2.54) * k.iContext.device_metrics.horizontal_dpi) ((1 / 2.54) * k.iContext.device_metrics.vertical_dpi))
    | .Inches =>
      pure (aValue * delta.mk (1 * k.iContext.device_metrics.horizontal_dpi) (1 * k.iContext.device_metrics.vertical_dpi))
    | .Percentage =>
      pure (aExtents.to_delta * delta.mk (aValue.dx / 100) (aValue.dy / 100))
    | _ => pure aValue

/-- Overload `size units_converter::to_device_units(const size& aExtents, const size& aValue)`. -/
def to_device_units_ext_size (k : units_converter) (aExtents : size) (aValue : size) :
    Except failure size :=
  if k.metrics_missing then
    throw failure.device_metrics_unavailable
  else
    match k.units with
    | .Points =>
      pure (aValue * size.mk ((1 / 72) * k.iContext.device_metrics.horizontal_dpi) ((1 / 72) * k.iContext.device_metrics.vertical_dpi))
    | .Picas =>
      pure (aValue * size.mk ((1 / 6) * k.iContext.device_metrics.horizontal_dpi) ((1 / 6) * k.iContext.device_metrics.vertical_dpi))
    | .Ems =>
      pure (aValue * size.mk (1 * k.iContext.device_metrics.em_size * k.iContext.device_metrics.horizontal_dpi) (1 * k.iContext.device_metrics.em_size * k.iContext.device_metrics.vertical_dpi))
    | .Millimetres =>
      pure (aValue * size.mk ((1 / 25.4) * k.iContext.device_metrics.horizontal_dpi) ((1 / 25.4) * k.iContext.device_metrics.vertical_dpi))
    | .Centimetres =>
      pure (aValue * size.mk ((1 / 2.54) * k.iContext.device_metrics.horizontal_dpi) ((1 / 2.54) * k.iContext.device_metrics.vertical_dpi))
    | .Inches =>
      pure (aValue * size.mk (1 * k.iContext.device_metrics.horizontal_dpi) (1 * k.iContext.device_metrics.vertical_dpi))
    | .Percentage =>
      pure (aExtents * size.mk (aValue.cx / 100) (aValue.cy / 100))
    | _ => pure aValue

/-- Overload `point units_converter::to_device_units(const size& aExtents, const point& aValue)`. -/
def to_device_units_ext_point (k : units_converter) (aExtents : size) (aValue : point) :
    Except failure point :=
  if k.metrics_missing then
    throw failure.device_metrics_unavailable
  else
    match k.units with
    | .Points =>
      pure (aValue * point.mk ((1 / 72) * k.iContext.device_metrics.horizontal_dpi) ((1 / 72) * k.iContext.device_metrics.vertical_dpi))
    | .Picas =>
      pure (aValue * point.mk ((1 / 6) * k.iContext.device_metrics.horizontal_dpi) ((1 / 6) * k.iContext.device_metrics.vertical_dpi))
    | .Ems =>
      pure (aValue * point.mk (1 * k.iContext.device_metrics.em_size * k.iContext.device_metrics.horizontal_dpi) (1 * k.iContext.device_metrics.em_size * k.iContext.device_metrics.vertical_dpi))
    | .Millimetres =>
      pure (aValue * point.mk ((1 / 25.4) * k.iContext.device_metrics.horizontal_dpi) ((1 / 25.4) * k.iContext.device_metrics.vertical_dpi))
    | .Centimetres =>
      pure (aValue * point.mk ((1 / 2.54) * k.iContext.device_metrics.horizontal_dpi) ((1 / 2.54) * k.iContext.device_metrics.vertical_dpi))
    | .Inches =>
      pure (aValue * point.mk (1 * k.iContext.device_metrics.horizontal_dpi) (1 * k.iContext.device_metrics.vertical_dpi))
    | .Percentage =>
      pure (aExtents.to_point * point.mk (aValue.x / 100) (aValue.y / 100))
    | _ => pure aValue

/-- Overload `dimension units_converter::to_device_units(const size& aExtents, dimension aValue)`. -/
def to_device_units_ext_dimension (k : units_converter) (aExtents : size) (aValue : dimension) :
    Except failure dimension :=
  if k.metrics_missing then
    throw failure.device_metrics_unavailable
  else do
    let r ← k.to_device_units_ext_size aExtents (size.mk aValue 0)
    pure r.cx

/-- Overload `rect units_converter::to_device_units(const size& aExtents, const rect& aValue)`. -/
def to_device_units_ext_rect (k : units_converter) (aExtents : size) (aValue : rect) :
    Except failure rect :=
  if k.metrics_missing then
    throw failure.device_metrics_unavailable
  else do
    let p ← k.to_device_units_ext_point aExtents aValue.position
    let e ← k.to_device_units_ext_size aExtents aValue.extents
    pure (rect.mk p e)

/-- Overload `vector2 units_converter::to_device_units(const vector2& aValue)`. -/
def to_device_units_vector2 (k : units_converter) (aValue : vector2) : Except failure vector2 :=
  if k.iContext.device_metrics_available then
    k.to_device_units_ext_vector2 k.iContext.device_metrics.extents aValue
  else if k.units = neogfx.units.Pixels then pure aValue
  else throw failure.device_metrics_unavailable

/-- Overload `delta units_converter::to_device_units(const delta& aValue)`. -/
def to_device_units_delta (k : units_converter) (aValue : delta) : Except failure delta :=
  if k.iContext.device_metrics_available then
    k.to_device_units_ext_delta k.iContext.device_metrics.extents aValue
  else if k.units = neogfx.units.Pixels then pure aValue
  else throw failure.device_metrics_unavailable

/-- Overload `size units_converter::to_device_units(const size& aValue)`. -/
def to_device_units_size (k : units_converter) (aValue : size) : Except failure size :=
  if k.iContext.device_metrics_available then
    k.to_device_units_ext_size k.iContext.device_metrics.extents aValue
  else if k.units = neogfx.units.Pixels then pure aValue
  else throw failure.device_metrics_unavailable

/-- Overload `point units_converter::to_device_units(const point& aValue)`. -/
def to_device_units_point (k : units_converter) (aValue : point) : Except failure point :=
  if k.iContext.device_metrics_available then
    k.to_device_units_ext_point k.iContext.device_metrics.extents aValue
  else if k.units = neogfx.units.Pixels then pure aValue
  else throw failure.device_metrics_unavailable

/-- Overload `rect units_converter::to_device_units(const rect& aValue)`. -/
def to_device_units_rect (k : units_converter) (aValue : rect) : Except failure rect :=
  if k.iContext.device_metrics_available then
    k.to_device_units_ext_rect k.iContext.device_metrics.extents aValue
  else if k.units = neogfx.units.Pixels then pure aValue
  else throw failure.device_metrics_unavailable

/-- Overload `dimension units_converter::to_device_units(dimension aValue)`. -/
def to_device_units_dimension (k : units_converter) (aValue : dimension) :
    Except failure dimension :=
  if k.iContext.device_metrics_available then do
    let r ← k.to_device_units_ext_size k.iContext.device_metrics.extents (size.mk aValue 0)
    pure r.cx
  else if k.units = neogfx.units.Pixels then pure aValue
  else throw failure.device_metrics_unavailable

/-- Overload `margins units_converter::to_device_units(const margins& aValue)`. -/
def to_device_units_margins (k : units_converter) (aValue : margins) : Except failure margins :=
  if k.iContext.device_metrics_available then do
    let l ← k.to_device_units_ext_size k.iContext.device_metrics.extents (size.mk aValue.left 0)
    let t ← k.to_device_units_ext_size k.iContext.device_metrics.extents (size.mk 0 aValue.top)
    let r ← k.to_device_units_ext_size k.iContext.device_metrics.extents (size.mk aValue.right 0)
    let b ← k.to_device_units_ext_size k.iContext.device_metrics.extents (size.mk 0 aValue.bottom)
    pure (margins.mk l.cx t.cy r.cx b.cy)
  else if k.units = neogfx.units.Pixels then pure aValue
  else throw failure.device_metrics_unavailable

/-- Overload `vector2 units_converter::from_device_units(const size& aExtents, const vector2& aValue)`. -/
def from_device_units_ext_vector2 (k : units_converter) (aExtents : size) (aValue : vector2) :
    Except failure vector2 :=
  if k.metrics_missing then
    throw failure.device_metrics_unavailable
  else
    match k.units with
    | .Points =>
      pure (aValue * vector2.mk (72 / k.iContext.device_metrics.horizontal_dpi) (72 / k.iContext.device_metrics.vertical_dpi))
    | .Picas =>
      pure (aValue * vector2.mk (6 / k.iContext.device_metrics.horizontal_dpi) (6 / k.iContext.device_metrics.vertical_dpi))
    | .Ems =>
      pure (aValue * vector2.mk ((1 / k.iContext.device_metrics.em_size) / k.iContext.device_metrics.horizontal_dpi) ((1 / k.iContext.device_metrics.em_size) / k.iContext.device_metrics.vertical_dpi))
    | .Millimetres =>
      pure (aValue * vector2.mk (25.4 / k.iContext.device_metrics.horizontal_dpi) (25.4 / k.iContext.device_metrics.vertical_dpi))
    | .Centimetres =>
      pure (aValue * vector2.mk (2.54 / k.iContext.device_metrics.horizontal_dpi) (2.54 / k.iContext.device_metrics.vertical_dpi))
    | .Inches =>
      pure (aValue * vector2.mk (1 / k.iContext.device_metrics.horizontal_dpi) (1 / k.iContext.device_metrics.vertical_dpi))
    | .Percentage =>
      pure (aValue / vector2.mk aExtents.cx aExtents.cy * vector2.mk 100 100)
    | _ => pure aValue

/-- Overload `delta units_converter::from_device_units(const size& aExtents, const delta& aValue)`. -/
def from_device_units_ext_delta (k : units_converter) (aExtents : size) (aValue : delta) :
    Except failure delta :=
  if k.metrics_missing then
    throw failure.device_metrics_unavailable
  else
    match k.units with
    | .Points =>
      pure (aValue * delta.mk (72 / k.iContext.device_metrics.horizontal_dpi) (72 / k.iContext.device_metrics.vertical_dpi))
    | .Picas =>
      pure (aValue * delta.mk (6 / k.iContext.device_metrics.horizontal_dpi) (6 / k.iContext.device_metrics.vertical_dpi))
    | .Ems =>
      pure (aValue * delta.mk ((1 / k.iContext.device_metrics.em_size) / k.iContext.device_metrics.horizontal_dpi) ((1 / k.iContext.device_metrics.em_size) / k.iContext.device_metrics.vertical_dpi))
    | .Millimetres =>
      pure (aValue * delta.mk (25.4 / k.iContext.device_metrics.horizontal_dpi) (25.4 / k.iContext.device_metrics.vertical_dpi))
    | .Centimetres =>
      pure (aValue * delta.mk (2.54 / k.iContext.device_metrics.horizontal_dpi) (2.54 / k.iContext.device_metrics.vertical_dpi))
    | .Inches =>
      pure (aValue * delta.mk (1 / k.iContext.device_metrics.horizontal_dpi) (1 / k.iContext.device_metrics.vertical_dpi))
    | .Percentage =>
      pure (aValue / aExtents.to_delta * delta.mk 100 100)
    | _ => pure aValue

/-- Overload `size units_converter::from_device_units(const size& aExtents, const size& aValue)`. -/
def from_device_units_ext_size (k : units_converter) (aExtents : size) (aValue : size) :
    Except failure size :=
  if k.metrics_missing then
    throw failure.device_metrics_unavailable
  else
    match k.units with
    | .Points =>
      pure (aValue * size.mk (72 / k.iContext.device_metrics.horizontal_dpi) (72 / k.iContext.device_metrics.vertical_dpi))
    | .Picas =>
      pure (aValue * size.mk (6 / k.iContext.device_metrics.horizontal_dpi) (6 / k.iContext.device_metrics.vertical_dpi))
    | .Ems =>
      pure (aValue * size.mk ((1 / k.iContext.device_metrics.em_size) / k.iContext.device_metrics.horizontal_dpi) ((1 / k.iContext.device_metrics.em_size) / k.iContext.device_metrics.vertical_dpi))
    | .Millimetres =>
      pure (aValue * size.mk (25.4 / k.iContext.device_metrics.horizontal_dpi) (25.4 / k.iContext.device_metrics.vertical_dpi))
    | .Centimetres =>
      pure (aValue * size.mk (2.54 / k.iContext.device_metrics.horizontal_dpi) (2.54 / k.iContext.device_metrics.vertical_dpi))
    | .Inches =>
      pure (aValue * size.mk (1 / k.iContext.device_metrics.horizontal_dpi) (1 / k.iContext.device_metrics.vertical_dpi))
    | .Percentage =>
      pure (aValue / aExtents * size.mk 100 100)
    | _ => pure aValue

/-- Overload `point units_converter::from_device_units(const size& aExtents, const point& aValue)`. -/
def from_device_units_ext_point (k : units_converter) (aExtents : size) (aValue : point) :
    Except failure point :=
  if k.metrics_missing then
    throw failure.device_metrics_unavailable
  else
    match k.units with
    | .Points =>
      pure (aValue * point.mk (72 / k.iContext.device_metrics.horizontal_dpi) (72 / k.iContext.device_metrics.vertical_dpi))
    | .Picas =>
      pure (aValue * point.mk (6 / k.iContext.device_metrics.horizontal_dpi) (6 / k.iContext.device_metrics.vertical_dpi))
    | .Ems =>
      pure (aValue * point.mk ((1 / k.iContext.device_metrics.em_size) / k.iContext.device_metrics.horizontal_dpi) ((1 / k.iContext.device_metrics.em_size) / k.iContext.device_metrics.vertical_dpi))
    | .Millimetres =>
      pure (aValue * point.mk (25.4 / k.iContext.device_metrics.horizontal_dpi) (25.4 / k.iContext.device_metrics.vertical_dpi))
    | .Centimetres =>
      pure (aValue * point.mk (2.54 / k.iContext.device_metrics.horizontal_dpi) (2.54 / k.iContext.device_metrics.vertical_dpi))
    | .Inches =>
      pure (aValue * point.mk (1 / k.iContext.device_metrics.horizontal_dpi) (1 / k.iContext.device_metrics.vertical_dpi))
    | .Percentage =>
      pure (aValue / aExtents.to_point * point.mk 100 100)
    | _ => pure aValue

/-- Overload `dimension units_converter::from_device_units(const size& aExtents, dimension aValue)`. -/
def from_device_units_ext_dimension (k : units_converter) (aExtents : size) (aValue : dimension) :
    Except failure dimension :=
  if k.metrics_missing then
    throw failure.device_metrics_unavailable
  else do
    let r ← k.from_device_units_ext_size aExtents (size.mk aValue 0)
    pure r.cx

/-- Overload `rect units_converter::from_device_units(const size& aExtents, const rect& aValue)`. -/
def from_device_units_ext_rect (k : units_converter) (aExtents : size) (aValue : rect) :
    Except failure rect :=
  if k.metrics_missing then
    throw failure.device_metrics_unavailable
  else do
    let p ← k.from_device_units_ext_point aExtents aValue.position
    let e ← k.from_device_units_ext_size aExtents aValue.extents
    pure (rect.mk p e)

/-- Overload `vector2 units_converter::from_device_units(const vector2& aValue)`. -/
def from_device_units_vector2 (k : units_converter) (aValue : vector2) : Except failure vector2 :=
  if k.iContext.device_metrics_available then
    k.from_device_units_ext_vector2 k.iContext.device_metrics.extents aValue
  else if k.units = neogfx.units.Pixels then pure aValue
  else throw failure.device_metrics_unavailable

/-- Overload `delta units_converter::from_device_units(const delta& aValue)`. -/
def from_device_units_delta (k : units_converter) (aValue : delta) : Except failure delta :=
  if k.iContext.device_metrics_available then
    k.from_device_units_ext_delta k.iContext.device_metrics.extents aValue
  else if k.units = neogfx.units.Pixels then pure aValue
  else throw failure.device_metrics_unavailable

/-- Overload `size units_converter::from_device_units(const size& aValue)`. -/
def from_device_units_size (k : units_converter) (aValue : size) : Except failure size :=
  if k.iContext.device_metrics_available then
    k.from_device_units_ext_size k.iContext.device_metrics.extents aValue
  else if k.units = neogfx.units.Pixels then pure aValue
  else throw failure.device_metrics_unavailable

/-- Overload `point units_converter::from_device_units(const point& aValue)`. -/
def from_device_units_point (k : units_converter) (aValue : point) : Except failure point :=
  if k.iContext.device_metrics_available then
    k.from_device_units_ext_point k.iContext.device_metrics.extents aValue
  else if k.units = neogfx.units.Pixels then pure aValue
  else throw failure.device_metrics_unavailable

/-- Overload `rect units_converter::from_device_units(const rect& aValue)`. -/
def from_device_units_rect (k : units_converter) (aValue : rect) : Except failure rect :=
  if k.iContext.device_metrics_available then
    k.from_device_units_ext_rect k.iContext.device_metrics.extents aValue
  else if k.units = neogfx.units.Pixels then pure aValue
  else throw failure.device_metrics_unavailable

/-- Overload `dimension units_converter::from_device_units(dimension aValue)`. -/
def from_device_units_dimension (k : units_converter) (aValue : dimension) :
    Except failure dimension :=
  if k.iContext.device_metrics_available then do
    let r ← k.from_device_units_ext_size k.iContext.device_metrics.extents (size.mk aValue 0)
    pure r.cx
  else if k.units = neogfx.units.Pixels then pure aValue
  else throw failure.device_metrics_unavailable

/-- Overload `margins units_converter::from_device_units(const margins& aValue)`. -/
def from_device_units_margins (k : units_converter) (aValue : margins) : Except failure margins :=
  if k.iContext.device_metrics_available then do
    let l ← k.from_device_units_ext_size k.iContext.device_metrics.extents (size.mk aValue.left 0)
    let t ← k.from_device_units_ext_size k.iContext.device_metrics.extents (size.mk 0 aValue.top)
    let r ← k.from_device_units_ext_size k.iContext.device_metrics.extents (size.mk aValue.right 0)
    let b ← k.from_device_units_ext_size k.iContext.device_metrics.extents (size.mk 0 aValue.bottom)
    pure (margins.mk l.cx t.cy r.cx b.cy)
  else if k.units = neogfx.units.Pixels then pure aValue
  else throw failure.device_metrics_unavailable

/-- The pair of factors (horizontal, vertical) by which the switch of the explicit-extent
`to_device_units` overloads multiplies its argument, as one expression per case. -/
def to_factor (k : units_converter) (aExtents : size) : dimension × dimension :=
  match k.units with
  | .Points => (k.iContext.device_metrics.horizontal_dpi / 72, k.iContext.device_metrics.vertical_dpi / 72)
  | .Picas => (k.iContext.device_metrics.horizontal_dpi / 6, k.iContext.device_metrics.vertical_dpi / 6)
  | .Ems => (k.iContext.device_metrics.em_size * k.iContext.device_metrics.horizontal_dpi, k.iContext.device_metrics.em_size * k.iContext.device_metrics.vertical_dpi)
  | .Millimetres => (k.iContext.device_metrics.horizontal_dpi / 25.4, k.iContext.device_metrics.vertical_dpi / 25.4)
  | .Centimetres => (k.iContext.device_metrics.horizontal_dpi / 2.54, k.iContext.device_metrics.vertical_dpi / 2.54)
  | .Inches => (k.iContext.device_metrics.horizontal_dpi, k.iContext.device_metrics.vertical_dpi)
  | .Percentage => (aExtents.cx / 100, aExtents.cy / 100)
  | _ => (1, 1)

/-- The pair of factors (horizontal, vertical) by which the switch of the explicit-extent
`from_device_units` overloads multiplies its argument, as one expression per case. -/
def from_factor (k : units_converter) (aExtents : size) : dimension × dimension :=
  match k.units with
  | .Points => (72 / k.iContext.device_metrics.horizontal_dpi, 72 / k.iContext.device_metrics.vertical_dpi)
  | .Picas => (6 / k.iContext.device_metrics.horizontal_dpi, 6 / k.iContext.device_metrics.vertical_dpi)
  | .Ems => (1 / (k.iContext.device_metrics.em_size * k.iContext.device_metrics.horizontal_dpi), 1 / (k.iContext.device_metrics.em_size * k.iContext.device_metrics.vertical_dpi))
  | .Millimetres => (25.4 / k.iContext.device_metrics.horizontal_dpi, 25.4 / k.iContext.device_metrics.vertical_dpi)
  | .Centimetres => (2.54 / k.iContext.device_metrics.horizontal_dpi, 2.54 / k.iContext.device_metrics.vertical_dpi)
  | .Inches => (1 / k.iContext.device_metrics.horizontal_dpi, 1 / k.iContext.device_metrics.vertical_dpi)
  | .Percentage => (100 / aExtents.cx, 100 / aExtents.cy)
  | _ => (1, 1)

/-- The quantities the current unit divides by in `from_device_units` are non-zero:
both DPIs for the DPI-based units, the em-size as well for Ems, both components of
the reference extent for Percentage; nothing for Pixels. -/
def divisors_nonzero (k : units_converter) (aExtents : size) : Prop :=
  match k.units with
  | .Points | .Picas | .Millimetres | .Centimetres | .Inches =>
    k.iContext.device_metrics.horizontal_dpi ≠ 0 ∧ k.iContext.device_metrics.vertical_dpi ≠ 0
  | .Ems =>
    k.iContext.device_metrics.em_size ≠ 0 ∧ k.iContext.device_metrics.horizontal_dpi ≠ 0 ∧ k.iContext.device_metrics.vertical_dpi ≠ 0
  | .Percentage => aExtents.cx ≠ 0 ∧ aExtents.cy ≠ 0
  | _ => True

instance (k : units_converter) (aExtents : size) : Decidable (k.divisors_nonzero aExtents) := by
  unfold divisors_nonzero; split <;> infer_instance

/-- The condition under which an implicit-extent overload throws:
metrics unavailable and the current unit not Pixels. -/
def implicit_fails (k : units_converter) : Prop :=
  k.iContext.device_metrics_available = false ∧ k.units ≠ neogfx.units.Pixels

instance (k : units_converter) : Decidable k.implicit_fails := by
  unfold implicit_fails; infer_instance

end units_converter

/-! ## The spec's tables -/

/-- The per-unit factors of `to_device_units` in the spec's words, for the six
DPI-based units: `H`, `V` are the horizontal and vertical DPI, `E` the em-size. -/
def spec_to_device_factor (u : units) (H V E : dimension) : Option (dimension × dimension) :=
  match u with
  | .Points => some (H / 72, V / 72)
  | .Picas => some (H / 6, V / 6)
  | .Ems => some (E * H, E * V)
  | .Millimetres => some (H / 25.4, V / 25.4)
  | .Centimetres => some (H / 2.54, V / 2.54)
  | .Inches => some (H, V)
  | _ => none

/-- The value of `from_device_units` at the device value `(x, y)` in the spec's words,
for the six DPI-based units and Percentage. -/
def spec_from_device_value (u : units) (H V E : dimension) (extent : size) (x y : dimension) :
    Option (dimension × dimension) :=
  match u with
  | .Points => some (x * 72 / H, y * 72 / V)
  | .Picas => some (x * 6 / H, y * 6 / V)
  | .Ems => some (x / (E * H), y / (E * V))
  | .Millimetres => some (x * 25.4 / H, y * 25.4 / V)
  | .Centimetres => some (x * 2.54 / H, y * 2.54 / V)
  | .Inches => some (x / H, y / V)
  | .Percentage => some (x / extent.cx * 100, y / extent.cy * 100)
  | _ => none

/-! ## Sample converters -/

/-- A converter with available metrics: horizontal DPI 96, vertical DPI 72, em-size 1,
device extents 800 x 600. -/
def sample_converter (u : units) : units_converter :=
  ⟨⟨⟨true, ⟨96, 72, 1, ⟨800, 600⟩⟩⟩, u⟩, units.Pixels⟩

/-- A converter whose source reports that device metrics are unavailable. -/
def detached_converter (u : units) : units_converter :=
  ⟨⟨⟨false, ⟨0, 0, 0, ⟨0, 0⟩⟩⟩, u⟩, units.Pixels⟩

/-! ## Calls, scopes and the shared context -/

/-- The result of a conversion, tagged with its shape. -/
inductive geometry_value where
  | of_dimension (v : dimension)
  | of_vector2 (v : vector2)
  | of_delta (v : delta)
  | of_size (v : size)
  | of_point (v : point)
  | of_rect (v : rect)
  | of_margins (v : margins)
  deriving DecidableEq, Repr

/-- A call of one of the 26 conversion overloads of `units_converter`, with its
arguments: one constructor per overload, named as the embedded function. -/
inductive conversion where
  | to_device_units_dimension (aValue : dimension)
  | to_device_units_vector2 (aValue : vector2)
  | to_device_units_delta (aValue : delta)
  | to_device_units_size (aValue : size)
  | to_device_units_point (aValue : point)
  | to_device_units_rect (aValue : rect)
  | to_device_units_margins (aValue : margins)
  | to_device_units_ext_dimension (aExtents : size) (aValue : dimension)
  | to_device_units_ext_vector2 (aExtents : size) (aValue : vector2)
  | to_device_units_ext_delta (aExtents : size) (aValue : delta)
  | to_device_units_ext_size (aExtents : size) (aValue : size)
  | to_device_units_ext_point (aExtents : size) (aValue : point)
  | to_device_units_ext_rect (aExtents : size) (aValue : rect)
  | from_device_units_dimension (aValue : dimension)
  | from_device_units_vector2 (aValue : vector2)
  | from_device_units_delta (aValue : delta)
  | from_device_units_size (aValue : size)
  | from_device_units_point (aValue : point)
  | from_device_units_rect (aValue : rect)
  | from_device_units_margins (aValue : margins)
  | from_device_units_ext_dimension (aExtents : size) (aValue : dimension)
  | from_device_units_ext_vector2 (aExtents : size) (aValue : vector2)
  | from_device_units_ext_delta (aExtents : size) (aValue : delta)
  | from_device_units_ext_size (aExtents : size) (aValue : size)
  | from_device_units_ext_point (aExtents : size) (aValue : point)
  | from_device_units_ext_rect (aExtents : size) (aValue : rect)
  deriving DecidableEq, Repr

/-- Overload resolution: the call `c` made on the converter `k`. -/
def units_converter.convert (k : units_converter) : conversion → Except failure geometry_value
  | .to_device_units_dimension v => (k.to_device_units_dimension v).map geometry_value.of_dimension
  | .to_device_units_vector2 v => (k.to_device_units_vector2 v).map geometry_value.of_vector2
  | .to_device_units_delta v => (k.to_device_units_delta v).map geometry_value.of_delta
  | .to_device_units_size v => (k.to_device_units_size v).map geometry_value.of_size
  | .to_device_units_point v => (k.to_device_units_point v).map geometry_value.of_point
  | .to_device_units_rect v => (k.to_device_units_rect v).map geometry_value.of_rect
  | .to_device_units_margins v => (k.to_device_units_margins v).map geometry_value.of_margins
  | .to_device_units_ext_dimension e v =>
    (k.to_device_units_ext_dimension e v).map geometry_value.of_dimension
  | .to_device_units_ext_vector2 e v =>
    (k.to_device_units_ext_vector2 e v).map geometry_value.of_vector2
  | .to_device_units_ext_delta e v =>
    (k.to_device_units_ext_delta e v).map geometry_value.of_delta
  | .to_device_units_ext_size e v =>
    (k.to_device_units_ext_size e v).map geometry_value.of_size
  | .to_device_units_ext_point e v =>
    (k.to_device_units_ext_point e v).map geometry_value.of_point
  | .to_device_units_ext_rect e v =>
    (k.to_device_units_ext_rect e v).map geometry_value.of_rect
  | .from_device_units_dimension v => (k.from_device_units_dimension v).map geometry_value.of_dimension
  | .from_device_units_vector2 v => (k.from_device_units_vector2 v).map geometry_value.of_vector2
  | .from_device_units_delta v => (k.from_device_units_delta v).map geometry_value.of_delta
  | .from_device_units_size v => (k.from_device_units_size v).map geometry_value.of_size
  | .from_device_units_point v => (k.from_device_units_point v).map geometry_value.of_point
  | .from_device_units_rect v => (k.from_device_units_rect v).map geometry_value.of_rect
  | .from_device_units_margins v => (k.from_device_units_margins v).map geometry_value.of_margins
  | .from_device_units_ext_dimension e v =>
    (k.from_device_units_ext_dimension e v).map geometry_value.of_dimension
  | .from_device_units_ext_vector2 e v =>
    (k.from_device_units_ext_vector2 e v).map geometry_value.of_vector2
  | .from_device_units_ext_delta e v =>
    (k.from_device_units_ext_delta e v).map geometry_value.of_delta
  | .from_device_units_ext_size e v =>
    (k.from_device_units_ext_size e v).map geometry_value.of_size
  | .from_device_units_ext_point e v =>
    (k.from_device_units_ext_point e v).map geometry_value.of_point
  | .from_device_units_ext_rect e v =>
    (k.from_device_units_ext_rect e v).map geometry_value.of_rect

/-- The code a caller runs while a converter is alive, statement by statement:
`set_units` and `convert` are calls on the innermost live converter, and
`scope body rest` constructs a further converter on the same context, runs `body`,
lets that converter go out of scope and goes on with `rest`. -/
inductive prog where
  | done
  | set_units (aUnits : units) (rest : prog)
  | convert (c : conversion) (rest : prog)
  | scope (body : prog) (rest : prog)
  deriving Repr

/-- Runs `p` on the live converter `k`, whose field `iContext` is the present state of
the context it refers to.  Returns the converter when `p` ends or throws, and the
exception in flight, if any.  A conversion is a `const` member that writes nothing: the
converter is passed on as it is, and a thrown `device_metrics_unavailable` skips the
rest of `p`.  A nested converter is bound to the same context object, so after its
destructor has run (on both exits) the outer converter sees the context it left. -/
def run_in (k : units_converter) : prog → units_converter × Option failure
  | .done => (k, none)
  | .set_units u rest => run_in (k.set_units u).2 rest
  | .convert c rest =>
    match k.convert c with
    | .ok _ => run_in k rest
    | .error f => (k, some f)
  | .scope body rest =>
    match run_in (units_converter.mk_from k.iContext) body with
    | (inner, none) => run_in { k with iContext := inner.destroy } rest
    | (inner, some f) => ({ k with iContext := inner.destroy }, some f)

/-- A whole converter scope on the context `c`: constructor, `body`, destructor (which
runs whether `body` ended or threw).  Returns the context afterwards and the exception
that left the scope, if any. -/
def run_scope (c : units_context) (body : prog) : units_context × Option failure :=
  ((run_in (units_converter.mk_from c) body).1.destroy, (run_in (units_converter.mk_from c) body).2)

/-- A program that only converts: no `set_units`, no nested scope. -/
def prog.conversions_only : prog → Prop
  | .done => True
  | .set_units _ _ => False
  | .convert _ rest => rest.conversions_only
  | .scope _ _ => False

/-- A converter on a source with available metrics `m` and current unit `u`. -/
def metrics_converter (m : i_device_metrics) (u : units) : units_converter :=
  ⟨⟨⟨true, m⟩, u⟩, u⟩

/-! ## The member functions call by call -/

/-- A member function of `units_converter` run on a converter object, every call it makes
threaded through the object: the value returned or the exception thrown, and the converter
(with the present state of its context) afterwards.  A member that writes, such as
`set_units`, hands on a changed converter. -/
def member (α : Type) : Type := units_converter → Except failure α × units_converter

namespace member

/-- The statement `return a`. -/
def ret {α : Type} (a : α) : member α := fun k => (Except.ok a, k)

/-- The statement `throw f`: nothing after it runs, the object stays as it is then. -/
def raise {α : Type} (f : failure) : member α := fun k => (Except.error f, k)

/-- Sequencing: `f` runs on the value and on the object that `m` leaves; an exception
of `m` skips `f`. -/
def seq {α β : Type} (m : member α) (f : α → member β) : member β := fun k =>
  match m k with
  | (Except.ok a, k1) => f a k1
  | (Except.error e, k1) => (Except.error e, k1)

instance : Monad member where
  pure := ret
  bind := seq

end member

namespace stateful

/-- The call `iContext.device_metrics_available()`. -/
def device_metrics_available : member Bool := fun k =>
  (Except.ok k.iContext.device_metrics_available, k)

/-- The call `iContext.device_metrics()`. -/
def device_metrics : member i_device_metrics := fun k =>
  (Except.ok k.iContext.device_metrics, k)

/-- Member `units_converter::units`: the call `iContext.units()`. -/
def units : member neogfx.units := fun k => (Except.ok k.iContext.units, k)

/-- Member `units_converter::set_units`: the call `iContext.set_units(aUnits)`, which
writes the context's `iUnits`. -/
def set_units (aUnits : neogfx.units) : member neogfx.units := fun k =>
  (Except.ok (k.iContext.set_units aUnits).1,
    { k with iContext := (k.iContext.set_units aUnits).2 })

/-- The guard expression of the explicit-extent overloads, with its short-circuit order:
`!iContext.device_metrics_available() && units() != Pixels && units() != Percentage`. -/
def metrics_missing : member Bool := do
  if !(← device_metrics_available) then
    if (← units) != neogfx.units.Pixels then
      if (← units) != neogfx.units.Percentage then
        return true
  return false

/-- Overload `vector2 units_converter::to_device_units(const size& aExtents, const vector2& aValue)`,
call by call. -/
def to_device_units_ext_vector2 (aExtents : size) (aValue : vector2) : member vector2 := do
  if (← metrics_missing) then
    member.raise failure.device_metrics_unavailable
  else
    match (← units) with
    | .Points =>
      return aValue * vector2.mk ((1 / 72) * (← device_metrics).horizontal_dpi)
        ((1 / 72) * (← device_metrics).vertical_dpi)
    | .Picas =>
      return aValue * vector2.mk ((1 / 6) * (← device_metrics).horizontal_dpi)
        ((1 / 6) * (← device_metrics).vertical_dpi)
    | .Ems =>
      return aValue * vector2.mk (1 * (← device_metrics).em_size * (← device_metrics).horizontal_dpi)
        (1 * (← device_metrics).em_size * (← device_metrics).vertical_dpi)
    | .Millimetres =>
      return aValue * vector2.mk ((1 / 25.4) * (← device_metrics).horizontal_dpi)
        ((1 / 25.4) * (← device_metrics).vertical_dpi)
    | .Centimetres =>
      return aValue * vector2.mk ((1 / 2.54) * (← device_metrics).horizontal_dpi)
        ((1 / 2.54) * (← device_metrics).vertical_dpi)
    | .Inches =>
      return aValue * vector2.mk (1 * (← device_metrics).horizontal_dpi)
        (1 * (← device_metrics).vertical_dpi)
    | .Percentage =>
      return vector2.mk aExtents.cx aExtents.cy * vector2.mk (aValue.v0 / 100) (aValue.v1 / 100)
    | _ => return aValue

/-- Overload `delta units_converter::to_device_units(const size& aExtents, const delta& aValue)`,
call by call. -/
def to_device_units_ext_delta (aExtents : size) (aValue : delta) : member delta := do
  if (← metrics_missing) then
    member.raise failure.device_metrics_unavailable
  else
    match (← units) with
    | .Points =>
      return aValue * delta.mk ((1 / 72) * (← device_metrics).horizontal_dpi)
        ((1 / 72) * (← device_metrics).vertical_dpi)
    | .Picas =>
      return aValue * delta.mk ((1 / 6) * (← device_metrics).horizontal_dpi)
        ((1 / 6) * (← device_metrics).vertical_dpi)
    | .Ems =>
      return aValue * delta.mk (1 * (← device_metrics).em_size * (← device_metrics).horizontal_dpi)
        (1 * (← device_metrics).em_size * (← device_metrics).vertical_dpi)
    | .Millimetres =>
      return aValue * delta.mk ((1 / 25.4) * (← device_metrics).horizontal_dpi)
        ((1 / 25.4) * (← device_metrics).vertical_dpi)
    | .Centimetres =>
      return aValue * delta.mk ((1 / 2.54) * (← device_metrics).horizontal_dpi)
        ((1 / 2.54) * (← device_metrics).vertical_dpi)
    | .Inches =>
      return aValue * delta.mk (1 * (← device_metrics).horizontal_dpi)
        (1 * (← device_metrics).vertical_dpi)
    | .Percentage =>
      return aExtents.to_delta * delta.mk (aValue.dx / 100) (aValue.dy / 100)
    | _ => return aValue

/-- Overload `size units_converter::to_device_units(const size& aExtents, const size& aValue)`,
call by call. -/
def to_device_units_ext_size (aExtents : size) (aValue : size) : member size := do
  if (← metrics_missing) then
    member.raise failure.device_metrics_unavailable
  else
    match (← units) with
    | .Points =>
      return aValue * size.mk ((1 / 72) * (← device_metrics).horizontal_dpi)
        ((1 / 72) * (← device_metrics).vertical_dpi)
    | .Picas =>
      return aValue * size.mk ((1 / 6) * (← device_metrics).horizontal_dpi)
        ((1 / 6) * (← device_metrics).vertical_dpi)
    | .Ems =>
      return aValue * size.mk (1 * (← device_metrics).em_size * (← device_metrics).horizontal_dpi)
        (1 * (← device_metrics).em_size * (← device_metrics).vertical_dpi)
    | .Millimetres =>
      return aValue * size.mk ((1 / 25.4) * (← device_metrics).horizontal_dpi)
        ((1 / 25.4) * (← device_metrics).vertical_dpi)
    | .Centimetres =>
      return aValue * size.mk ((1 / 2.54) * (← device_metrics).horizontal_dpi)
        ((1 / 2.54) * (← device_metrics).vertical_dpi)
    | .Inches =>
      return aValue * size.mk (1 * (← device_metrics).horizontal_dpi)
        (1 * (← device_metrics).vertical_dpi)
    | .Percentage =>
      return aExtents * size.mk (aValue.cx / 100) (aValue.cy / 100)
    | _ => return aValue

/-- Overload `point units_converter::to_device_units(const size& aExtents, const point& aValue)`,
call by call. -/
def to_device_units_ext_point (aExtents : size) (aValue : point) : member point := do
  if (← metrics_missing) then
    member.raise failure.device_metrics_unavailable
  else
    match (← units) with
    | .Points =>
      return aValue * point.mk ((1 / 72) * (← device_metrics).horizontal_dpi)
        ((1 / 72) * (← device_metrics).vertical_dpi)
    | .Picas =>
      return aValue * point.mk ((1 / 6) * (← device_metrics).horizontal_dpi)
        ((1 / 6) * (← device_metrics).vertical_dpi)
    | .Ems =>
      return aValue * point.mk (1 * (← device_metrics).em_size * (← device_metrics).horizontal_dpi)
        (1 * (← device_metrics).em_size * (← device_metrics).vertical_dpi)
    | .Millimetres =>
      return aValue * point.mk ((1 / 25.4) * (← device_metrics).horizontal_dpi)
        ((1 / 25.4) * (← device_metrics).vertical_dpi)
    | .Centimetres =>
      return aValue * point.mk ((1 / 2.54) * (← device_metrics).horizontal_dpi)
        ((1 / 2.54) * (← device_metrics).vertical_dpi)
    | .Inches =>
      return aValue * point.mk (1 * (← device_metrics).horizontal_dpi)
        (1 * (← device_metrics).vertical_dpi)
    | .Percentage =>
      return aExtents.to_point * point.mk (aValue.x / 100) (aValue.y / 100)
    | _ => return aValue

/-- Overload `dimension units_converter::to_device_units(const size& aExtents, dimension aValue)`,
call by call. -/
def to_device_units_ext_dimension (aExtents : size) (aValue : dimension) : member dimension := do
  if (← metrics_missing) then
    member.raise failure.device_metrics_unavailable
  else
    return (← to_device_units_ext_size aExtents (size.mk aValue 0)).cx

/-- Overload `rect units_converter::to_device_units(const size& aExtents, const rect& aValue)`,
call by call. -/
def to_device_units_ext_rect (aExtents : size) (aValue : rect) : member rect := do
  if (← metrics_missing) then
    member.raise failure.device_metrics_unavailable
  else
    return rect.mk (← to_device_units_ext_point aExtents aValue.position)
      (← to_device_units_ext_size aExtents aValue.extents)

/-- Overload `vector2 units_converter::to_device_units(const vector2& aValue)`, call by call. -/
def to_device_units_vector2 (aValue : vector2) : member vector2 := do
  if (← device_metrics_available) then
    to_device_units_ext_vector2 (← device_metrics).extents aValue
  else if (← units) = neogfx.units.Pixels then
    return aValue
  else
    member.raise failure.device_metrics_unavailable

/-- Overload `delta units_converter::to_device_units(const delta& aValue)`, call by call. -/
def to_device_units_delta (aValue : delta) : member delta := do
  if (← device_metrics_available) then
    to_device_units_ext_delta (← device_metrics).extents aValue
  else if (← units) = neogfx.units.Pixels then
    return aValue
  else
    member.raise failure.device_metrics_unavailable

/-- Overload `size units_converter::to_device_units(const size& aValue)`, call by call. -/
def to_device_units_size (aValue : size) : member size := do
  if (← device_metrics_available) then
    to_device_units_ext_size (← device_metrics).extents aValue
  else if (← units) = neogfx.units.Pixels then
    return aValue
  else
    member.raise failure.device_metrics_unavailable

/-- Overload `point units_converter::to_device_units(const point& aValue)`, call by call. -/
def to_device_units_point (aValue : point) : member point := do
  if (← device_metrics_available) then
    to_device_units_ext_point (← device_metrics).extents aValue
  else if (← units) = neogfx.units.Pixels then
    return aValue
  else
    member.raise failure.device_metrics_unavailable

/-- Overload `rect units_converter::to_device_units(const rect& aValue)`, call by call. -/
def to_device_units_rect (aValue : rect) : member rect := do
  if (← device_metrics_available) then
    to_device_units_ext_rect (← device_metrics).extents aValue
  else if (← units) = neogfx.units.Pixels then
    return aValue
  else
    member.raise failure.device_metrics_unavailable

/-- Overload `dimension units_converter::to_device_units(dimension aValue)`, call by call. -/
def to_device_units_dimension (aValue : dimension) : member dimension := do
  if (← device_metrics_available) then
    return (← to_device_units_ext_size (← device_metrics).extents (size.mk aValue 0)).cx
  else if (← units) = neogfx.units.Pixels then
    return aValue
  else
    member.raise failure.device_metrics_unavailable

/-- Overload `margins units_converter::to_device_units(const margins& aValue)`, call by call. -/
def to_device_units_margins (aValue : margins) : member margins := do
  if (← device_metrics_available) then
    return margins.mk
      (← to_device_units_ext_size (← device_metrics).extents (size.mk aValue.left 0)).cx
      (← to_device_units_ext_size (← device_metrics).extents (size.mk 0 aValue.top)).cy
      (← to_device_units_ext_size (← device_metrics).extents (size.mk aValue.right 0)).cx
      (← to_device_units_ext_size (← device_metrics).extents (size.mk 0 aValue.bottom)).cy
  else if (← units) = neogfx.units.Pixels then
    return aValue
  else
    member.raise failure.device_metrics_unavailable

/-- Overload `vector2 units_converter::from_device_units(const size& aExtents, const vector2& aValue)`,
call by call. -/
def from_device_units_ext_vector2 (aExtents : size) (aValue : vector2) : member vector2 := do
  if (← metrics_missing) then
    member.raise failure.device_metrics_unavailable
  else
    match (← units) with
    | .Points =>
      return aValue * vector2.mk (72 / (← device_metrics).horizontal_dpi)
        (72 / (← device_metrics).vertical_dpi)
    | .Picas =>
      return aValue * vector2.mk (6 / (← device_metrics).horizontal_dpi)
        (6 / (← device_metrics).vertical_dpi)
    | .Ems =>
      return aValue * vector2.mk ((1 / (← device_metrics).em_size) / (← device_metrics).horizontal_dpi)
        ((1 / (← device_metrics).em_size) / (← device_metrics).vertical_dpi)
    | .Millimetres =>
      return aValue * vector2.mk (25.4 / (← device_metrics).horizontal_dpi)
        (25.4 / (← device_metrics).vertical_dpi)
    | .Centimetres =>
      return aValue * vector2.mk (2.54 / (← device_metrics).horizontal_dpi)
        (2.54 / (← device_metrics).vertical_dpi)
    | .Inches =>
      return aValue * vector2.mk (1 / (← device_metrics).horizontal_dpi)
        (1 / (← device_metrics).vertical_dpi)
    | .Percentage =>
      return aValue / vector2.mk aExtents.cx aExtents.cy * vector2.mk 100 100
    | _ => return aValue

/-- Overload `delta units_converter::from_device_units(const size& aExtents, const delta& aValue)`,
call by call. -/
def from_device_units_ext_delta (aExtents : size) (aValue : delta) : member delta := do
  if (← metrics_missing) then
    member.raise failure.device_metrics_unavailable
  else
    match (← units) with
    | .Points =>
      return aValue * delta.mk (72 / (← device_metrics).horizontal_dpi)
        (72 / (← device_metrics).vertical_dpi)
    | .Picas =>
      return aValue * delta.mk (6 / (← device_metrics).horizontal_dpi)
        (6 / (← device_metrics).vertical_dpi)
    | .Ems =>
      return aValue * delta.mk ((1 / (← device_metrics).em_size) / (← device_metrics).horizontal_dpi)
        ((1 / (← device_metrics).em_size) / (← device_metrics).vertical_dpi)
    | .Millimetres =>
      return aValue * delta.mk (25.4 / (← device_metrics).horizontal_dpi)
        (25.4 / (← device_metrics).vertical_dpi)
    | .Centimetres =>
      return aValue * delta.mk (2.54 / (← device_metrics).horizontal_dpi)
        (2.54 / (← device_metrics).vertical_dpi)
    | .Inches =>
      return aValue * delta.mk (1 / (← device_metrics).horizontal_dpi)
        (1 / (← device_metrics).vertical_dpi)
    | .Percentage =>
      return aValue / aExtents.to_delta * delta.mk 100 100
    | _ => return aValue

/-- Overload `size units_converter::from_device_units(const size& aExtents, const size& aValue)`,
call by call. -/
def from_device_units_ext_size (aExtents : size) (aValue : size) : member size := do
  if (← metrics_missing) then
    member.raise failure.device_metrics_unavailable
  else
    match (← units) with
    | .Points =>
      return aValue * size.mk (72 / (← device_metrics).horizontal_dpi)
        (72 / (← device_metrics).vertical_dpi)
    | .Picas =>
      return aValue * size.mk (6 / (← device_metrics).horizontal_dpi)
        (6 / (← device_metrics).vertical_dpi)
    | .Ems =>
      return aValue * size.mk ((1 / (← device_metrics).em_size) / (← device_metrics).horizontal_dpi)
        ((1 / (← device_metrics).em_size) / (← device_metrics).vertical_dpi)
    | .Millimetres =>
      return aValue * size.mk (25.4 / (← device_metrics).horizontal_dpi)
        (25.4 / (← device_metrics).vertical_dpi)
    | .Centimetres =>
      return aValue * size.mk (2.54 / (← device_metrics).horizontal_dpi)
        (2.54 / (← device_metrics).vertical_dpi)
    | .Inches =>
      return aValue * size.mk (1 / (← device_metrics).horizontal_dpi)
        (1 / (← device_metrics).vertical_dpi)
    | .Percentage =>
      return aValue / aExtents * size.mk 100 100
    | _ => return aValue

/-- Overload `point units_converter::from_device_units(const size& aExtents, const point& aValue)`,
call by call. -/
def from_device_units_ext_point (aExtents : size) (aValue : point) : member point := do
  if (← metrics_missing) then
    member.raise failure.device_metrics_unavailable
  else
    match (← units) with
    | .Points =>
      return aValue * point.mk (72 / (← device_metrics).horizontal_dpi)
        (72 / (← device_metrics).vertical_dpi)
    | .Picas =>
      return aValue * point.mk (6 / (← device_metrics).horizontal_dpi)
        (6 / (← device_metrics).vertical_dpi)
    | .Ems =>
      return aValue * point.mk ((1 / (← device_metrics).em_size) / (← device_metrics).horizontal_dpi)
        ((1 / (← device_metrics).em_size) / (← device_metrics).vertical_dpi)
    | .Millimetres =>
      return aValue * point.mk (25.4 / (← device_metrics).horizontal_dpi)
        (25.4 / (← device_metrics).vertical_dpi)
    | .Centimetres =>
      return aValue * point.mk (2.54 / (← device_metrics).horizontal_dpi)
        (2.54 / (← device_metrics).vertical_dpi)
    | .Inches =>
      return aValue * point.mk (1 / (← device_metrics).horizontal_dpi)
        (1 / (← device_metrics).vertical_dpi)
    | .Percentage =>
      return aValue / aExtents.to_point * point.mk 100 100
    | _ => return aValue

/-- Overload `dimension units_converter::from_device_units(const size& aExtents, dimension aValue)`,
call by call. -/
def from_device_units_ext_dimension (aExtents : size) (aValue : dimension) : member dimension := do
  if (← metrics_missing) then
    member.raise failure.device_metrics_unavailable
  else
    return (← from_device_units_ext_size aExtents (size.mk aValue 0)).cx

/-- Overload `rect units_converter::from_device_units(const size& aExtents, const rect& aValue)`,
call by call. -/
def from_device_units_ext_rect (aExtents : size) (aValue : rect) : member rect := do
  if (← metrics_missing) then
    member.raise failure.device_metrics_unavailable
  else
    return rect.mk (← from_device_units_ext_point aExtents aValue.position)
      (← from_device_units_ext_size aExtents aValue.extents)

/-- Overload `vector2 units_converter::from_device_units(const vector2& aValue)`, call by call. -/
def from_device_units_vector2 (aValue : vector2) : member vector2 := do
  if (← device_metrics_available) then
    from_device_units_ext_vector2 (← device_metrics).extents aValue
  else if (← units) = neogfx.units.Pixels then
    return aValue
  else
    member.raise failure.device_metrics_unavailable

/-- Overload `delta units_converter::from_device_units(const delta& aValue)`, call by call. -/
def from_device_units_delta (aValue : delta) : member delta := do
  if (← device_metrics_available) then
    from_device_units_ext_delta (← device_metrics).extents aValue
  else if (← units) = neogfx.units.Pixels then
    return aValue
  else
    member.raise failure.device_metrics_unavailable

/-- Overload `size units_converter::from_device_units(const size& aValue)`, call by call. -/
def from_device_units_size (aValue : size) : member size := do
  if (← device_metrics_available) then
    from_device_units_ext_size (← device_metrics).extents aValue
  else if (← units) = neogfx.units.Pixels then
    return aValue
  else
    member.raise failure.device_metrics_unavailable

/-- Overload `point units_converter::from_device_units(const point& aValue)`, call by call. -/
def from_device_units_point (aValue : point) : member point := do
  if (← device_metrics_available) then
    from_device_units_ext_point (← device_metrics).extents aValue
  else if (← units) = neogfx.units.Pixels then
    return aValue
  else
    member.raise failure.device_metrics_unavailable

/-- Overload `rect units_converter::from_device_units(const rect& aValue)`, call by call. -/
def from_device_units_rect (aValue : rect) : member rect := do
  if (← device_metrics_available) then
    from_device_units_ext_rect (← device_metrics).extents aValue
  else if (← units) = neogfx.units.Pixels then
    return aValue
  else
    member.raise failure.device_metrics_unavailable

/-- Overload `dimension units_converter::from_device_units(dimension aValue)`, call by call. -/
def from_device_units_dimension (aValue : dimension) : member dimension := do
  if (← device_metrics_available) then
    return (← from_device_units_ext_size (← device_metrics).extents (size.mk aValue 0)).cx
  else if (← units) = neogfx.units.Pixels then
    return aValue
  else
    member.raise failure.device_metrics_unavailable

/-- Overload `margins units_converter::from_device_units(const margins& aValue)`, call by call. -/
def from_device_units_margins (aValue : margins) : member margins := do
  if (← device_metrics_available) then
    return margins.mk
      (← from_device_units_ext_size (← device_metrics).extents (size.mk aValue.left 0)).cx
      (← from_device_units_ext_size (← device_metrics).extents (size.mk 0 aValue.top)).cy
      (← from_device_units_ext_size (← device_metrics).extents (size.mk aValue.right 0)).cx
      (← from_device_units_ext_size (← device_metrics).extents (size.mk 0 aValue.bottom)).cy
  else if (← units) = neogfx.units.Pixels then
    return aValue
  else
    member.raise failure.device_metrics_unavailable

/-- Overload resolution: the call `c`, run on the converter object. -/
def convert : conversion → member geometry_value
  | .to_device_units_dimension v => do return geometry_value.of_dimension (← to_device_units_dimension v)
  | .to_device_units_vector2 v => do return geometry_value.of_vector2 (← to_device_units_vector2 v)
  | .to_device_units_delta v => do return geometry_value.of_delta (← to_device_units_delta v)
  | .to_device_units_size v => do return geometry_value.of_size (← to_device_units_size v)
  | .to_device_units_point v => do return geometry_value.of_point (← to_device_units_point v)
  | .to_device_units_rect v => do return geometry_value.of_rect (← to_device_units_rect v)
  | .to_device_units_margins v => do return geometry_value.of_margins (← to_device_units_margins v)
  | .to_device_units_ext_dimension e v =>
    do return geometry_value.of_dimension (← to_device_units_ext_dimension e v)
  | .to_device_units_ext_vector2 e v =>
    do return geometry_value.of_vector2 (← to_device_units_ext_vector2 e v)
  | .to_device_units_ext_delta e v =>
    do return geometry_value.of_delta (← to_device_units_ext_delta e v)
  | .to_device_units_ext_size e v =>
    do return geometry_value.of_size (← to_device_units_ext_size e v)
  | .to_device_units_ext_point e v =>
    do return geometry_value.of_point (← to_device_units_ext_point e v)
  | .to_device_units_ext_rect e v =>
    do return geometry_value.of_rect (← to_device_units_ext_rect e v)
  | .from_device_units_dimension v => do return geometry_value.of_dimension (← from_device_units_dimension v)
  | .from_device_units_vector2 v => do return geometry_value.of_vector2 (← from_device_units_vector2 v)
  | .from_device_units_delta v => do return geometry_value.of_delta (← from_device_units_delta v)
  | .from_device_units_size v => do return geometry_value.of_size (← from_device_units_size v)
  | .from_device_units_point v => do return geometry_value.of_point (← from_device_units_point v)
  | .from_device_units_rect v => do return geometry_value.of_rect (← from_device_units_rect v)
  | .from_device_units_margins v => do return geometry_value.of_margins (← from_device_units_margins v)
  | .from_device_units_ext_dimension e v =>
    do return geometry_value.of_dimension (← from_device_units_ext_dimension e v)
  | .from_device_units_ext_vector2 e v =>
    do return geometry_value.of_vector2 (← from_device_units_ext_vector2 e v)
  | .from_device_units_ext_delta e v =>
    do return geometry_value.of_delta (← from_device_units_ext_delta e v)
  | .from_device_units_ext_size e v =>
    do return geometry_value.of_size (← from_device_units_ext_size e v)
  | .from_device_units_ext_point e v =>
    do return geometry_value.of_point (← from_device_units_ext_point e v)
  | .from_device_units_ext_rect e v =>
    do return geometry_value.of_rect (← from_device_units_ext_rect e v)

end stateful

/-! ## The button (`src/gui/widget/button.cpp`) -/

/-- Modelled from the spec: the enumeration `button_checkable` of `button.hpp` (not in
src); the source names `NotCheckable` and `TriState`, `BiState` is the checkable mode
that is neither. -/
inductive button_checkable where
  | NotCheckable
  | BiState
  | TriState
  deriving DecidableEq, Repr

/-- The events of a button that `button.cpp` triggers. -/
inductive button_event where
  | pressed
  | double_clicked
  | released
  | right_clicked
  | clicked
  | async_clicked
  | toggled
  | checked
  | unchecked
  | indeterminate
  deriving DecidableEq, Repr

/-- What a member function does besides writing the fields: a call of `update()` or
the trigger of an event. -/
inductive button_effect where
  | update
  | trigger (e : button_event)
  deriving DecidableEq, Repr

/-- The exception of `button::set_checked_state`. -/
inductive button_failure where
  | not_tri_state_checkable
  deriving DecidableEq, Repr

/-- Modelled from the spec: the scan codes of `key_pressed` (header not in src): the
space key and the others. -/
inductive scan_code_e where
  | ScanCode_SPACE
  | other (raw : Nat)
  deriving DecidableEq, Repr

/-- Modelled from the spec: the enumeration `mouse_button` (header not in src). -/
inductive mouse_button where
  | Left
  | Right
  | other (raw : Nat)
  deriving DecidableEq, Repr

/-- The class `button`, as far as the checked state goes: the fields `iCheckable` and
`iCheckedState` (`none` is `std::nullopt`, the indeterminate state), and, as a ghost field,
the `update()` calls and event triggers so far, oldest first.  Event handlers are code of
the subscribers, not of the button: a trigger is recorded, and what a handler then does
to the button is not part of the member function (the one thing `handle_clicked` asks
about it, whether the button was destroyed, is an argument there). -/
structure button where
  iCheckable : button_checkable
  iCheckedState : Option Bool
  trace : List button_effect
  deriving DecidableEq, Repr

namespace button

/-- The constructors `button::button(...)`: all twelve start with `NotCheckable` and the
checked state `false`. -/
def construct : button := ⟨button_checkable.NotCheckable, some false, []⟩

/-- The call `update()` of the widget base class, recorded. -/
def update (b : button) : button := { b with trace := b.trace ++ [button_effect.update] }

/-- The call `e.trigger()` (or `async_trigger()`), recorded. -/
def trigger (b : button) (e : button_event) : button :=
  { b with trace := b.trace ++ [button_effect.trigger e] }

/-- Member `button::checkable`. -/
def checkable (b : button) : button_checkable := b.iCheckable

/-- Member `button::set_checkable`. -/
def set_checkable (b : button) (aCheckable : button_checkable) : button :=
  { b with iCheckable := aCheckable }

/-- Member `button::is_checked`. -/
def is_checked (b : button) : Bool := b.iCheckedState != none && b.iCheckedState == some true

/-- Member `button::is_unchecked`. -/
def is_unchecked (b : button) : Bool :=
  b.iCheckedState != none && b.iCheckedState == some false

/-- Member `button::is_indeterminate`. -/
def is_indeterminate (b : button) : Bool := b.iCheckedState == none

/-- Member `button::can_toggle`. -/
def can_toggle (_b : button) : Bool := true

/-- Member `button::checked_state`. -/
def checked_state (b : button) : Option Bool := b.iCheckedState

/-- Member `button::set_checked_state`: the returned flag or the exception, and the button
afterwards (on the throw nothing has been written yet). -/
def set_checked_state (b : button) (aCheckedState : Option Bool) :
    Except button_failure Bool × button :=
  if b.iCheckedState = aCheckedState then
    (pure false, b)
  else if aCheckedState = none ∧ b.iCheckable ≠ button_checkable.TriState then
    (throw button_failure.not_tri_state_checkable, b)
  else
    let b1 : button := { b with iCheckedState := aCheckedState }
    let b2 := b1.update
    let b3 := b2.trigger button_event.toggled
    if b3.is_checked then
      (pure true, b3.trigger button_event.checked)
    else if b3.is_unchecked then
      (pure true, b3.trigger button_event.unchecked)
    else if b3.is_indeterminate then
      (pure true, b3.trigger button_event.indeterminate)
    else
      (pure true, b3)

/-- A member returning `void` that forwards to `set_checked_state` and drops the flag. -/
def forward (r : Except button_failure Bool × button) : Except button_failure Unit × button :=
  (r.1.map fun _ => (), r.2)

/-- Member `button::check`. -/
def check (b : button) : Except button_failure Unit × button :=
  forward (b.set_checked_state (some true))

/-- Member `button::uncheck`. -/
def uncheck (b : button) : Except button_failure Unit × button :=
  forward (b.set_checked_state (some false))

/-- Member `button::set_indeterminate`. -/
def set_indeterminate (b : button) : Except button_failure Unit × button :=
  forward (b.set_checked_state none)

/-- Member `button::set_checked`. -/
def set_checked (b : button) (aChecked : Bool) : Except button_failure Unit × button :=
  forward (b.set_checked_state (some aChecked))

/-- Member `button::toggle`. -/
def toggle (b : button) : Except button_failure Unit × button :=
  if !b.can_toggle then
    (pure (), b)
  else if b.is_checked || b.is_indeterminate then
    b.set_checked false
  else
    b.set_checked true

/-- Member `button::handle_clicked`; `destroyed` is the value of the `destroyed_flag`
after the `clicked` handlers have run. -/
def handle_clicked (b : button) (destroyed : Bool) : Except button_failure Unit × button :=
  let b1 := b.trigger button_event.clicked
  let b2 := b1.trigger button_event.async_clicked
  if !destroyed && b2.iCheckable != button_checkable.NotCheckable then
    b2.toggle
  else
    (pure (), b2)

/-- Member `button::key_pressed`. -/
def key_pressed (b : button) (aScanCode : scan_code_e) (destroyed : Bool) :
    Except button_failure Bool × button :=
  if aScanCode = scan_code_e.ScanCode_SPACE then
    ((b.handle_clicked destroyed).1.map fun _ => true, (b.handle_clicked destroyed).2)
  else
    (pure false, b)

/-- Member `button::mnemonic_execute`. -/
def mnemonic_execute (b : button) (destroyed : Bool) : Except button_failure Unit × button :=
  b.handle_clicked destroyed

/-- Member `button::mouse_button_released`.  `wasCapturing` is `capturing()` on entry,
`inside` is `client_rect().contains(aPosition)`; both, and the base-class call
`widget::mouse_button_released`, belong to the widget base class (not in src), which
does not touch the fields of the button. -/
def mouse_button_released (b : button) (aButton : mouse_button)
    (wasCapturing inside destroyed : Bool) : Except button_failure Unit × button :=
  if aButton = mouse_button.Left then
    let b1 := b.update
    if wasCapturing then
      let r := if inside then b1.handle_clicked destroyed else (pure (), b1)
      match r.1 with
      | .error f => (throw f, r.2)
      | .ok _ => if !destroyed then (pure (), r.2.trigger button_event.released) else (pure (), r.2)
    else
      (pure (), b1)
  else if aButton = mouse_button.Right then
    if wasCapturing && inside then (pure (), b.trigger button_event.right_clicked)
    else (pure (), b)
  else
    (pure (), b)

end button

/-- The calls a client makes on a button that bear on its checked state; `click` is
`handle_clicked` on a button that outlives the click. -/
inductive button_call where
  | check
  | uncheck
  | set_checked (aChecked : Bool)
  | set_indeterminate
  | toggle
  | click
  | set_checkable (aCheckable : button_checkable)
  deriving DecidableEq, Repr

/-- One call on the button: its outcome and the button afterwards. -/
def button.call (b : button) : button_call → Except button_failure Unit × button
  | .check => b.check
  | .uncheck => b.uncheck
  | .set_checked a => b.set_checked a
  | .set_indeterminate => b.set_indeterminate
  | .toggle => b.toggle
  | .click => b.handle_clicked false
  | .set_checkable m => (pure (), b.set_checkable m)

/-- A sequence of calls, the caller catching a thrown `not_tri_state_checkable` and going
on with the next call. -/
def button.run_calls (b : button) : List button_call → button
  | [] => b
  | c :: cs => button.run_calls (b.call c).2 cs

/-- The checked state after a toggle, in the claim's words: checked to unchecked,
indeterminate to unchecked, unchecked to checked. -/
def spec_toggled_state : Option Bool → Option Bool
  | some true => some false
  | none => some false
  | some false => some true

/-- The event matching a checked state: `checked`, `unchecked` or `indeterminate`. -/
def spec_state_event : Option Bool → button_event
  | some true => button_event.checked
  | some false => button_event.unchecked
  | none => button_event.indeterminate

/-- The events among the effects of a trace, in order. -/
def events_of : List button_effect → List button_event
  | [] => []
  | button_effect.update :: rest => events_of rest
  | button_effect.trigger e :: rest => e :: events_of rest

/-! ## Reading the switches -/

theorem size_mul_def (a b : size) : a * b = ⟨a.cx * b.cx, a.cy * b.cy⟩ := rfl

theorem size_div_def (a b : size) : a / b = ⟨a.cx / b.cx, a.cy / b.cy⟩ := rfl

theorem point_mul_def (a b : point) : a * b = ⟨a.x * b.x, a.y * b.y⟩ := rfl

theorem point_div_def (a b : point) : a / b = ⟨a.x / b.x, a.y / b.y⟩ := rfl

theorem delta_mul_def (a b : delta) : a * b = ⟨a.dx * b.dx, a.dy * b.dy⟩ := rfl

theorem delta_div_def (a b : delta) : a / b = ⟨a.dx / b.dx, a.dy / b.dy⟩ := rfl

theorem vector2_mul_def (a b : vector2) : a * b = ⟨a.v0 * b.v0, a.v1 * b.v1⟩ := rfl

theorem vector2_div_def (a b : vector2) : a / b = ⟨a.v0 / b.v0, a.v1 / b.v1⟩ := rfl

theorem throw_def {α : Type} (f : failure) : (throw f : Except failure α) = Except.error f := rfl

theorem pure_def {α : Type} (a : α) : (pure a : Except failure α) = Except.ok a := rfl

theorem bind_ok {α β : Type} (a : α) (f : α → Except failure β) :
    (Except.ok a >>= f) = f a := rfl

theorem bind_error {α β : Type} (e : failure) (f : α → Except failure β) :
    ((Except.error e : Except failure α) >>= f) = Except.error e := rfl

theorem failure_eq (f : failure) : f = failure.device_metrics_unavailable := by
  cases f; rfl

namespace units_converter

/-- The switch of `to_device_units_ext_size` multiplies each axis by its factor. -/
theorem to_ext_size_eq (k : units_converter) (e : size) (v : size) :
    k.to_device_units_ext_size e v =
      if k.metrics_missing then Except.error failure.device_metrics_unavailable
      else Except.ok ⟨v.cx * (k.to_factor e).1, v.cy * (k.to_factor e).2⟩ := by
  unfold to_device_units_ext_size to_factor
  by_cases hm : k.metrics_missing
  · simp only [hm, if_true, throw_def]
  · simp only [hm, if_false]
    cases hu : k.units <;>
      simp only [pure_def, Except.ok.injEq, size.mk.injEq, size_mul_def, size_div_def, mul_one,
        size.to_point, size.to_delta] <;>
      first | trivial | (constructor <;> ring)

/-- The switch of `to_device_units_ext_point` multiplies each axis by its factor. -/
theorem to_ext_point_eq (k : units_converter) (e : size) (v : point) :
    k.to_device_units_ext_point e v =
      if k.metrics_missing then Except.error failure.device_metrics_unavailable
      else Except.ok ⟨v.x * (k.to_factor e).1, v.y * (k.to_factor e).2⟩ := by
  unfold to_device_units_ext_point to_factor
  by_cases hm : k.metrics_missing
  · simp only [hm, if_true, throw_def]
  · simp only [hm, if_false]
    cases hu : k.units <;>
      simp only [pure_def, Except.ok.injEq, point.mk.injEq, point_mul_def, point_div_def, mul_one,
        size.to_point, size.to_delta] <;>
      first | trivial | (constructor <;> ring)

/-- The switch of `to_device_units_ext_delta` multiplies each axis by its factor. -/
theorem to_ext_delta_eq (k : units_converter) (e : size) (v : delta) :
    k.to_device_units_ext_delta e v =
      if k.metrics_missing then Except.error failure.device_metrics_unavailable
      else Except.ok ⟨v.dx * (k.to_factor e).1, v.dy * (k.to_factor e).2⟩ := by
  unfold to_device_units_ext_delta to_factor
  by_cases hm : k.metrics_missing
  · simp only [hm, if_true, throw_def]
  · simp only [hm, if_false]
    cases hu : k.units <;>
      simp only [pure_def, Except.ok.injEq, delta.mk.injEq, delta_mul_def, delta_div_def, mul_one,
        size.to_point, size.to_delta] <;>
      first | trivial | (constructor <;> ring)

/-- The switch of `to_device_units_ext_vector2` multiplies each axis by its factor. -/
theorem to_ext_vector2_eq (k : units_converter) (e : size) (v : vector2) :
    k.to_device_units_ext_vector2 e v =
      if k.metrics_missing then Except.error failure.device_metrics_unavailable
      else Except.ok ⟨v.v0 * (k.to_factor e).1, v.v1 * (k.to_factor e).2⟩ := by
  unfold to_device_units_ext_vector2 to_factor
  by_cases hm : k.metrics_missing
  · simp only [hm, if_true, throw_def]
  · simp only [hm, if_false]
    cases hu : k.units <;>
      simp only [pure_def, Except.ok.injEq, vector2.mk.injEq, vector2_mul_def, vector2_div_def, mul_one,
        size.to_point, size.to_delta] <;>
      first | trivial | (constructor <;> ring)

/-- The scalar overload is the horizontal axis of the size overload. -/
theorem to_ext_dimension_eq (k : units_converter) (e : size) (v : dimension) :
    k.to_device_units_ext_dimension e v =
      if k.metrics_missing then Except.error failure.device_metrics_unavailable
      else Except.ok (v * (k.to_factor e).1) := by
  unfold to_device_units_ext_dimension
  by_cases hm : k.metrics_missing
  · simp only [hm, if_true, throw_def]
  · simp only [hm, if_false, to_ext_size_eq, bind_ok, pure_def]

/-- The rectangle overload converts position and extents separately. -/
theorem to_ext_rect_eq (k : units_converter) (e : size) (v : rect) :
    k.to_device_units_ext_rect e v =
      if k.metrics_missing then Except.error failure.device_metrics_unavailable
      else Except.ok ⟨⟨v.position.x * (k.to_factor e).1, v.position.y * (k.to_factor e).2⟩,
        ⟨v.extents.cx * (k.to_factor e).1, v.extents.cy * (k.to_factor e).2⟩⟩ := by
  unfold to_device_units_ext_rect
  by_cases hm : k.metrics_missing
  · simp only [hm, if_true, throw_def]
  · simp only [hm, if_false, to_ext_size_eq, to_ext_point_eq, bind_ok, pure_def]

/-- The switch of `from_device_units_ext_size` multiplies each axis by its factor. -/
theorem from_ext_size_eq (k : units_converter) (e : size) (v : size) :
    k.from_device_units_ext_size e v =
      if k.metrics_missing then Except.error failure.device_metrics_unavailable
      else Except.ok ⟨v.cx * (k.from_factor e).1, v.cy * (k.from_factor e).2⟩ := by
  unfold from_device_units_ext_size from_factor
  by_cases hm : k.metrics_missing
  · simp only [hm, if_true, throw_def]
  · simp only [hm, if_false]
    cases hu : k.units <;>
      simp only [pure_def, Except.ok.injEq, size.mk.injEq, size_mul_def, size_div_def, mul_one,
        size.to_point, size.to_delta] <;>
      first | trivial | (constructor <;> ring)

/-- The switch of `from_device_units_ext_point` multiplies each axis by its factor. -/
theorem from_ext_point_eq (k : units_converter) (e : size) (v : point) :
    k.from_device_units_ext_point e v =
      if k.metrics_missing then Except.error failure.device_metrics_unavailable
      else Except.ok ⟨v.x * (k.from_factor e).1, v.y * (k.from_factor e).2⟩ := by
  unfold from_device_units_ext_point from_factor
  by_cases hm : k.metrics_missing
  · simp only [hm, if_true, throw_def]
  · simp only [hm, if_false]
    cases hu : k.units <;>
      simp only [pure_def, Except.ok.injEq, point.mk.injEq, point_mul_def, point_div_def, mul_one,
        size.to_point, size.to_delta] <;>
      first | trivial | (constructor <;> ring)

/-- The switch of `from_device_units_ext_delta` multiplies each axis by its factor. -/
theorem from_ext_delta_eq (k : units_converter) (e : size) (v : delta) :
    k.from_device_units_ext_delta e v =
      if k.metrics_missing then Except.error failure.device_metrics_unavailable
      else Except.ok ⟨v.dx * (k.from_factor e).1, v.dy * (k.from_factor e).2⟩ := by
  unfold from_device_units_ext_delta from_factor
  by_cases hm : k.metrics_missing
  · simp only [hm, if_true, throw_def]
  · simp only [hm, if_false]
    cases hu : k.units <;>
      simp only [pure_def, Except.ok.injEq, delta.mk.injEq, delta_mul_def, delta_div_def, mul_one,
        size.to_point, size.to_delta] <;>
      first | trivial | (constructor <;> ring)

/-- The switch of `from_device_units_ext_vector2` multiplies each axis by its factor. -/
theorem from_ext_vector2_eq (k : units_converter) (e : size) (v : vector2) :
    k.from_device_units_ext_vector2 e v =
      if k.metrics_missing then Except.error failure.device_metrics_unavailable
      else Except.ok ⟨v.v0 * (k.from_factor e).1, v.v1 * (k.from_factor e).2⟩ := by
  unfold from_device_units_ext_vector2 from_factor
  by_cases hm : k.metrics_missing
  · simp only [hm, if_true, throw_def]
  · simp only [hm, if_false]
    cases hu : k.units <;>
      simp only [pure_def, Except.ok.injEq, vector2.mk.injEq, vector2_mul_def, vector2_div_def, mul_one,
        size.to_point, size.to_delta] <;>
      first | trivial | (constructor <;> ring)

/-- The scalar overload is the horizontal axis of the size overload. -/
theorem from_ext_dimension_eq (k : units_converter) (e : size) (v : dimension) :
    k.from_device_units_ext_dimension e v =
      if k.metrics_missing then Except.error failure.device_metrics_unavailable
      else Except.ok (v * (k.from_factor e).1) := by
  unfold from_device_units_ext_dimension
  by_cases hm : k.metrics_missing
  · simp only [hm, if_true, throw_def]
  · simp only [hm, if_false, from_ext_size_eq, bind_ok, pure_def]

/-- The rectangle overload converts position and extents separately. -/
theorem from_ext_rect_eq (k : units_converter) (e : size) (v : rect) :
    k.from_device_units_ext_rect e v =
      if k.metrics_missing then Except.error failure.device_metrics_unavailable
      else Except.ok ⟨⟨v.position.x * (k.from_factor e).1, v.position.y * (k.from_factor e).2⟩,
        ⟨v.extents.cx * (k.from_factor e).1, v.extents.cy * (k.from_factor e).2⟩⟩ := by
  unfold from_device_units_ext_rect
  by_cases hm : k.metrics_missing
  · simp only [hm, if_true, throw_def]
  · simp only [hm, if_false, from_ext_size_eq, from_ext_point_eq, bind_ok, pure_def]

theorem not_missing_of_available (k : units_converter)
    (h : k.iContext.device_metrics_available = true) : ¬ k.metrics_missing := by
  intro hm
  rw [hm.1] at h
  exact Bool.noConfusion h

theorem not_missing_of_pixels (k : units_converter) (h : k.units = neogfx.units.Pixels) :
    ¬ k.metrics_missing := fun hm => hm.2.1 h

theorem not_missing_of_percentage (k : units_converter)
    (h : k.units = neogfx.units.Percentage) : ¬ k.metrics_missing := fun hm => hm.2.2 h

theorem to_factor_pixels (k : units_converter) (e : size)
    (h : k.units = neogfx.units.Pixels) : k.to_factor e = (1, 1) := by
  unfold to_factor; rw [h]

theorem from_factor_pixels (k : units_converter) (e : size)
    (h : k.units = neogfx.units.Pixels) : k.from_factor e = (1, 1) := by
  unfold from_factor; rw [h]

/-- Under `divisors_nonzero` the two factors of each axis are reciprocal. -/
theorem factor_mul_cancel (k : units_converter) (e : size) (h : k.divisors_nonzero e) :
    (k.to_factor e).1 * (k.from_factor e).1 = 1 ∧ (k.to_factor e).2 * (k.from_factor e).2 = 1 := by
  unfold divisors_nonzero at h
  unfold to_factor from_factor
  cases hu : k.units <;> rw [hu] at h <;> simp only at h ⊢
  all_goals first
    | (obtain ⟨h1, h2, h3⟩ := h; constructor <;> field_simp)
    | (obtain ⟨h1, h2⟩ := h; constructor <;> field_simp)

theorem to_vector2_available (k : units_converter) (v : vector2)
    (h : k.iContext.device_metrics_available = true) :
    k.to_device_units_vector2 v = k.to_device_units_ext_vector2 k.iContext.device_metrics.extents v := by
  unfold to_device_units_vector2; rw [if_pos h]

theorem to_vector2_unavailable (k : units_converter) (v : vector2)
    (h : k.iContext.device_metrics_available = false) :
    k.to_device_units_vector2 v =
      if k.units = neogfx.units.Pixels then Except.ok v
      else Except.error failure.device_metrics_unavailable := by
  unfold to_device_units_vector2; rw [h]; rfl

theorem to_delta_available (k : units_converter) (v : delta)
    (h : k.iContext.device_metrics_available = true) :
    k.to_device_units_delta v = k.to_device_units_ext_delta k.iContext.device_metrics.extents v := by
  unfold to_device_units_delta; rw [if_pos h]

theorem to_delta_unavailable (k : units_converter) (v : delta)
    (h : k.iContext.device_metrics_available = false) :
    k.to_device_units_delta v =
      if k.units = neogfx.units.Pixels then Except.ok v
      else Except.error failure.device_metrics_unavailable := by
  unfold to_device_units_delta; rw [h]; rfl

theorem to_size_available (k : units_converter) (v : size)
    (h : k.iContext.device_metrics_available = true) :
    k.to_device_units_size v = k.to_device_units_ext_size k.iContext.device_metrics.extents v := by
  unfold to_device_units_size; rw [if_pos h]

theorem to_size_unavailable (k : units_converter) (v : size)
    (h : k.iContext.device_metrics_available = false) :
    k.to_device_units_size v =
      if k.units = neogfx.units.Pixels then Except.ok v
      else Except.error failure.device_metrics_unavailable := by
  unfold to_device_units_size; rw [h]; rfl

theorem to_point_available (k : units_converter) (v : point)
    (h : k.iContext.device_metrics_available = true) :
    k.to_device_units_point v = k.to_device_units_ext_point k.iContext.device_metrics.extents v := by
  unfold to_device_units_point; rw [if_pos h]

theorem to_point_unavailable (k : units_converter) (v : point)
    (h : k.iContext.device_metrics_available = false) :
    k.to_device_units_point v =
      if k.units = neogfx.units.Pixels then Except.ok v
      else Except.error failure.device_metrics_unavailable := by
  unfold to_device_units_point; rw [h]; rfl

theorem to_rect_available (k : units_converter) (v : rect)
    (h : k.iContext.device_metrics_available = true) :
    k.to_device_units_rect v = k.to_device_units_ext_rect k.iContext.device_metrics.extents v := by
  unfold to_device_units_rect; rw [if_pos h]

theorem to_rect_unavailable (k : units_converter) (v : rect)
    (h : k.iContext.device_metrics_available = false) :
    k.to_device_units_rect v =
      if k.units = neogfx.units.Pixels then Except.ok v
      else Except.error failure.device_metrics_unavailable := by
  unfold to_device_units_rect; rw [h]; rfl

theorem to_dimension_available (k : units_converter) (v : dimension)
    (h : k.iContext.device_metrics_available = true) :
    k.to_device_units_dimension v =
      Except.ok (v * (k.to_factor k.iContext.device_metrics.extents).1) := by
  unfold to_device_units_dimension
  rw [if_pos h, to_ext_size_eq, if_neg (not_missing_of_available k h)]; rfl

theorem to_dimension_unavailable (k : units_converter) (v : dimension)
    (h : k.iContext.device_metrics_available = false) :
    k.to_device_units_dimension v =
      if k.units = neogfx.units.Pixels then Except.ok v
      else Except.error failure.device_metrics_unavailable := by
  unfold to_device_units_dimension; rw [h]; rfl

theorem to_margins_available (k : units_converter) (v : margins)
    (h : k.iContext.device_metrics_available = true) :
    k.to_device_units_margins v =
      Except.ok ⟨v.left * (k.to_factor k.iContext.device_metrics.extents).1,
        v.top * (k.to_factor k.iContext.device_metrics.extents).2,
        v.right * (k.to_factor k.iContext.device_metrics.extents).1,
        v.bottom * (k.to_factor k.iContext.device_metrics.extents).2⟩ := by
  unfold to_device_units_margins
  simp only [if_pos h, to_ext_size_eq, if_neg (not_missing_of_available k h), bind_ok, pure_def]

theorem to_margins_unavailable (k : units_converter) (v : margins)
    (h : k.iContext.device_metrics_available = false) :
    k.to_device_units_margins v =
      if k.units = neogfx.units.Pixels then Except.ok v
      else Except.error failure.device_metrics_unavailable := by
  unfold to_device_units_margins; rw [h]; rfl

theorem from_vector2_available (k : units_converter) (v : vector2)
    (h : k.iContext.device_metrics_available = true) :
    k.from_device_units_vector2 v = k.from_device_units_ext_vector2 k.iContext.device_metrics.extents v := by
  unfold from_device_units_vector2; rw [if_pos h]

theorem from_vector2_unavailable (k : units_converter) (v : vector2)
    (h : k.iContext.device_metrics_available = false) :
    k.from_device_units_vector2 v =
      if k.units = neogfx.units.Pixels then Except.ok v
      else Except.error failure.device_metrics_unavailable := by
  unfold from_device_units_vector2; rw [h]; rfl

theorem from_delta_available (k : units_converter) (v : delta)
    (h : k.iContext.device_metrics_available = true) :
    k.from_device_units_delta v = k.from_device_units_ext_delta k.iContext.device_metrics.extents v := by
  unfold from_device_units_delta; rw [if_pos h]

theorem from_delta_unavailable (k : units_converter) (v : delta)
    (h : k.iContext.device_metrics_available = false) :
    k.from_device_units_delta v =
      if k.units = neogfx.units.Pixels then Except.ok v
      else Except.error failure.device_metrics_unavailable := by
  unfold from_device_units_delta; rw [h]; rfl

theorem from_size_available (k : units_converter) (v : size)
    (h : k.iContext.device_metrics_available = true) :
    k.from_device_units_size v = k.from_device_units_ext_size k.iContext.device_metrics.extents v := by
  unfold from_device_units_size; rw [if_pos h]

theorem from_size_unavailable (k : units_converter) (v : size)
    (h : k.iContext.device_metrics_available = false) :
    k.from_device_units_size v =
      if k.units = neogfx.units.Pixels then Except.ok v
      else Except.error failure.device_metrics_unavailable := by
  unfold from_device_units_size; rw [h]; rfl

theorem from_point_available (k : units_converter) (v : point)
    (h : k.iContext.device_metrics_available = true) :
    k.from_device_units_point v = k.from_device_units_ext_point k.iContext.device_metrics.extents v := by
  unfold from_device_units_point; rw [if_pos h]

theorem from_point_unavailable (k : units_converter) (v : point)
    (h : k.iContext.device_metrics_available = false) :
    k.from_device_units_point v =
      if k.units = neogfx.units.Pixels then Except.ok v
      else Except.error failure.device_metrics_unavailable := by
  unfold from_device_units_point; rw [h]; rfl

theorem from_rect_available (k : units_converter) (v : rect)
    (h : k.iContext.device_metrics_available = true) :
    k.from_device_units_rect v = k.from_device_units_ext_rect k.iContext.device_metrics.extents v := by
  unfold from_device_units_rect; rw [if_pos h]

theorem from_rect_unavailable (k : units_converter) (v : rect)
    (h : k.iContext.device_metrics_available = false) :
    k.from_device_units_rect v =
      if k.units = neogfx.units.Pixels then Except.ok v
      else Except.error failure.device_metrics_unavailable := by
  unfold from_device_units_rect; rw [h]; rfl

theorem from_dimension_available (k : units_converter) (v : dimension)
    (h : k.iContext.device_metrics_available = true) :
    k.from_device_units_dimension v =
      Except.ok (v * (k.from_factor k.iContext.device_metrics.extents).1) := by
  unfold from_device_units_dimension
  rw [if_pos h, from_ext_size_eq, if_neg (not_missing_of_available k h)]; rfl

theorem from_dimension_unavailable (k : units_converter) (v : dimension)
    (h : k.iContext.device_metrics_available = false) :
    k.from_device_units_dimension v =
      if k.units = neogfx.units.Pixels then Except.ok v
      else Except.error failure.device_metrics_unavailable := by
  unfold from_device_units_dimension; rw [h]; rfl

theorem from_margins_available (k : units_converter) (v : margins)
    (h : k.iContext.device_metrics_available = true) :
    k.from_device_units_margins v =
      Except.ok ⟨v.left * (k.from_factor k.iContext.device_metrics.extents).1,
        v.top * (k.from_factor k.iContext.device_metrics.extents).2,
        v.right * (k.from_factor k.iContext.device_metrics.extents).1,
        v.bottom * (k.from_factor k.iContext.device_metrics.extents).2⟩ := by
  unfold from_device_units_margins
  simp only [if_pos h, from_ext_size_eq, if_neg (not_missing_of_available k h), bind_ok, pure_def]

theorem from_margins_unavailable (k : units_converter) (v : margins)
    (h : k.iContext.device_metrics_available = false) :
    k.from_device_units_margins v =
      if k.units = neogfx.units.Pixels then Except.ok v
      else Except.error failure.device_metrics_unavailable := by
  unfold from_device_units_margins; rw [h]; rfl

theorem to_factor_of_spec (k : units_converter) (e : size) (f : dimension × dimension)
    (hf : spec_to_device_factor k.units k.iContext.device_metrics.horizontal_dpi
      k.iContext.device_metrics.vertical_dpi k.iContext.device_metrics.em_size = some f) :
    k.to_factor e = f := by
  unfold spec_to_device_factor at hf
  unfold to_factor
  cases hu : k.units <;> rw [hu] at hf <;> simp only [Option.some.injEq] at hf ⊢ <;>
    first | exact hf | exact absurd hf (by simp)

theorem from_factor_of_spec (k : units_converter) (e : size) (x y : dimension)
    (r : dimension × dimension)
    (hr : spec_from_device_value k.units k.iContext.device_metrics.horizontal_dpi
      k.iContext.device_metrics.vertical_dpi k.iContext.device_metrics.em_size e x y = some r) :
    x * (k.from_factor e).1 = r.1 ∧ y * (k.from_factor e).2 = r.2 := by
  unfold spec_from_device_value at hr
  unfold from_factor
  cases hu : k.units <;> rw [hu] at hr <;> simp only [Option.some.injEq] at hr ⊢ <;>
    first
    | (subst hr; constructor <;> ring)
    | exact absurd hr (by simp)

theorem from_factor_of_spec_to (k : units_converter) (e : size) (f : dimension × dimension)
    (hf : spec_to_device_factor k.units k.iContext.device_metrics.horizontal_dpi
      k.iContext.device_metrics.vertical_dpi k.iContext.device_metrics.em_size = some f) :
    (k.from_factor e).1 = 1 / f.1 ∧ (k.from_factor e).2 = 1 / f.2 := by
  unfold spec_to_device_factor at hf
  unfold from_factor
  cases hu : k.units <;> rw [hu] at hf <;> simp only [Option.some.injEq] at hf ⊢ <;>
    first
    | (subst hf; constructor <;> simp only [one_div, inv_div])
    | exact absurd hf (by simp)

theorem to_ext_dimension_fails_iff (k : units_converter) (e : size) (v : dimension) :
    k.to_device_units_ext_dimension e v = Except.error failure.device_metrics_unavailable ↔
      k.metrics_missing := by
  rw [to_ext_dimension_eq]
  by_cases hm : k.metrics_missing
  · simp only [hm, if_true]
  · simp only [hm, if_false, reduceCtorEq]

theorem to_ext_dimension_pixels (k : units_converter) (e : size) (v : dimension)
    (hu : k.units = neogfx.units.Pixels) : k.to_device_units_ext_dimension e v = Except.ok v := by
  rw [to_ext_dimension_eq, if_neg (not_missing_of_pixels k hu), to_factor_pixels k e hu]
  simp only [mul_one]

theorem to_ext_vector2_fails_iff (k : units_converter) (e : size) (v : vector2) :
    k.to_device_units_ext_vector2 e v = Except.error failure.device_metrics_unavailable ↔
      k.metrics_missing := by
  rw [to_ext_vector2_eq]
  by_cases hm : k.metrics_missing
  · simp only [hm, if_true]
  · simp only [hm, if_false, reduceCtorEq]

theorem to_ext_vector2_pixels (k : units_converter) (e : size) (v : vector2)
    (hu : k.units = neogfx.units.Pixels) : k.to_device_units_ext_vector2 e v = Except.ok v := by
  rw [to_ext_vector2_eq, if_neg (not_missing_of_pixels k hu), to_factor_pixels k e hu]
  simp only [mul_one]

theorem to_ext_delta_fails_iff (k : units_converter) (e : size) (v : delta) :
    k.to_device_units_ext_delta e v = Except.error failure.device_metrics_unavailable ↔
      k.metrics_missing := by
  rw [to_ext_delta_eq]
  by_cases hm : k.metrics_missing
  · simp only [hm, if_true]
  · simp only [hm, if_false, reduceCtorEq]

theorem to_ext_delta_pixels (k : units_converter) (e : size) (v : delta)
    (hu : k.units = neogfx.units.Pixels) : k.to_device_units_ext_delta e v = Except.ok v := by
  rw [to_ext_delta_eq, if_neg (not_missing_of_pixels k hu), to_factor_pixels k e hu]
  simp only [mul_one]

theorem to_ext_size_fails_iff (k : units_converter) (e : size) (v : size) :
    k.to_device_units_ext_size e v = Except.error failure.device_metrics_unavailable ↔
      k.metrics_missing := by
  rw [to_ext_size_eq]
  by_cases hm : k.metrics_missing
  · simp only [hm, if_true]
  · simp only [hm, if_false, reduceCtorEq]

theorem to_ext_size_pixels (k : units_converter) (e : size) (v : size)
    (hu : k.units = neogfx.units.Pixels) : k.to_device_units_ext_size e v = Except.ok v := by
  rw [to_ext_size_eq, if_neg (not_missing_of_pixels k hu), to_factor_pixels k e hu]
  simp only [mul_one]

theorem to_ext_point_fails_iff (k : units_converter) (e : size) (v : point) :
    k.to_device_units_ext_point e v = Except.error failure.device_metrics_unavailable ↔
      k.metrics_missing := by
  rw [to_ext_point_eq]
  by_cases hm : k.metrics_missing
  · simp only [hm, if_true]
  · simp only [hm, if_false, reduceCtorEq]

theorem to_ext_point_pixels (k : units_converter) (e : size) (v : point)
    (hu : k.units = neogfx.units.Pixels) : k.to_device_units_ext_point e v = Except.ok v := by
  rw [to_ext_point_eq, if_neg (not_missing_of_pixels k hu), to_factor_pixels k e hu]
  simp only [mul_one]

theorem to_ext_rect_fails_iff (k : units_converter) (e : size) (v : rect) :
    k.to_device_units_ext_rect e v = Except.error failure.device_metrics_unavailable ↔
      k.metrics_missing := by
  rw [to_ext_rect_eq]
  by_cases hm : k.metrics_missing
  · simp only [hm, if_true]
  · simp only [hm, if_false, reduceCtorEq]

theorem to_ext_rect_pixels (k : units_converter) (e : size) (v : rect)
    (hu : k.units = neogfx.units.Pixels) : k.to_device_units_ext_rect e v = Except.ok v := by
  rw [to_ext_rect_eq, if_neg (not_missing_of_pixels k hu), to_factor_pixels k e hu]
  simp only [mul_one]

theorem to_dimension_fails_iff (k : units_converter) (v : dimension) :
    k.to_device_units_dimension v = Except.error failure.device_metrics_unavailable ↔
      k.implicit_fails := by
  unfold implicit_fails
  cases h : k.iContext.device_metrics_available
  · rw [to_dimension_unavailable k v h]
    by_cases hu : k.units = neogfx.units.Pixels
    · simp only [hu, if_true, reduceCtorEq, ne_eq, not_true_eq_false, and_false]
    · simp only [hu, if_false, ne_eq, not_false_eq_true, and_self]
  · rw [to_dimension_available k v h]
    constructor
    · intro hx
      exact Except.noConfusion hx
    · intro hf
      exact Bool.noConfusion hf.1

theorem to_dimension_pixels (k : units_converter) (v : dimension)
    (hu : k.units = neogfx.units.Pixels) : k.to_device_units_dimension v = Except.ok v := by
  cases h : k.iContext.device_metrics_available
  · rw [to_dimension_unavailable k v h, if_pos hu]
  · rw [to_dimension_available k v h, to_factor_pixels k _ hu]
    simp only [mul_one]

theorem to_vector2_fails_iff (k : units_converter) (v : vector2) :
    k.to_device_units_vector2 v = Except.error failure.device_metrics_unavailable ↔
      k.implicit_fails := by
  unfold implicit_fails
  cases h : k.iContext.device_metrics_available
  · rw [to_vector2_unavailable k v h]
    by_cases hu : k.units = neogfx.units.Pixels
    · simp only [hu, if_true, reduceCtorEq, ne_eq, not_true_eq_false, and_false]
    · simp only [hu, if_false, ne_eq, not_false_eq_true, and_self]
  · rw [to_vector2_available k v h, to_ext_vector2_fails_iff]
    constructor
    · intro hx
      exact absurd hx (not_missing_of_available k h)
    · intro hf
      exact Bool.noConfusion hf.1

theorem to_vector2_pixels (k : units_converter) (v : vector2)
    (hu : k.units = neogfx.units.Pixels) : k.to_device_units_vector2 v = Except.ok v := by
  cases h : k.iContext.device_metrics_available
  · rw [to_vector2_unavailable k v h, if_pos hu]
  · rw [to_vector2_available k v h, to_ext_vector2_pixels k _ v hu]

theorem to_delta_fails_iff (k : units_converter) (v : delta) :
    k.to_device_units_delta v = Except.error failure.device_metrics_unavailable ↔
      k.implicit_fails := by
  unfold implicit_fails
  cases h : k.iContext.device_metrics_available
  · rw [to_delta_unavailable k v h]
    by_cases hu : k.units = neogfx.units.Pixels
    · simp only [hu, if_true, reduceCtorEq, ne_eq, not_true_eq_false, and_false]
    · simp only [hu, if_false, ne_eq, not_false_eq_true, and_self]
  · rw [to_delta_available k v h, to_ext_delta_fails_iff]
    constructor
    · intro hx
      exact absurd hx (not_missing_of_available k h)
    · intro hf
      exact Bool.noConfusion hf.1

theorem to_delta_pixels (k : units_converter) (v : delta)
    (hu : k.units = neogfx.units.Pixels) : k.to_device_units_delta v = Except.ok v := by
  cases h : k.iContext.device_metrics_available
  · rw [to_delta_unavailable k v h, if_pos hu]
  · rw [to_delta_available k v h, to_ext_delta_pixels k _ v hu]

theorem to_size_fails_iff (k : units_converter) (v : size) :
    k.to_device_units_size v = Except.error failure.device_metrics_unavailable ↔
      k.implicit_fails := by
  unfold implicit_fails
  cases h : k.iContext.device_metrics_available
  · rw [to_size_unavailable k v h]
    by_cases hu : k.units = neogfx.units.Pixels
    · simp only [hu, if_true, reduceCtorEq, ne_eq, not_true_eq_false, and_false]
    · simp only [hu, if_false, ne_eq, not_false_eq_true, and_self]
  · rw [to_size_available k v h, to_ext_size_fails_iff]
    constructor
    · intro hx
      exact absurd hx (not_missing_of_available k h)
    · intro hf
      exact Bool.noConfusion hf.1

theorem to_size_pixels (k : units_converter) (v : size)
    (hu : k.units = neogfx.units.Pixels) : k.to_device_units_size v = Except.ok v := by
  cases h : k.iContext.device_metrics_available
  · rw [to_size_unavailable k v h, if_pos hu]
  · rw [to_size_available k v h, to_ext_size_pixels k _ v hu]

theorem to_point_fails_iff (k : units_converter) (v : point) :
    k.to_device_units_point v = Except.error failure.device_metrics_unavailable ↔
      k.implicit_fails := by
  unfold implicit_fails
  cases h : k.iContext.device_metrics_available
  · rw [to_point_unavailable k v h]
    by_cases hu : k.units = neogfx.units.Pixels
    · simp only [hu, if_true, reduceCtorEq, ne_eq, not_true_eq_false, and_false]
    · simp only [hu, if_false, ne_eq, not_false_eq_true, and_self]
  · rw [to_point_available k v h, to_ext_point_fails_iff]
    constructor
    · intro hx
      exact absurd hx (not_missing_of_available k h)
    · intro hf
      exact Bool.noConfusion hf.1

theorem to_point_pixels (k : units_converter) (v : point)
    (hu : k.units = neogfx.units.Pixels) : k.to_device_units_point v = Except.ok v := by
  cases h : k.iContext.device_metrics_available
  · rw [to_point_unavailable k v h, if_pos hu]
  · rw [to_point_available k v h, to_ext_point_pixels k _ v hu]

theorem to_rect_fails_iff (k : units_converter) (v : rect) :
    k.to_device_units_rect v = Except.error failure.device_metrics_unavailable ↔
      k.implicit_fails := by
  unfold implicit_fails
  cases h : k.iContext.device_metrics_available
  · rw [to_rect_unavailable k v h]
    by_cases hu : k.units = neogfx.units.Pixels
    · simp only [hu, if_true, reduceCtorEq, ne_eq, not_true_eq_false, and_false]
    · simp only [hu, if_false, ne_eq, not_false_eq_true, and_self]
  · rw [to_rect_available k v h, to_ext_rect_fails_iff]
    constructor
    · intro hx
      exact absurd hx (not_missing_of_available k h)
    · intro hf
      exact Bool.noConfusion hf.1

theorem to_rect_pixels (k : units_converter) (v : rect)
    (hu : k.units = neogfx.units.Pixels) : k.to_device_units_rect v = Except.ok v := by
  cases h : k.iContext.device_metrics_available
  · rw [to_rect_unavailable k v h, if_pos hu]
  · rw [to_rect_available k v h, to_ext_rect_pixels k _ v hu]

theorem to_margins_fails_iff (k : units_converter) (v : margins) :
    k.to_device_units_margins v = Except.error failure.device_metrics_unavailable ↔
      k.implicit_fails := by
  unfold implicit_fails
  cases h : k.iContext.device_metrics_available
  · rw [to_margins_unavailable k v h]
    by_cases hu : k.units = neogfx.units.Pixels
    · simp only [hu, if_true, reduceCtorEq, ne_eq, not_true_eq_false, and_false]
    · simp only [hu, if_false, ne_eq, not_false_eq_true, and_self]
  · rw [to_margins_available k v h]
    constructor
    · intro hx
      exact Except.noConfusion hx
    · intro hf
      exact Bool.noConfusion hf.1

theorem to_margins_pixels (k : units_converter) (v : margins)
    (hu : k.units = neogfx.units.Pixels) : k.to_device_units_margins v = Except.ok v := by
  cases h : k.iContext.device_metrics_available
  · rw [to_margins_unavailable k v h, if_pos hu]
  · rw [to_margins_available k v h, to_factor_pixels k _ hu]
    simp only [mul_one]

theorem from_ext_dimension_fails_iff (k : units_converter) (e : size) (v : dimension) :
    k.from_device_units_ext_dimension e v = Except.error failure.device_metrics_unavailable ↔
      k.metrics_missing := by
  rw [from_ext_dimension_eq]
  by_cases hm : k.metrics_missing
  · simp only [hm, if_true]
  · simp only [hm, if_false, reduceCtorEq]

theorem from_ext_dimension_pixels (k : units_converter) (e : size) (v : dimension)
    (hu : k.units = neogfx.units.Pixels) : k.from_device_units_ext_dimension e v = Except.ok v := by
  rw [from_ext_dimension_eq, if_neg (not_missing_of_pixels k hu), from_factor_pixels k e hu]
  simp only [mul_one]

theorem from_ext_vector2_fails_iff (k : units_converter) (e : size) (v : vector2) :
    k.from_device_units_ext_vector2 e v = Except.error failure.device_metrics_unavailable ↔
      k.metrics_missing := by
  rw [from_ext_vector2_eq]
  by_cases hm : k.metrics_missing
  · simp only [hm, if_true]
  · simp only [hm, if_false, reduceCtorEq]

theorem from_ext_vector2_pixels (k : units_converter) (e : size) (v : vector2)
    (hu : k.units = neogfx.units.Pixels) : k.from_device_units_ext_vector2 e v = Except.ok v := by
  rw [from_ext_vector2_eq, if_neg (not_missing_of_pixels k hu), from_factor_pixels k e hu]
  simp only [mul_one]

theorem from_ext_delta_fails_iff (k : units_converter) (e : size) (v : delta) :
    k.from_device_units_ext_delta e v = Except.error failure.device_metrics_unavailable ↔
      k.metrics_missing := by
  rw [from_ext_delta_eq]
  by_cases hm : k.metrics_missing
  · simp only [hm, if_true]
  · simp only [hm, if_false, reduceCtorEq]

theorem from_ext_delta_pixels (k : units_converter) (e : size) (v : delta)
    (hu : k.units = neogfx.units.Pixels) : k.from_device_units_ext_delta e v = Except.ok v := by
  rw [from_ext_delta_eq, if_neg (not_missing_of_pixels k hu), from_factor_pixels k e hu]
  simp only [mul_one]

theorem from_ext_size_fails_iff (k : units_converter) (e : size) (v : size) :
    k.from_device_units_ext_size e v = Except.error failure.device_metrics_unavailable ↔
      k.metrics_missing := by
  rw [from_ext_size_eq]
  by_cases hm : k.metrics_missing
  · simp only [hm, if_true]
  · simp only [hm, if_false, reduceCtorEq]

theorem from_ext_size_pixels (k : units_converter) (e : size) (v : size)
    (hu : k.units = neogfx.units.Pixels) : k.from_device_units_ext_size e v = Except.ok v := by
  rw [from_ext_size_eq, if_neg (not_missing_of_pixels k hu), from_factor_pixels k e hu]
  simp only [mul_one]

theorem from_ext_point_fails_iff (k : units_converter) (e : size) (v : point) :
    k.from_device_units_ext_point e v = Except.error failure.device_metrics_unavailable ↔
      k.metrics_missing := by
  rw [from_ext_point_eq]
  by_cases hm : k.metrics_missing
  · simp only [hm, if_true]
  · simp only [hm, if_false, reduceCtorEq]

theorem from_ext_point_pixels (k : units_converter) (e : size) (v : point)
    (hu : k.units = neogfx.units.Pixels) : k.from_device_units_ext_point e v = Except.ok v := by
  rw [from_ext_point_eq, if_neg (not_missing_of_pixels k hu), from_factor_pixels k e hu]
  simp only [mul_one]

theorem from_ext_rect_fails_iff (k : units_converter) (e : size) (v : rect) :
    k.from_device_units_ext_rect e v = Except.error failure.device_metrics_unavailable ↔
      k.metrics_missing := by
  rw [from_ext_rect_eq]
  by_cases hm : k.metrics_missing
  · simp only [hm, if_true]
  · simp only [hm, if_false, reduceCtorEq]

theorem from_ext_rect_pixels (k : units_converter) (e : size) (v : rect)
    (hu : k.units = neogfx.units.Pixels) : k.from_device_units_ext_rect e v = Except.ok v := by
  rw [from_ext_rect_eq, if_neg (not_missing_of_pixels k hu), from_factor_pixels k e hu]
  simp only [mul_one]

theorem from_dimension_fails_iff (k : units_converter) (v : dimension) :
    k.from_device_units_dimension v = Except.error failure.device_metrics_unavailable ↔
      k.implicit_fails := by
  unfold implicit_fails
  cases h : k.iContext.device_metrics_available
  · rw [from_dimension_unavailable k v h]
    by_cases hu : k.units = neogfx.units.Pixels
    · simp only [hu, if_true, reduceCtorEq, ne_eq, not_true_eq_false, and_false]
    · simp only [hu, if_false, ne_eq, not_false_eq_true, and_self]
  · rw [from_dimension_available k v h]
    constructor
    · intro hx
      exact Except.noConfusion hx
    · intro hf
      exact Bool.noConfusion hf.1

theorem from_dimension_pixels (k : units_converter) (v : dimension)
    (hu : k.units = neogfx.units.Pixels) : k.from_device_units_dimension v = Except.ok v := by
  cases h : k.iContext.device_metrics_available
  · rw [from_dimension_unavailable k v h, if_pos hu]
  · rw [from_dimension_available k v h, from_factor_pixels k _ hu]
    simp only [mul_one]

theorem from_vector2_fails_iff (k : units_converter) (v : vector2) :
    k.from_device_units_vector2 v = Except.error failure.device_metrics_unavailable ↔
      k.implicit_fails := by
  unfold implicit_fails
  cases h : k.iContext.device_metrics_available
  · rw [from_vector2_unavailable k v h]
    by_cases hu : k.units = neogfx.units.Pixels
    · simp only [hu, if_true, reduceCtorEq, ne_eq, not_true_eq_false, and_false]
    · simp only [hu, if_false, ne_eq, not_false_eq_true, and_self]
  · rw [from_vector2_available k v h, from_ext_vector2_fails_iff]
    constructor
    · intro hx
      exact absurd hx (not_missing_of_available k h)
    · intro hf
      exact Bool.noConfusion hf.1

theorem from_vector2_pixels (k : units_converter) (v : vector2)
    (hu : k.units = neogfx.units.Pixels) : k.from_device_units_vector2 v = Except.ok v := by
  cases h : k.iContext.device_metrics_available
  · rw [from_vector2_unavailable k v h, if_pos hu]
  · rw [from_vector2_available k v h, from_ext_vector2_pixels k _ v hu]

theorem from_delta_fails_iff (k : units_converter) (v : delta) :
    k.from_device_units_delta v = Except.error failure.device_metrics_unavailable ↔
      k.implicit_fails := by
  unfold implicit_fails
  cases h : k.iContext.device_metrics_available
  · rw [from_delta_unavailable k v h]
    by_cases hu : k.units = neogfx.units.Pixels
    · simp only [hu, if_true, reduceCtorEq, ne_eq, not_true_eq_false, and_false]
    · simp only [hu, if_false, ne_eq, not_false_eq_true, and_self]
  · rw [from_delta_available k v h, from_ext_delta_fails_iff]
    constructor
    · intro hx
      exact absurd hx (not_missing_of_available k h)
    · intro hf
      exact Bool.noConfusion hf.1

theorem from_delta_pixels (k : units_converter) (v : delta)
    (hu : k.units = neogfx.units.Pixels) : k.from_device_units_delta v = Except.ok v := by
  cases h : k.iContext.device_metrics_available
  · rw [from_delta_unavailable k v h, if_pos hu]
  · rw [from_delta_available k v h, from_ext_delta_pixels k _ v hu]

theorem from_size_fails_iff (k : units_converter) (v : size) :
    k.from_device_units_size v = Except.error failure.device_metrics_unavailable ↔
      k.implicit_fails := by
  unfold implicit_fails
  cases h : k.iContext.device_metrics_available
  · rw [from_size_unavailable k v h]
    by_cases hu : k.units = neogfx.units.Pixels
    · simp only [hu, if_true, reduceCtorEq, ne_eq, not_true_eq_false, and_false]
    · simp only [hu, if_false, ne_eq, not_false_eq_true, and_self]
  · rw [from_size_available k v h, from_ext_size_fails_iff]
    constructor
    · intro hx
      exact absurd hx (not_missing_of_available k h)
    · intro hf
      exact Bool.noConfusion hf.1

theorem from_size_pixels (k : units_converter) (v : size)
    (hu : k.units = neogfx.units.Pixels) : k.from_device_units_size v = Except.ok v := by
  cases h : k.iContext.device_metrics_available
  · rw [from_size_unavailable k v h, if_pos hu]
  · rw [from_size_available k v h, from_ext_size_pixels k _ v hu]

theorem from_point_fails_iff (k : units_converter) (v : point) :
    k.from_device_units_point v = Except.error failure.device_metrics_unavailable ↔
      k.implicit_fails := by
  unfold implicit_fails
  cases h : k.iContext.device_metrics_available
  · rw [from_point_unavailable k v h]
    by_cases hu : k.units = neogfx.units.Pixels
    · simp only [hu, if_true, reduceCtorEq, ne_eq, not_true_eq_false, and_false]
    · simp only [hu, if_false, ne_eq, not_false_eq_true, and_self]
  · rw [from_point_available k v h, from_ext_point_fails_iff]
    constructor
    · intro hx
      exact absurd hx (not_missing_of_available k h)
    · intro hf
      exact Bool.noConfusion hf.1

theorem from_point_pixels (k : units_converter) (v : point)
    (hu : k.units = neogfx.units.Pixels) : k.from_device_units_point v = Except.ok v := by
  cases h : k.iContext.device_metrics_available
  · rw [from_point_unavailable k v h, if_pos hu]
  · rw [from_point_available k v h, from_ext_point_pixels k _ v hu]

theorem from_rect_fails_iff (k : units_converter) (v : rect) :
    k.from_device_units_rect v = Except.error failure.device_metrics_unavailable ↔
      k.implicit_fails := by
  unfold implicit_fails
  cases h : k.iContext.device_metrics_available
  · rw [from_rect_unavailable k v h]
    by_cases hu : k.units = neogfx.units.Pixels
    · simp only [hu, if_true, reduceCtorEq, ne_eq, not_true_eq_false, and_false]
    · simp only [hu, if_false, ne_eq, not_false_eq_true, and_self]
  · rw [from_rect_available k v h, from_ext_rect_fails_iff]
    constructor
    · intro hx
      exact absurd hx (not_missing_of_available k h)
    · intro hf
      exact Bool.noConfusion hf.1

theorem from_rect_pixels (k : units_converter) (v : rect)
    (hu : k.units = neogfx.units.Pixels) : k.from_device_units_rect v = Except.ok v := by
  cases h : k.iContext.device_metrics_available
  · rw [from_rect_unavailable k v h, if_pos hu]
  · rw [from_rect_available k v h, from_ext_rect_pixels k _ v hu]

theorem from_margins_fails_iff (k : units_converter) (v : margins) :
    k.from_device_units_margins v = Except.error failure.device_metrics_unavailable ↔
      k.implicit_fails := by
  unfold implicit_fails
  cases h : k.iContext.device_metrics_available
  · rw [from_margins_unavailable k v h]
    by_cases hu : k.units = neogfx.units.Pixels
    · simp only [hu, if_true, reduceCtorEq, ne_eq, not_true_eq_false, and_false]
    · simp only [hu, if_false, ne_eq, not_false_eq_true, and_self]
  · rw [from_margins_available k v h]
    constructor
    · intro hx
      exact Except.noConfusion hx
    · intro hf
      exact Bool.noConfusion hf.1

theorem from_margins_pixels (k : units_converter) (v : margins)
    (hu : k.units = neogfx.units.Pixels) : k.from_device_units_margins v = Except.ok v := by
  cases h : k.iContext.device_metrics_available
  · rw [from_margins_unavailable k v h, if_pos hu]
  · rw [from_margins_available k v h, from_factor_pixels k _ hu]
    simp only [mul_one]

/-- A conversion that does not throw `device_metrics_unavailable` returns a value. -/
theorem returns_of_not_fails {α : Type} (r : Except failure α)
    (h : r ≠ Except.error failure.device_metrics_unavailable) : ∃ a, r = Except.ok a := by
  cases r with
  | error f => exact absurd (congrArg Except.error (failure_eq f)) h
  | ok a => exact ⟨a, rfl⟩

theorem to_factor_percentage (k : units_converter) (e : size)
    (h : k.units = neogfx.units.Percentage) : k.to_factor e = (e.cx / 100, e.cy / 100) := by
  unfold to_factor; rw [h]

theorem from_factor_percentage (k : units_converter) (e : size)
    (h : k.units = neogfx.units.Percentage) : k.from_factor e = (100 / e.cx, 100 / e.cy) := by
  unfold from_factor; rw [h]

theorem percentage_to_arith (a x : dimension) : x * (a / 100) = a * x / 100 := by ring

theorem percentage_from_arith (a x : dimension) : x * (100 / a) = x / a * 100 := by ring

theorem to_factor_fst_congr (k k2 : units_converter) (e e2 : size)
    (hu : k2.units = k.units)
    (hh : k2.iContext.device_metrics.horizontal_dpi = k.iContext.device_metrics.horizontal_dpi)
    (he : k2.iContext.device_metrics.em_size = k.iContext.device_metrics.em_size)
    (hx : e2.cx = e.cx) : (k2.to_factor e2).1 = (k.to_factor e).1 := by
  unfold to_factor
  rw [hu, hh, he, hx]
  cases k.units <;> rfl

theorem from_factor_fst_congr (k k2 : units_converter) (e e2 : size)
    (hu : k2.units = k.units)
    (hh : k2.iContext.device_metrics.horizontal_dpi = k.iContext.device_metrics.horizontal_dpi)
    (he : k2.iContext.device_metrics.em_size = k.iContext.device_metrics.em_size)
    (hx : e2.cx = e.cx) : (k2.from_factor e2).1 = (k.from_factor e).1 := by
  unfold from_factor
  rw [hu, hh, he, hx]
  cases k.units <;> rfl

theorem metrics_missing_congr (k k2 : units_converter) (hu : k2.units = k.units)
    (ha : k2.iContext.device_metrics_available = k.iContext.device_metrics_available) :
    k2.metrics_missing ↔ k.metrics_missing := by
  unfold metrics_missing
  rw [hu, ha]

end units_converter

/-! ## Round trip (C1) -/

/-- C1, as stated, fails: with unit Percentage, metrics available and reference extent
(0, 100), the sizes (50, 50) and (20, 50) both convert to the device size (0, 50), so
no conversion back can return both; the round trip of (50, 50) does not return (50, 50). -/
theorem C1_round_trip_counterexample :
    (sample_converter units.Percentage).iContext.device_metrics_available = true ∧
    (sample_converter units.Percentage).to_device_units_ext_size ⟨0, 100⟩ ⟨50, 50⟩
      = Except.ok ⟨0, 50⟩ ∧
    (sample_converter units.Percentage).to_device_units_ext_size ⟨0, 100⟩ ⟨20, 50⟩
      = Except.ok ⟨0, 50⟩ ∧
    ((sample_converter units.Percentage).to_device_units_ext_size ⟨0, 100⟩ ⟨50, 50⟩ >>=
      (sample_converter units.Percentage).from_device_units_ext_size ⟨0, 100⟩)
      ≠ Except.ok ⟨50, 50⟩ := by
  have hm : ¬ (sample_converter units.Percentage).metrics_missing :=
    units_converter.not_missing_of_percentage _ rfl
  refine ⟨rfl, ?_, ?_, ?_⟩
  · rw [units_converter.to_ext_size_eq, if_neg hm]
    simp [units_converter.to_factor, sample_converter, units_converter.units,
      units_context.units]
  · rw [units_converter.to_ext_size_eq, if_neg hm]
    simp [units_converter.to_factor, sample_converter, units_converter.units,
      units_context.units]
  · rw [units_converter.to_ext_size_eq, if_neg hm, bind_ok, units_converter.from_ext_size_eq,
      if_neg hm]
    simp [units_converter.to_factor, units_converter.from_factor, sample_converter,
      units_converter.units, units_context.units]

/-- C1 (amended): with metrics available and the divisors of the current unit non-zero
(both DPIs for the DPI-based units, also the em-size for Ems, both components of the
reference extent for Percentage; nothing for Pixels), converting to device units and back
under the same unit and extent returns the original value, for every shape: scalar,
2D vector, delta, size, point and rectangle in the explicit-extent form, and all of these
and margins in the implicit-extent form, whose extent is the device extents. -/
theorem C1_round_trip (k : units_converter) (e : size)
    (h : k.iContext.device_metrics_available = true) (hz : k.divisors_nonzero e) :
    (∀ v : dimension, (k.to_device_units_ext_dimension e v >>=
        k.from_device_units_ext_dimension e) = Except.ok v) ∧
    (∀ v : vector2, (k.to_device_units_ext_vector2 e v >>=
        k.from_device_units_ext_vector2 e) = Except.ok v) ∧
    (∀ v : delta, (k.to_device_units_ext_delta e v >>=
        k.from_device_units_ext_delta e) = Except.ok v) ∧
    (∀ v : size, (k.to_device_units_ext_size e v >>=
        k.from_device_units_ext_size e) = Except.ok v) ∧
    (∀ v : point, (k.to_device_units_ext_point e v >>=
        k.from_device_units_ext_point e) = Except.ok v) ∧
    (∀ v : rect, (k.to_device_units_ext_rect e v >>=
        k.from_device_units_ext_rect e) = Except.ok v) ∧
    (e = k.iContext.device_metrics.extents →
      (∀ v : dimension, (k.to_device_units_dimension v >>=
          k.from_device_units_dimension) = Except.ok v) ∧
      (∀ v : vector2, (k.to_device_units_vector2 v >>=
          k.from_device_units_vector2) = Except.ok v) ∧
      (∀ v : delta, (k.to_device_units_delta v >>=
          k.from_device_units_delta) = Except.ok v) ∧
      (∀ v : size, (k.to_device_units_size v >>=
          k.from_device_units_size) = Except.ok v) ∧
      (∀ v : point, (k.to_device_units_point v >>=
          k.from_device_units_point) = Except.ok v) ∧
      (∀ v : rect, (k.to_device_units_rect v >>=
          k.from_device_units_rect) = Except.ok v) ∧
      (∀ v : margins, (k.to_device_units_margins v >>=
          k.from_device_units_margins) = Except.ok v)) := by
  have hm : ¬ k.metrics_missing := units_converter.not_missing_of_available k h
  obtain ⟨hx, hy⟩ := units_converter.factor_mul_cancel k e hz
  have ex : ∀ a : dimension, a * (k.to_factor e).1 * (k.from_factor e).1 = a := by
    intro a; rw [mul_assoc, hx, mul_one]
  have ey : ∀ a : dimension, a * (k.to_factor e).2 * (k.from_factor e).2 = a := by
    intro a; rw [mul_assoc, hy, mul_one]
  refine ⟨?_, ?_, ?_, ?_, ?_, ?_, ?_⟩
  · intro v
    rw [units_converter.to_ext_dimension_eq, if_neg hm, bind_ok,
      units_converter.from_ext_dimension_eq, if_neg hm, ex]
  · intro v
    rw [units_converter.to_ext_vector2_eq, if_neg hm, bind_ok,
      units_converter.from_ext_vector2_eq, if_neg hm]
    simp only [ex, ey]
  · intro v
    rw [units_converter.to_ext_delta_eq, if_neg hm, bind_ok,
      units_converter.from_ext_delta_eq, if_neg hm]
    simp only [ex, ey]
  · intro v
    rw [units_converter.to_ext_size_eq, if_neg hm, bind_ok,
      units_converter.from_ext_size_eq, if_neg hm]
    simp only [ex, ey]
  · intro v
    rw [units_converter.to_ext_point_eq, if_neg hm, bind_ok,
      units_converter.from_ext_point_eq, if_neg hm]
    simp only [ex, ey]
  · intro v
    rw [units_converter.to_ext_rect_eq, if_neg hm, bind_ok,
      units_converter.from_ext_rect_eq, if_neg hm]
    simp only [ex, ey]
  · intro he
    subst he
    refine ⟨?_, ?_, ?_, ?_, ?_, ?_, ?_⟩
    · intro v
      rw [units_converter.to_dimension_available k v h, bind_ok,
        units_converter.from_dimension_available k _ h, ex]
    · intro v
      rw [units_converter.to_vector2_available k v h, units_converter.to_ext_vector2_eq,
        if_neg hm, bind_ok, units_converter.from_vector2_available k _ h,
        units_converter.from_ext_vector2_eq, if_neg hm]
      simp only [ex, ey]
    · intro v
      rw [units_converter.to_delta_available k v h, units_converter.to_ext_delta_eq,
        if_neg hm, bind_ok, units_converter.from_delta_available k _ h,
        units_converter.from_ext_delta_eq, if_neg hm]
      simp only [ex, ey]
    · intro v
      rw [units_converter.to_size_available k v h, units_converter.to_ext_size_eq,
        if_neg hm, bind_ok, units_converter.from_size_available k _ h,
        units_converter.from_ext_size_eq, if_neg hm]
      simp only [ex, ey]
    · intro v
      rw [units_converter.to_point_available k v h, units_converter.to_ext_point_eq,
        if_neg hm, bind_ok, units_converter.from_point_available k _ h,
        units_converter.from_ext_point_eq, if_neg hm]
      simp only [ex, ey]
    · intro v
      rw [units_converter.to_rect_available k v h, units_converter.to_ext_rect_eq,
        if_neg hm, bind_ok, units_converter.from_rect_available k _ h,
        units_converter.from_ext_rect_eq, if_neg hm]
      simp only [ex, ey]
    · intro v
      rw [units_converter.to_margins_available k v h, bind_ok,
        units_converter.from_margins_available k _ h]
      simp only [ex, ey]

/-- Witness of C1 (amended): unit Percentage with reference extent (200, 100). -/
theorem C1_round_trip_witness :
    (sample_converter units.Percentage).iContext.device_metrics_available = true ∧
    (sample_converter units.Percentage).divisors_nonzero ⟨200, 100⟩ ∧
    ((sample_converter units.Percentage).to_device_units_ext_size ⟨200, 100⟩ ⟨50, 50⟩ >>=
      (sample_converter units.Percentage).from_device_units_ext_size ⟨200, 100⟩)
      = Except.ok ⟨50, 50⟩ :=
  ⟨rfl, by simp [units_converter.divisors_nonzero, sample_converter, units_converter.units,
      units_context.units],
    (C1_round_trip (sample_converter units.Percentage) ⟨200, 100⟩ rfl
      (by simp [units_converter.divisors_nonzero, sample_converter, units_converter.units,
        units_context.units])).2.2.2.1 ⟨50, 50⟩⟩

/-! ## Conversion formulas (C2, C3) -/

/-- C2: with metrics available, for Points, Picas, Ems, Millimetres, Centimetres and
Inches, `to_device_units` of a two-axis value (x, y) (size, point, delta; also the
2D vector) is (x * fH, y * fV) with (fH, fV) the factors of the spec's table, in the
explicit-extent and the implicit-extent form, and the explicit-extent result is the
same for every reference extent. -/
theorem C2_to_device_units_factors (k : units_converter) (e : size) (x y fH fV : dimension)
    (h : k.iContext.device_metrics_available = true)
    (hf : spec_to_device_factor k.units k.iContext.device_metrics.horizontal_dpi
      k.iContext.device_metrics.vertical_dpi k.iContext.device_metrics.em_size = some (fH, fV)) :
    k.to_device_units_ext_size e ⟨x, y⟩ = Except.ok ⟨x * fH, y * fV⟩ ∧
    k.to_device_units_ext_point e ⟨x, y⟩ = Except.ok ⟨x * fH, y * fV⟩ ∧
    k.to_device_units_ext_delta e ⟨x, y⟩ = Except.ok ⟨x * fH, y * fV⟩ ∧
    k.to_device_units_ext_vector2 e ⟨x, y⟩ = Except.ok ⟨x * fH, y * fV⟩ ∧
    k.to_device_units_size ⟨x, y⟩ = Except.ok ⟨x * fH, y * fV⟩ ∧
    k.to_device_units_point ⟨x, y⟩ = Except.ok ⟨x * fH, y * fV⟩ ∧
    k.to_device_units_delta ⟨x, y⟩ = Except.ok ⟨x * fH, y * fV⟩ ∧
    (∀ e2 : size,
      k.to_device_units_ext_size e2 ⟨x, y⟩ = k.to_device_units_ext_size e ⟨x, y⟩ ∧
      k.to_device_units_ext_point e2 ⟨x, y⟩ = k.to_device_units_ext_point e ⟨x, y⟩ ∧
      k.to_device_units_ext_delta e2 ⟨x, y⟩ = k.to_device_units_ext_delta e ⟨x, y⟩) := by
  have hm : ¬ k.metrics_missing := units_converter.not_missing_of_available k h
  have hall : ∀ e2 : size, k.to_factor e2 = (fH, fV) :=
    fun e2 => units_converter.to_factor_of_spec k e2 (fH, fV) hf
  refine ⟨?_, ?_, ?_, ?_, ?_, ?_, ?_, ?_⟩
  · rw [units_converter.to_ext_size_eq, if_neg hm, hall]
  · rw [units_converter.to_ext_point_eq, if_neg hm, hall]
  · rw [units_converter.to_ext_delta_eq, if_neg hm, hall]
  · rw [units_converter.to_ext_vector2_eq, if_neg hm, hall]
  · rw [units_converter.to_size_available k _ h, units_converter.to_ext_size_eq, if_neg hm,
      hall]
  · rw [units_converter.to_point_available k _ h, units_converter.to_ext_point_eq, if_neg hm,
      hall]
  · rw [units_converter.to_delta_available k _ h, units_converter.to_ext_delta_eq, if_neg hm,
      hall]
  · intro e2
    simp only [units_converter.to_ext_size_eq, units_converter.to_ext_point_eq,
      units_converter.to_ext_delta_eq, hall, and_self]

/-- Witness of C2: Millimetres at 96 x 72 DPI, the size (254, 127). -/
theorem C2_to_device_units_factors_witness :
    (sample_converter units.Millimetres).iContext.device_metrics_available = true ∧
    spec_to_device_factor units.Millimetres 96 72 1 = some (96 / 25.4, 72 / 25.4) ∧
    (sample_converter units.Millimetres).to_device_units_ext_size ⟨0, 0⟩ ⟨254, 127⟩
      = Except.ok ⟨254 * (96 / 25.4), 127 * (72 / 25.4)⟩ :=
  ⟨rfl, rfl,
    (C2_to_device_units_factors (sample_converter units.Millimetres) ⟨0, 0⟩ 254 127
      (96 / 25.4) (72 / 25.4) rfl rfl).1⟩

/-- C3: with metrics available, `from_device_units` of a two-axis device value (x, y)
(size, point, delta; also the 2D vector) is the value of the spec's formulas:
(x*72/H, y*72/V) for Points, (x*6/H, y*6/V) for Picas, (x/(E*H), y/(E*V)) for Ems,
(x*25.4/H, y*25.4/V) for Millimetres, (x*2.54/H, y*2.54/V) for Centimetres,
(x/H, y/V) for Inches, (x/extent.cx*100, y/extent.cy*100) for Percentage; and for the
six DPI-based units that value is (x * (1/fH), y * (1/fV)), the reciprocal of the
`to_device_units` factors (fH, fV). -/
theorem C3_from_device_units_formulas (k : units_converter) (e : size) (x y rx ry : dimension)
    (h : k.iContext.device_metrics_available = true)
    (hr : spec_from_device_value k.units k.iContext.device_metrics.horizontal_dpi
      k.iContext.device_metrics.vertical_dpi k.iContext.device_metrics.em_size e x y = some (rx, ry)) :
    k.from_device_units_ext_size e ⟨x, y⟩ = Except.ok ⟨rx, ry⟩ ∧
    k.from_device_units_ext_point e ⟨x, y⟩ = Except.ok ⟨rx, ry⟩ ∧
    k.from_device_units_ext_delta e ⟨x, y⟩ = Except.ok ⟨rx, ry⟩ ∧
    k.from_device_units_ext_vector2 e ⟨x, y⟩ = Except.ok ⟨rx, ry⟩ ∧
    (∀ fH fV : dimension,
      spec_to_device_factor k.units k.iContext.device_metrics.horizontal_dpi
        k.iContext.device_metrics.vertical_dpi k.iContext.device_metrics.em_size = some (fH, fV) →
      rx = x * (1 / fH) ∧ ry = y * (1 / fV)) := by
  have hm : ¬ k.metrics_missing := units_converter.not_missing_of_available k h
  obtain ⟨h1, h2⟩ := units_converter.from_factor_of_spec k e x y (rx, ry) hr
  simp only at h1 h2
  refine ⟨?_, ?_, ?_, ?_, ?_⟩
  · rw [units_converter.from_ext_size_eq, if_neg hm, h1, h2]
  · rw [units_converter.from_ext_point_eq, if_neg hm, h1, h2]
  · rw [units_converter.from_ext_delta_eq, if_neg hm, h1, h2]
  · rw [units_converter.from_ext_vector2_eq, if_neg hm, h1, h2]
  · intro fH fV hf
    obtain ⟨g1, g2⟩ := units_converter.from_factor_of_spec_to k e (fH, fV) hf
    simp only at g1 g2
    rw [← h1, ← h2, g1, g2]
    exact ⟨rfl, rfl⟩

/-- Witness of C3: Points at 96 x 72 DPI, the device size (40, 30). -/
theorem C3_from_device_units_formulas_witness :
    (sample_converter units.Points).iContext.device_metrics_available = true ∧
    spec_from_device_value units.Points 96 72 1 ⟨0, 0⟩ 40 30
      = some (40 * 72 / 96, 30 * 72 / 72) ∧
    (sample_converter units.Points).from_device_units_ext_size ⟨0, 0⟩ ⟨40, 30⟩
      = Except.ok ⟨40 * 72 / 96, 30 * 72 / 72⟩ :=
  ⟨rfl, rfl,
    (C3_from_device_units_formulas (sample_converter units.Points) ⟨0, 0⟩ 40 30
      (40 * 72 / 96) (30 * 72 / 72) rfl rfl).1⟩

/-! ## Pixels and unavailable metrics (C4 - C8) -/

/-- C4: when the current unit is Pixels, every conversion returns its argument and
signals no failure: both directions, every shape (scalar, 2D vector, delta, size, point,
rectangle, margins), explicit-extent and implicit-extent form, whether or not device
metrics are available (there is no hypothesis on availability). -/
theorem C4_pixels_identity (k : units_converter) (hu : k.units = units.Pixels) :
    (∀ (e : size) (v : dimension), k.to_device_units_ext_dimension e v = Except.ok v) ∧
    (∀ (e : size) (v : vector2), k.to_device_units_ext_vector2 e v = Except.ok v) ∧
    (∀ (e : size) (v : delta), k.to_device_units_ext_delta e v = Except.ok v) ∧
    (∀ (e : size) (v : size), k.to_device_units_ext_size e v = Except.ok v) ∧
    (∀ (e : size) (v : point), k.to_device_units_ext_point e v = Except.ok v) ∧
    (∀ (e : size) (v : rect), k.to_device_units_ext_rect e v = Except.ok v) ∧
    (∀ (e : size) (v : dimension), k.from_device_units_ext_dimension e v = Except.ok v) ∧
    (∀ (e : size) (v : vector2), k.from_device_units_ext_vector2 e v = Except.ok v) ∧
    (∀ (e : size) (v : delta), k.from_device_units_ext_delta e v = Except.ok v) ∧
    (∀ (e : size) (v : size), k.from_device_units_ext_size e v = Except.ok v) ∧
    (∀ (e : size) (v : point), k.from_device_units_ext_point e v = Except.ok v) ∧
    (∀ (e : size) (v : rect), k.from_device_units_ext_rect e v = Except.ok v) ∧
    (∀ v : dimension, k.to_device_units_dimension v = Except.ok v) ∧
    (∀ v : vector2, k.to_device_units_vector2 v = Except.ok v) ∧
    (∀ v : delta, k.to_device_units_delta v = Except.ok v) ∧
    (∀ v : size, k.to_device_units_size v = Except.ok v) ∧
    (∀ v : point, k.to_device_units_point v = Except.ok v) ∧
    (∀ v : rect, k.to_device_units_rect v = Except.ok v) ∧
    (∀ v : margins, k.to_device_units_margins v = Except.ok v) ∧
    (∀ v : dimension, k.from_device_units_dimension v = Except.ok v) ∧
    (∀ v : vector2, k.from_device_units_vector2 v = Except.ok v) ∧
    (∀ v : delta, k.from_device_units_delta v = Except.ok v) ∧
    (∀ v : size, k.from_device_units_size v = Except.ok v) ∧
    (∀ v : point, k.from_device_units_point v = Except.ok v) ∧
    (∀ v : rect, k.from_device_units_rect v = Except.ok v) ∧
    (∀ v : margins, k.from_device_units_margins v = Except.ok v) :=
  ⟨fun e v => units_converter.to_ext_dimension_pixels k e v hu,
   fun e v => units_converter.to_ext_vector2_pixels k e v hu,
   fun e v => units_converter.to_ext_delta_pixels k e v hu,
   fun e v => units_converter.to_ext_size_pixels k e v hu,
   fun e v => units_converter.to_ext_point_pixels k e v hu,
   fun e v => units_converter.to_ext_rect_pixels k e v hu,
   fun e v => units_converter.from_ext_dimension_pixels k e v hu,
   fun e v => units_converter.from_ext_vector2_pixels k e v hu,
   fun e v => units_converter.from_ext_delta_pixels k e v hu,
   fun e v => units_converter.from_ext_size_pixels k e v hu,
   fun e v => units_converter.from_ext_point_pixels k e v hu,
   fun e v => units_converter.from_ext_rect_pixels k e v hu,
   fun v => units_converter.to_dimension_pixels k v hu,
   fun v => units_converter.to_vector2_pixels k v hu,
   fun v => units_converter.to_delta_pixels k v hu,
   fun v => units_converter.to_size_pixels k v hu,
   fun v => units_converter.to_point_pixels k v hu,
   fun v => units_converter.to_rect_pixels k v hu,
   fun v => units_converter.to_margins_pixels k v hu,
   fun v => units_converter.from_dimension_pixels k v hu,
   fun v => units_converter.from_vector2_pixels k v hu,
   fun v => units_converter.from_delta_pixels k v hu,
   fun v => units_converter.from_size_pixels k v hu,
   fun v => units_converter.from_point_pixels k v hu,
   fun v => units_converter.from_rect_pixels k v hu,
   fun v => units_converter.from_margins_pixels k v hu⟩

/-- Witness of C4: Pixels with metrics unavailable, the margins (1, 2, 3, 4). -/
theorem C4_pixels_identity_witness :
    (detached_converter units.Pixels).units = units.Pixels ∧
    (detached_converter units.Pixels).iContext.device_metrics_available = false ∧
    (detached_converter units.Pixels).to_device_units_margins ⟨1, 2, 3, 4⟩
      = Except.ok ⟨1, 2, 3, 4⟩ :=
  ⟨rfl, rfl, (C4_pixels_identity (detached_converter units.Pixels) rfl).2.2.2.2.2.2.2.2.2.2.2.2.2.2.2.2.2.2.1
    ⟨1, 2, 3, 4⟩⟩

/-- C5: when device metrics are unavailable and the current unit is Points, Picas, Ems,
Millimetres, Centimetres or Inches, every conversion signals `device_metrics_unavailable`
and returns no value: both directions, every shape, explicit-extent and implicit-extent
form. -/
theorem C5_unavailable_metrics_failure (k : units_converter)
    (h : k.iContext.device_metrics_available = false)
    (hu : k.units = units.Points ∨ k.units = units.Picas ∨ k.units = units.Ems ∨
      k.units = units.Millimetres ∨ k.units = units.Centimetres ∨ k.units = units.Inches) :
    (∀ (e : size) (v : dimension), k.to_device_units_ext_dimension e v =
      Except.error failure.device_metrics_unavailable) ∧
    (∀ (e : size) (v : vector2), k.to_device_units_ext_vector2 e v =
      Except.error failure.device_metrics_unavailable) ∧
    (∀ (e : size) (v : delta), k.to_device_units_ext_delta e v =
      Except.error failure.device_metrics_unavailable) ∧
    (∀ (e : size) (v : size), k.to_device_units_ext_size e v =
      Except.error failure.device_metrics_unavailable) ∧
    (∀ (e : size) (v : point), k.to_device_units_ext_point e v =
      Except.error failure.device_metrics_unavailable) ∧
    (∀ (e : size) (v : rect), k.to_device_units_ext_rect e v =
      Except.error failure.device_metrics_unavailable) ∧
    (∀ (e : size) (v : dimension), k.from_device_units_ext_dimension e v =
      Except.error failure.device_metrics_unavailable) ∧
    (∀ (e : size) (v : vector2), k.from_device_units_ext_vector2 e v =
      Except.error failure.device_metrics_unavailable) ∧
    (∀ (e : size) (v : delta), k.from_device_units_ext_delta e v =
      Except.error failure.device_metrics_unavailable) ∧
    (∀ (e : size) (v : size), k.from_device_units_ext_size e v =
      Except.error failure.device_metrics_unavailable) ∧
    (∀ (e : size) (v : point), k.from_device_units_ext_point e v =
      Except.error failure.device_metrics_unavailable) ∧
    (∀ (e : size) (v : rect), k.from_device_units_ext_rect e v =
      Except.error failure.device_metrics_unavailable) ∧
    (∀ v : dimension, k.to_device_units_dimension v =
      Except.error failure.device_metrics_unavailable) ∧
    (∀ v : vector2, k.to_device_units_vector2 v =
      Except.error failure.device_metrics_unavailable) ∧
    (∀ v : delta, k.to_device_units_delta v =
      Except.error failure.device_metrics_unavailable) ∧
    (∀ v : size, k.to_device_units_size v =
      Except.error failure.device_metrics_unavailable) ∧
    (∀ v : point, k.to_device_units_point v =
      Except.error failure.device_metrics_unavailable) ∧
    (∀ v : rect, k.to_device_units_rect v =
      Except.error failure.device_metrics_unavailable) ∧
    (∀ v : margins, k.to_device_units_margins v =
      Except.error failure.device_metrics_unavailable) ∧
    (∀ v : dimension, k.from_device_units_dimension v =
      Except.error failure.device_metrics_unavailable) ∧
    (∀ v : vector2, k.from_device_units_vector2 v =
      Except.error failure.device_metrics_unavailable) ∧
    (∀ v : delta, k.from_device_units_delta v =
      Except.error failure.device_metrics_unavailable) ∧
    (∀ v : size, k.from_device_units_size v =
      Except.error failure.device_metrics_unavailable) ∧
    (∀ v : point, k.from_device_units_point v =
      Except.error failure.device_metrics_unavailable) ∧
    (∀ v : rect, k.from_device_units_rect v =
      Except.error failure.device_metrics_unavailable) ∧
    (∀ v : margins, k.from_device_units_margins v =
      Except.error failure.device_metrics_unavailable) := by
  have hne : k.units ≠ units.Pixels ∧ k.units ≠ units.Percentage := by
    rcases hu with hu | hu | hu | hu | hu | hu <;> rw [hu] <;> exact ⟨by decide, by decide⟩
  have hm : k.metrics_missing := ⟨h, hne.1, hne.2⟩
  have hi : k.implicit_fails := ⟨h, hne.1⟩
  exact ⟨fun e v => (units_converter.to_ext_dimension_fails_iff k e v).2 hm,
    fun e v => (units_converter.to_ext_vector2_fails_iff k e v).2 hm,
    fun e v => (units_converter.to_ext_delta_fails_iff k e v).2 hm,
    fun e v => (units_converter.to_ext_size_fails_iff k e v).2 hm,
    fun e v => (units_converter.to_ext_point_fails_iff k e v).2 hm,
    fun e v => (units_converter.to_ext_rect_fails_iff k e v).2 hm,
    fun e v => (units_converter.from_ext_dimension_fails_iff k e v).2 hm,
    fun e v => (units_converter.from_ext_vector2_fails_iff k e v).2 hm,
    fun e v => (units_converter.from_ext_delta_fails_iff k e v).2 hm,
    fun e v => (units_converter.from_ext_size_fails_iff k e v).2 hm,
    fun e v => (units_converter.from_ext_point_fails_iff k e v).2 hm,
    fun e v => (units_converter.from_ext_rect_fails_iff k e v).2 hm,
    fun v => (units_converter.to_dimension_fails_iff k v).2 hi,
    fun v => (units_converter.to_vector2_fails_iff k v).2 hi,
    fun v => (units_converter.to_delta_fails_iff k v).2 hi,
    fun v => (units_converter.to_size_fails_iff k v).2 hi,
    fun v => (units_converter.to_point_fails_iff k v).2 hi,
    fun v => (units_converter.to_rect_fails_iff k v).2 hi,
    fun v => (units_converter.to_margins_fails_iff k v).2 hi,
    fun v => (units_converter.from_dimension_fails_iff k v).2 hi,
    fun v => (units_converter.from_vector2_fails_iff k v).2 hi,
    fun v => (units_converter.from_delta_fails_iff k v).2 hi,
    fun v => (units_converter.from_size_fails_iff k v).2 hi,
    fun v => (units_converter.from_point_fails_iff k v).2 hi,
    fun v => (units_converter.from_rect_fails_iff k v).2 hi,
    fun v => (units_converter.from_margins_fails_iff k v).2 hi⟩

/-- Witness of C5: Millimetres with metrics unavailable, the scalar 10. -/
theorem C5_unavailable_metrics_failure_witness :
    (detached_converter units.Millimetres).iContext.device_metrics_available = false ∧
    (detached_converter units.Millimetres).units = units.Millimetres ∧
    (detached_converter units.Millimetres).to_device_units_ext_dimension ⟨800, 600⟩ 10
      = Except.error failure.device_metrics_unavailable :=
  ⟨rfl, rfl,
    (C5_unavailable_metrics_failure (detached_converter units.Millimetres) rfl
      (Or.inr (Or.inr (Or.inr (Or.inl rfl))))).1 ⟨800, 600⟩ 10⟩

/-- C6: an implicit-extent conversion (either direction; scalar, 2D vector, delta, size,
point, rectangle, margins) fails with `device_metrics_unavailable` if and only if device
metrics are unavailable and the current unit is not Pixels; in particular it fails for
Percentage when metrics are unavailable, and returns a value whenever metrics are
available. -/
theorem C6_implicit_failure_condition (k : units_converter) :
    ((∀ v : dimension, k.to_device_units_dimension v = Except.error failure.device_metrics_unavailable ↔
      (k.iContext.device_metrics_available = false ∧ k.units ≠ units.Pixels)) ∧
     (∀ v : vector2, k.to_device_units_vector2 v = Except.error failure.device_metrics_unavailable ↔
      (k.iContext.device_metrics_available = false ∧ k.units ≠ units.Pixels)) ∧
     (∀ v : delta, k.to_device_units_delta v = Except.error failure.device_metrics_unavailable ↔
      (k.iContext.device_metrics_available = false ∧ k.units ≠ units.Pixels)) ∧
     (∀ v : size, k.to_device_units_size v = Except.error failure.device_metrics_unavailable ↔
      (k.iContext.device_metrics_available = false ∧ k.units ≠ units.Pixels)) ∧
     (∀ v : point, k.to_device_units_point v = Except.error failure.device_metrics_unavailable ↔
      (k.iContext.device_metrics_available = false ∧ k.units ≠ units.Pixels)) ∧
     (∀ v : rect, k.to_device_units_rect v = Except.error failure.device_metrics_unavailable ↔
      (k.iContext.device_metrics_available = false ∧ k.units ≠ units.Pixels)) ∧
     (∀ v : margins, k.to_device_units_margins v = Except.error failure.device_metrics_unavailable ↔
      (k.iContext.device_metrics_available = false ∧ k.units ≠ units.Pixels)) ∧
     (∀ v : dimension, k.from_device_units_dimension v = Except.error failure.device_metrics_unavailable ↔
      (k.iContext.device_metrics_available = false ∧ k.units ≠ units.Pixels)) ∧
     (∀ v : vector2, k.from_device_units_vector2 v = Except.error failure.device_metrics_unavailable ↔
      (k.iContext.device_metrics_available = false ∧ k.units ≠ units.Pixels)) ∧
     (∀ v : delta, k.from_device_units_delta v = Except.error failure.device_metrics_unavailable ↔
      (k.iContext.device_metrics_available = false ∧ k.units ≠ units.Pixels)) ∧
     (∀ v : size, k.from_device_units_size v = Except.error failure.device_metrics_unavailable ↔
      (k.iContext.device_metrics_available = false ∧ k.units ≠ units.Pixels)) ∧
     (∀ v : point, k.from_device_units_point v = Except.error failure.device_metrics_unavailable ↔
      (k.iContext.device_metrics_available = false ∧ k.units ≠ units.Pixels)) ∧
     (∀ v : rect, k.from_device_units_rect v = Except.error failure.device_metrics_unavailable ↔
      (k.iContext.device_metrics_available = false ∧ k.units ≠ units.Pixels)) ∧
     (∀ v : margins, k.from_device_units_margins v = Except.error failure.device_metrics_unavailable ↔
      (k.iContext.device_metrics_available = false ∧ k.units ≠ units.Pixels))) ∧
    (k.iContext.device_metrics_available = false → k.units = units.Percentage →
      (∀ v : dimension, k.to_device_units_dimension v =
        Except.error failure.device_metrics_unavailable) ∧
      (∀ v : vector2, k.to_device_units_vector2 v =
        Except.error failure.device_metrics_unavailable) ∧
      (∀ v : delta, k.to_device_units_delta v =
        Except.error failure.device_metrics_unavailable) ∧
      (∀ v : size, k.to_device_units_size v =
        Except.error failure.device_metrics_unavailable) ∧
      (∀ v : point, k.to_device_units_point v =
        Except.error failure.device_metrics_unavailable) ∧
      (∀ v : rect, k.to_device_units_rect v =
        Except.error failure.device_metrics_unavailable) ∧
      (∀ v : margins, k.to_device_units_margins v =
        Except.error failure.device_metrics_unavailable) ∧
      (∀ v : dimension, k.from_device_units_dimension v =
        Except.error failure.device_metrics_unavailable) ∧
      (∀ v : vector2, k.from_device_units_vector2 v =
        Except.error failure.device_metrics_unavailable) ∧
      (∀ v : delta, k.from_device_units_delta v =
        Except.error failure.device_metrics_unavailable) ∧
      (∀ v : size, k.from_device_units_size v =
        Except.error failure.device_metrics_unavailable) ∧
      (∀ v : point, k.from_device_units_point v =
        Except.error failure.device_metrics_unavailable) ∧
      (∀ v : rect, k.from_device_units_rect v =
        Except.error failure.device_metrics_unavailable) ∧
      (∀ v : margins, k.from_device_units_margins v =
        Except.error failure.device_metrics_unavailable)) ∧
    (k.iContext.device_metrics_available = true →
      (∀ v : dimension, ∃ r, k.to_device_units_dimension v = Except.ok r) ∧
      (∀ v : vector2, ∃ r, k.to_device_units_vector2 v = Except.ok r) ∧
      (∀ v : delta, ∃ r, k.to_device_units_delta v = Except.ok r) ∧
      (∀ v : size, ∃ r, k.to_device_units_size v = Except.ok r) ∧
      (∀ v : point, ∃ r, k.to_device_units_point v = Except.ok r) ∧
      (∀ v : rect, ∃ r, k.to_device_units_rect v = Except.ok r) ∧
      (∀ v : margins, ∃ r, k.to_device_units_margins v = Except.ok r) ∧
      (∀ v : dimension, ∃ r, k.from_device_units_dimension v = Except.ok r) ∧
      (∀ v : vector2, ∃ r, k.from_device_units_vector2 v = Except.ok r) ∧
      (∀ v : delta, ∃ r, k.from_device_units_delta v = Except.ok r) ∧
      (∀ v : size, ∃ r, k.from_device_units_size v = Except.ok r) ∧
      (∀ v : point, ∃ r, k.from_device_units_point v = Except.ok r) ∧
      (∀ v : rect, ∃ r, k.from_device_units_rect v = Except.ok r) ∧
      (∀ v : margins, ∃ r, k.from_device_units_margins v = Except.ok r)) := by
  refine ⟨?_, ?_, ?_⟩
  · exact ⟨fun v => units_converter.to_dimension_fails_iff k v,
      fun v => units_converter.to_vector2_fails_iff k v,
      fun v => units_converter.to_delta_fails_iff k v,
      fun v => units_converter.to_size_fails_iff k v,
      fun v => units_converter.to_point_fails_iff k v,
      fun v => units_converter.to_rect_fails_iff k v,
      fun v => units_converter.to_margins_fails_iff k v,
      fun v => units_converter.from_dimension_fails_iff k v,
      fun v => units_converter.from_vector2_fails_iff k v,
      fun v => units_converter.from_delta_fails_iff k v,
      fun v => units_converter.from_size_fails_iff k v,
      fun v => units_converter.from_point_fails_iff k v,
      fun v => units_converter.from_rect_fails_iff k v,
      fun v => units_converter.from_margins_fails_iff k v⟩
  · intro h hu
    have hne : k.units ≠ units.Pixels := by rw [hu]; decide
    exact ⟨fun v => (units_converter.to_dimension_fails_iff k v).2 ⟨h, hne⟩,
      fun v => (units_converter.to_vector2_fails_iff k v).2 ⟨h, hne⟩,
      fun v => (units_converter.to_delta_fails_iff k v).2 ⟨h, hne⟩,
      fun v => (units_converter.to_size_fails_iff k v).2 ⟨h, hne⟩,
      fun v => (units_converter.to_point_fails_iff k v).2 ⟨h, hne⟩,
      fun v => (units_converter.to_rect_fails_iff k v).2 ⟨h, hne⟩,
      fun v => (units_converter.to_margins_fails_iff k v).2 ⟨h, hne⟩,
      fun v => (units_converter.from_dimension_fails_iff k v).2 ⟨h, hne⟩,
      fun v => (units_converter.from_vector2_fails_iff k v).2 ⟨h, hne⟩,
      fun v => (units_converter.from_delta_fails_iff k v).2 ⟨h, hne⟩,
      fun v => (units_converter.from_size_fails_iff k v).2 ⟨h, hne⟩,
      fun v => (units_converter.from_point_fails_iff k v).2 ⟨h, hne⟩,
      fun v => (units_converter.from_rect_fails_iff k v).2 ⟨h, hne⟩,
      fun v => (units_converter.from_margins_fails_iff k v).2 ⟨h, hne⟩⟩
  · intro h
    have hav : ¬ k.implicit_fails := by
      intro hf
      rw [hf.1] at h
      exact Bool.noConfusion h
    exact ⟨fun v => units_converter.returns_of_not_fails _ (fun hf => hav ((units_converter.to_dimension_fails_iff k v).1 hf)),
      fun v => units_converter.returns_of_not_fails _ (fun hf => hav ((units_converter.to_vector2_fails_iff k v).1 hf)),
      fun v => units_converter.returns_of_not_fails _ (fun hf => hav ((units_converter.to_delta_fails_iff k v).1 hf)),
      fun v => units_converter.returns_of_not_fails _ (fun hf => hav ((units_converter.to_size_fails_iff k v).1 hf)),
      fun v => units_converter.returns_of_not_fails _ (fun hf => hav ((units_converter.to_point_fails_iff k v).1 hf)),
      fun v => units_converter.returns_of_not_fails _ (fun hf => hav ((units_converter.to_rect_fails_iff k v).1 hf)),
      fun v => units_converter.returns_of_not_fails _ (fun hf => hav ((units_converter.to_margins_fails_iff k v).1 hf)),
      fun v => units_converter.returns_of_not_fails _ (fun hf => hav ((units_converter.from_dimension_fails_iff k v).1 hf)),
      fun v => units_converter.returns_of_not_fails _ (fun hf => hav ((units_converter.from_vector2_fails_iff k v).1 hf)),
      fun v => units_converter.returns_of_not_fails _ (fun hf => hav ((units_converter.from_delta_fails_iff k v).1 hf)),
      fun v => units_converter.returns_of_not_fails _ (fun hf => hav ((units_converter.from_size_fails_iff k v).1 hf)),
      fun v => units_converter.returns_of_not_fails _ (fun hf => hav ((units_converter.from_point_fails_iff k v).1 hf)),
      fun v => units_converter.returns_of_not_fails _ (fun hf => hav ((units_converter.from_rect_fails_iff k v).1 hf)),
      fun v => units_converter.returns_of_not_fails _ (fun hf => hav ((units_converter.from_margins_fails_iff k v).1 hf))⟩

/-- Witness of C6: Percentage with metrics unavailable, the implicit-extent size
conversion fails. -/
theorem C6_implicit_failure_condition_witness :
    (detached_converter units.Percentage).to_device_units_size ⟨50, 50⟩
      = Except.error failure.device_metrics_unavailable :=
  ((C6_implicit_failure_condition (detached_converter units.Percentage)).1.2.2.2.1 ⟨50, 50⟩).2
    ⟨rfl, by decide⟩

/-- C7: an explicit-extent conversion with current unit Percentage does not fail,
whether or not device metrics are available (there is no hypothesis on availability):
`to_device_units(extent, (x, y))` is (extent.cx*x/100, extent.cy*y/100) and
`from_device_units(extent, (x, y))` is (x/extent.cx*100, y/extent.cy*100), for size,
point, delta and 2D vector; and when metrics are unavailable every explicit-extent
conversion under a unit other than Pixels and Percentage fails. -/
theorem C7_explicit_percentage_without_metrics (k : units_converter) (e : size)
    (x y : dimension) :
    (k.units = units.Percentage →
      k.to_device_units_ext_size e ⟨x, y⟩ = Except.ok ⟨e.cx * x / 100, e.cy * y / 100⟩ ∧
      k.to_device_units_ext_point e ⟨x, y⟩ = Except.ok ⟨e.cx * x / 100, e.cy * y / 100⟩ ∧
      k.to_device_units_ext_delta e ⟨x, y⟩ = Except.ok ⟨e.cx * x / 100, e.cy * y / 100⟩ ∧
      k.to_device_units_ext_vector2 e ⟨x, y⟩ = Except.ok ⟨e.cx * x / 100, e.cy * y / 100⟩ ∧
      k.from_device_units_ext_size e ⟨x, y⟩ = Except.ok ⟨x / e.cx * 100, y / e.cy * 100⟩ ∧
      k.from_device_units_ext_point e ⟨x, y⟩ = Except.ok ⟨x / e.cx * 100, y / e.cy * 100⟩ ∧
      k.from_device_units_ext_delta e ⟨x, y⟩ = Except.ok ⟨x / e.cx * 100, y / e.cy * 100⟩ ∧
      k.from_device_units_ext_vector2 e ⟨x, y⟩ = Except.ok ⟨x / e.cx * 100, y / e.cy * 100⟩) ∧
    (k.iContext.device_metrics_available = false → k.units ≠ units.Pixels →
      k.units ≠ units.Percentage →
      (∀ v : dimension, k.to_device_units_ext_dimension e v =
        Except.error failure.device_metrics_unavailable) ∧
      (∀ v : vector2, k.to_device_units_ext_vector2 e v =
        Except.error failure.device_metrics_unavailable) ∧
      (∀ v : delta, k.to_device_units_ext_delta e v =
        Except.error failure.device_metrics_unavailable) ∧
      (∀ v : size, k.to_device_units_ext_size e v =
        Except.error failure.device_metrics_unavailable) ∧
      (∀ v : point, k.to_device_units_ext_point e v =
        Except.error failure.device_metrics_unavailable) ∧
      (∀ v : rect, k.to_device_units_ext_rect e v =
        Except.error failure.device_metrics_unavailable) ∧
      (∀ v : dimension, k.from_device_units_ext_dimension e v =
        Except.error failure.device_metrics_unavailable) ∧
      (∀ v : vector2, k.from_device_units_ext_vector2 e v =
        Except.error failure.device_metrics_unavailable) ∧
      (∀ v : delta, k.from_device_units_ext_delta e v =
        Except.error failure.device_metrics_unavailable) ∧
      (∀ v : size, k.from_device_units_ext_size e v =
        Except.error failure.device_metrics_unavailable) ∧
      (∀ v : point, k.from_device_units_ext_point e v =
        Except.error failure.device_metrics_unavailable) ∧
      (∀ v : rect, k.from_device_units_ext_rect e v =
        Except.error failure.device_metrics_unavailable)) := by
  refine ⟨?_, ?_⟩
  · intro hu
    have hm : ¬ k.metrics_missing := units_converter.not_missing_of_percentage k hu
    simp only [units_converter.to_ext_size_eq, units_converter.to_ext_point_eq,
      units_converter.to_ext_delta_eq, units_converter.to_ext_vector2_eq,
      units_converter.from_ext_size_eq, units_converter.from_ext_point_eq,
      units_converter.from_ext_delta_eq, units_converter.from_ext_vector2_eq,
      if_neg hm, units_converter.to_factor_percentage k e hu,
      units_converter.from_factor_percentage k e hu, units_converter.percentage_to_arith,
      units_converter.percentage_from_arith, and_self]
  · intro h h1 h2
    exact ⟨fun v => (units_converter.to_ext_dimension_fails_iff k e v).2 ⟨h, h1, h2⟩,
      fun v => (units_converter.to_ext_vector2_fails_iff k e v).2 ⟨h, h1, h2⟩,
      fun v => (units_converter.to_ext_delta_fails_iff k e v).2 ⟨h, h1, h2⟩,
      fun v => (units_converter.to_ext_size_fails_iff k e v).2 ⟨h, h1, h2⟩,
      fun v => (units_converter.to_ext_point_fails_iff k e v).2 ⟨h, h1, h2⟩,
      fun v => (units_converter.to_ext_rect_fails_iff k e v).2 ⟨h, h1, h2⟩,
      fun v => (units_converter.from_ext_dimension_fails_iff k e v).2 ⟨h, h1, h2⟩,
      fun v => (units_converter.from_ext_vector2_fails_iff k e v).2 ⟨h, h1, h2⟩,
      fun v => (units_converter.from_ext_delta_fails_iff k e v).2 ⟨h, h1, h2⟩,
      fun v => (units_converter.from_ext_size_fails_iff k e v).2 ⟨h, h1, h2⟩,
      fun v => (units_converter.from_ext_point_fails_iff k e v).2 ⟨h, h1, h2⟩,
      fun v => (units_converter.from_ext_rect_fails_iff k e v).2 ⟨h, h1, h2⟩⟩

/-- Witness of C7: Percentage with metrics unavailable, extent (200, 100), size (50, 50). -/
theorem C7_explicit_percentage_without_metrics_witness :
    (detached_converter units.Percentage).iContext.device_metrics_available = false ∧
    (detached_converter units.Percentage).to_device_units_ext_size ⟨200, 100⟩ ⟨50, 50⟩
      = Except.ok ⟨200 * 50 / 100, 100 * 50 / 100⟩ ∧
    (detached_converter units.Inches).to_device_units_ext_size ⟨200, 100⟩ ⟨50, 50⟩
      = Except.error failure.device_metrics_unavailable :=
  ⟨rfl,
    ((C7_explicit_percentage_without_metrics (detached_converter units.Percentage)
      ⟨200, 100⟩ 50 50).1 rfl).1,
    ((C7_explicit_percentage_without_metrics (detached_converter units.Inches)
      ⟨200, 100⟩ 50 50).2 rfl (by decide) (by decide)).2.2.2.1 ⟨50, 50⟩⟩

/-- C8, as stated, fails: with unit Percentage and device metrics unavailable the
implicit-extent size conversion signals `device_metrics_unavailable` and returns no
value, although the unit is Percentage. -/
theorem C8_error_condition_counterexample :
    (detached_converter units.Percentage).units = units.Percentage ∧
    (detached_converter units.Percentage).iContext.device_metrics_available = false ∧
    (detached_converter units.Percentage).to_device_units_size ⟨50, 50⟩
      = Except.error failure.device_metrics_unavailable ∧
    ¬ ∃ r, (detached_converter units.Percentage).to_device_units_size ⟨50, 50⟩
      = Except.ok r := by
  have hf : (detached_converter units.Percentage).to_device_units_size ⟨50, 50⟩
      = Except.error failure.device_metrics_unavailable :=
    (units_converter.to_size_fails_iff _ _).2 ⟨rfl, by decide⟩
  refine ⟨rfl, rfl, hf, ?_⟩
  rintro ⟨r, hr⟩
  rw [hf] at hr
  exact Except.noConfusion hr

/-- C8 (amended): every explicit-extent conversion (both directions, every shape) signals
`device_metrics_unavailable` exactly when device metrics are unavailable and the current
unit is neither Pixels nor Percentage; every implicit-extent conversion (both directions,
every shape, margins included) signals it exactly when device metrics are unavailable and
the current unit is not Pixels; in every other case the conversion returns a value. -/
theorem C8_error_condition (k : units_converter) :
    (∀ (e : size) (v : dimension),
      (k.to_device_units_ext_dimension e v = Except.error failure.device_metrics_unavailable ↔
        (k.iContext.device_metrics_available = false ∧ k.units ≠ units.Pixels ∧
          k.units ≠ units.Percentage)) ∧
      (¬ (k.iContext.device_metrics_available = false ∧ k.units ≠ units.Pixels ∧
          k.units ≠ units.Percentage) → ∃ r, k.to_device_units_ext_dimension e v = Except.ok r)) ∧
    (∀ (e : size) (v : vector2),
      (k.to_device_units_ext_vector2 e v = Except.error failure.device_metrics_unavailable ↔
        (k.iContext.device_metrics_available = false ∧ k.units ≠ units.Pixels ∧
          k.units ≠ units.Percentage)) ∧
      (¬ (k.iContext.device_metrics_available = false ∧ k.units ≠ units.Pixels ∧
          k.units ≠ units.Percentage) → ∃ r, k.to_device_units_ext_vector2 e v = Except.ok r)) ∧
    (∀ (e : size) (v : delta),
      (k.to_device_units_ext_delta e v = Except.error failure.device_metrics_unavailable ↔
        (k.iContext.device_metrics_available = false ∧ k.units ≠ units.Pixels ∧
          k.units ≠ units.Percentage)) ∧
      (¬ (k.iContext.device_metrics_available = false ∧ k.units ≠ units.Pixels ∧
          k.units ≠ units.Percentage) → ∃ r, k.to_device_units_ext_delta e v = Except.ok r)) ∧
    (∀ (e : size) (v : size),
      (k.to_device_units_ext_size e v = Except.error failure.device_metrics_unavailable ↔
        (k.iContext.device_metrics_available = false ∧ k.units ≠ units.Pixels ∧
          k.units ≠ units.Percentage)) ∧
      (¬ (k.iContext.device_metrics_available = false ∧ k.units ≠ units.Pixels ∧
          k.units ≠ units.Percentage) → ∃ r, k.to_device_units_ext_size e v = Except.ok r)) ∧
    (∀ (e : size) (v : point),
      (k.to_device_units_ext_point e v = Except.error failure.device_metrics_unavailable ↔
        (k.iContext.device_metrics_available = false ∧ k.units ≠ units.Pixels ∧
          k.units ≠ units.Percentage)) ∧
      (¬ (k.iContext.device_metrics_available = false ∧ k.units ≠ units.Pixels ∧
          k.units ≠ units.Percentage) → ∃ r, k.to_device_units_ext_point e v = Except.ok r)) ∧
    (∀ (e : size) (v : rect),
      (k.to_device_units_ext_rect e v = Except.error failure.device_metrics_unavailable ↔
        (k.iContext.device_metrics_available = false ∧ k.units ≠ units.Pixels ∧
          k.units ≠ units.Percentage)) ∧
      (¬ (k.iContext.device_metrics_available = false ∧ k.units ≠ units.Pixels ∧
          k.units ≠ units.Percentage) → ∃ r, k.to_device_units_ext_rect e v = Except.ok r)) ∧
    (∀ (e : size) (v : dimension),
      (k.from_device_units_ext_dimension e v = Except.error failure.device_metrics_unavailable ↔
        (k.iContext.device_metrics_available = false ∧ k.units ≠ units.Pixels ∧
          k.units ≠ units.Percentage)) ∧
      (¬ (k.iContext.device_metrics_available = false ∧ k.units ≠ units.Pixels ∧
          k.units ≠ units.Percentage) → ∃ r, k.from_device_units_ext_dimension e v = Except.ok r)) ∧
    (∀ (e : size) (v : vector2),
      (k.from_device_units_ext_vector2 e v = Except.error failure.device_metrics_unavailable ↔
        (k.iContext.device_metrics_available = false ∧ k.units ≠ units.Pixels ∧
          k.units ≠ units.Percentage)) ∧
      (¬ (k.iContext.device_metrics_available = false ∧ k.units ≠ units.Pixels ∧
          k.units ≠ units.Percentage) → ∃ r, k.from_device_units_ext_vector2 e v = Except.ok r)) ∧
    (∀ (e : size) (v : delta),
      (k.from_device_units_ext_delta e v = Except.error failure.device_metrics_unavailable ↔
        (k.iContext.device_metrics_available = false ∧ k.units ≠ units.Pixels ∧
          k.units ≠ units.Percentage)) ∧
      (¬ (k.iContext.device_metrics_available = false ∧ k.units ≠ units.Pixels ∧
          k.units ≠ units.Percentage) → ∃ r, k.from_device_units_ext_delta e v = Except.ok r)) ∧
    (∀ (e : size) (v : size),
      (k.from_device_units_ext_size e v = Except.error failure.device_metrics_unavailable ↔
        (k.iContext.device_metrics_available = false ∧ k.units ≠ units.Pixels ∧
          k.units ≠ units.Percentage)) ∧
      (¬ (k.iContext.device_metrics_available = false ∧ k.units ≠ units.Pixels ∧
          k.units ≠ units.Percentage) → ∃ r, k.from_device_units_ext_size e v = Except.ok r)) ∧
    (∀ (e : size) (v : point),
      (k.from_device_units_ext_point e v = Except.error failure.device_metrics_unavailable ↔
        (k.iContext.device_metrics_available = false ∧ k.units ≠ units.Pixels ∧
          k.units ≠ units.Percentage)) ∧
      (¬ (k.iContext.device_metrics_available = false ∧ k.units ≠ units.Pixels ∧
          k.units ≠ units.Percentage) → ∃ r, k.from_device_units_ext_point e v = Except.ok r)) ∧
    (∀ (e : size) (v : rect),
      (k.from_device_units_ext_rect e v = Except.error failure.device_metrics_unavailable ↔
        (k.iContext.device_metrics_available = false ∧ k.units ≠ units.Pixels ∧
          k.units ≠ units.Percentage)) ∧
      (¬ (k.iContext.device_metrics_available = false ∧ k.units ≠ units.Pixels ∧
          k.units ≠ units.Percentage) → ∃ r, k.from_device_units_ext_rect e v = Except.ok r)) ∧
    (∀ v : dimension,
      (k.to_device_units_dimension v = Except.error failure.device_metrics_unavailable ↔
        (k.iContext.device_metrics_available = false ∧ k.units ≠ units.Pixels)) ∧
      (¬ (k.iContext.device_metrics_available = false ∧ k.units ≠ units.Pixels) →
        ∃ r, k.to_device_units_dimension v = Except.ok r)) ∧
    (∀ v : vector2,
      (k.to_device_units_vector2 v = Except.error failure.device_metrics_unavailable ↔
        (k.iContext.device_metrics_available = false ∧ k.units ≠ units.Pixels)) ∧
      (¬ (k.iContext.device_metrics_available = false ∧ k.units ≠ units.Pixels) →
        ∃ r, k.to_device_units_vector2 v = Except.ok r)) ∧
    (∀ v : delta,
      (k.to_device_units_delta v = Except.error failure.device_metrics_unavailable ↔
        (k.iContext.device_metrics_available = false ∧ k.units ≠ units.Pixels)) ∧
      (¬ (k.iContext.device_metrics_available = false ∧ k.units ≠ units.Pixels) →
        ∃ r, k.to_device_units_delta v = Except.ok r)) ∧
    (∀ v : size,
      (k.to_device_units_size v = Except.error failure.device_metrics_unavailable ↔
        (k.iContext.device_metrics_available = false ∧ k.units ≠ units.Pixels)) ∧
      (¬ (k.iContext.device_metrics_available = false ∧ k.units ≠ units.Pixels) →
        ∃ r, k.to_device_units_size v = Except.ok r)) ∧
    (∀ v : point,
      (k.to_device_units_point v = Except.error failure.device_metrics_unavailable ↔
        (k.iContext.device_metrics_available = false ∧ k.units ≠ units.Pixels)) ∧
      (¬ (k.iContext.device_metrics_available = false ∧ k.units ≠ units.Pixels) →
        ∃ r, k.to_device_units_point v = Except.ok r)) ∧
    (∀ v : rect,
      (k.to_device_units_rect v = Except.error failure.device_metrics_unavailable ↔
        (k.iContext.device_metrics_available = false ∧ k.units ≠ units.Pixels)) ∧
      (¬ (k.iContext.device_metrics_available = false ∧ k.units ≠ units.Pixels) →
        ∃ r, k.to_device_units_rect v = Except.ok r)) ∧
    (∀ v : margins,
      (k.to_device_units_margins v = Except.error failure.device_metrics_unavailable ↔
        (k.iContext.device_metrics_available = false ∧ k.units ≠ units.Pixels)) ∧
      (¬ (k.iContext.device_metrics_available = false ∧ k.units ≠ units.Pixels) →
        ∃ r, k.to_device_units_margins v = Except.ok r)) ∧
    (∀ v : dimension,
      (k.from_device_units_dimension v = Except.error failure.device_metrics_unavailable ↔
        (k.iContext.device_metrics_available = false ∧ k.units ≠ units.Pixels)) ∧
      (¬ (k.iContext.device_metrics_available = false ∧ k.units ≠ units.Pixels) →
        ∃ r, k.from_device_units_dimension v = Except.ok r)) ∧
    (∀ v : vector2,
      (k.from_device_units_vector2 v = Except.error failure.device_metrics_unavailable ↔
        (k.iContext.device_metrics_available = false ∧ k.units ≠ units.Pixels)) ∧
      (¬ (k.iContext.device_metrics_available = false ∧ k.units ≠ units.Pixels) →
        ∃ r, k.from_device_units_vector2 v = Except.ok r)) ∧
    (∀ v : delta,
      (k.from_device_units_delta v = Except.error failure.device_metrics_unavailable ↔
        (k.iContext.device_metrics_available = false ∧ k.units ≠ units.Pixels)) ∧
      (¬ (k.iContext.device_metrics_available = false ∧ k.units ≠ units.Pixels) →
        ∃ r, k.from_device_units_delta v = Except.ok r)) ∧
    (∀ v : size,
      (k.from_device_units_size v = Except.error failure.device_metrics_unavailable ↔
        (k.iContext.device_metrics_available = false ∧ k.units ≠ units.Pixels)) ∧
      (¬ (k.iContext.device_metrics_available = false ∧ k.units ≠ units.Pixels) →
        ∃ r, k.from_device_units_size v = Except.ok r)) ∧
    (∀ v : point,
      (k.from_device_units_point v = Except.error failure.device_metrics_unavailable ↔
        (k.iContext.device_metrics_available = false ∧ k.units ≠ units.Pixels)) ∧
      (¬ (k.iContext.device_metrics_available = false ∧ k.units ≠ units.Pixels) →
        ∃ r, k.from_device_units_point v = Except.ok r)) ∧
    (∀ v : rect,
      (k.from_device_units_rect v = Except.error failure.device_metrics_unavailable ↔
        (k.iContext.device_metrics_available = false ∧ k.units ≠ units.Pixels)) ∧
      (¬ (k.iContext.device_metrics_available = false ∧ k.units ≠ units.Pixels) →
        ∃ r, k.from_device_units_rect v = Except.ok r)) ∧
    (∀ v : margins,
      (k.from_device_units_margins v = Except.error failure.device_metrics_unavailable ↔
        (k.iContext.device_metrics_available = false ∧ k.units ≠ units.Pixels)) ∧
      (¬ (k.iContext.device_metrics_available = false ∧ k.units ≠ units.Pixels) →
        ∃ r, k.from_device_units_margins v = Except.ok r)) :=
  ⟨fun e v => ⟨units_converter.to_ext_dimension_fails_iff k e v, fun hn =>
      units_converter.returns_of_not_fails _
        (fun hf => hn ((units_converter.to_ext_dimension_fails_iff k e v).1 hf))⟩,
   fun e v => ⟨units_converter.to_ext_vector2_fails_iff k e v, fun hn =>
      units_converter.returns_of_not_fails _
        (fun hf => hn ((units_converter.to_ext_vector2_fails_iff k e v).1 hf))⟩,
   fun e v => ⟨units_converter.to_ext_delta_fails_iff k e v, fun hn =>
      units_converter.returns_of_not_fails _
        (fun hf => hn ((units_converter.to_ext_delta_fails_iff k e v).1 hf))⟩,
   fun e v => ⟨units_converter.to_ext_size_fails_iff k e v, fun hn =>
      units_converter.returns_of_not_fails _
        (fun hf => hn ((units_converter.to_ext_size_fails_iff k e v).1 hf))⟩,
   fun e v => ⟨units_converter.to_ext_point_fails_iff k e v, fun hn =>
      units_converter.returns_of_not_fails _
        (fun hf => hn ((units_converter.to_ext_point_fails_iff k e v).1 hf))⟩,
   fun e v => ⟨units_converter.to_ext_rect_fails_iff k e v, fun hn =>
      units_converter.returns_of_not_fails _
        (fun hf => hn ((units_converter.to_ext_rect_fails_iff k e v).1 hf))⟩,
   fun e v => ⟨units_converter.from_ext_dimension_fails_iff k e v, fun hn =>
      units_converter.returns_of_not_fails _
        (fun hf => hn ((units_converter.from_ext_dimension_fails_iff k e v).1 hf))⟩,
   fun e v => ⟨units_converter.from_ext_vector2_fails_iff k e v, fun hn =>
      units_converter.returns_of_not_fails _
        (fun hf => hn ((units_converter.from_ext_vector2_fails_iff k e v).1 hf))⟩,
   fun e v => ⟨units_converter.from_ext_delta_fails_iff k e v, fun hn =>
      units_converter.returns_of_not_fails _
        (fun hf => hn ((units_converter.from_ext_delta_fails_iff k e v).1 hf))⟩,
   fun e v => ⟨units_converter.from_ext_size_fails_iff k e v, fun hn =>
      units_converter.returns_of_not_fails _
        (fun hf => hn ((units_converter.from_ext_size_fails_iff k e v).1 hf))⟩,
   fun e v => ⟨units_converter.from_ext_point_fails_iff k e v, fun hn =>
      units_converter.returns_of_not_fails _
        (fun hf => hn ((units_converter.from_ext_point_fails_iff k e v).1 hf))⟩,
   fun e v => ⟨units_converter.from_ext_rect_fails_iff k e v, fun hn =>
      units_converter.returns_of_not_fails _
        (fun hf => hn ((units_converter.from_ext_rect_fails_iff k e v).1 hf))⟩,
   fun v => ⟨units_converter.to_dimension_fails_iff k v, fun hn =>
      units_converter.returns_of_not_fails _
        (fun hf => hn ((units_converter.to_dimension_fails_iff k v).1 hf))⟩,
   fun v => ⟨units_converter.to_vector2_fails_iff k v, fun hn =>
      units_converter.returns_of_not_fails _
        (fun hf => hn ((units_converter.to_vector2_fails_iff k v).1 hf))⟩,
   fun v => ⟨units_converter.to_delta_fails_iff k v, fun hn =>
      units_converter.returns_of_not_fails _
        (fun hf => hn ((units_converter.to_delta_fails_iff k v).1 hf))⟩,
   fun v => ⟨units_converter.to_size_fails_iff k v, fun hn =>
      units_converter.returns_of_not_fails _
        (fun hf => hn ((units_converter.to_size_fails_iff k v).1 hf))⟩,
   fun v => ⟨units_converter.to_point_fails_iff k v, fun hn =>
      units_converter.returns_of_not_fails _
        (fun hf => hn ((units_converter.to_point_fails_iff k v).1 hf))⟩,
   fun v => ⟨units_converter.to_rect_fails_iff k v, fun hn =>
      units_converter.returns_of_not_fails _
        (fun hf => hn ((units_converter.to_rect_fails_iff k v).1 hf))⟩,
   fun v => ⟨units_converter.to_margins_fails_iff k v, fun hn =>
      units_converter.returns_of_not_fails _
        (fun hf => hn ((units_converter.to_margins_fails_iff k v).1 hf))⟩,
   fun v => ⟨units_converter.from_dimension_fails_iff k v, fun hn =>
      units_converter.returns_of_not_fails _
        (fun hf => hn ((units_converter.from_dimension_fails_iff k v).1 hf))⟩,
   fun v => ⟨units_converter.from_vector2_fails_iff k v, fun hn =>
      units_converter.returns_of_not_fails _
        (fun hf => hn ((units_converter.from_vector2_fails_iff k v).1 hf))⟩,
   fun v => ⟨units_converter.from_delta_fails_iff k v, fun hn =>
      units_converter.returns_of_not_fails _
        (fun hf => hn ((units_converter.from_delta_fails_iff k v).1 hf))⟩,
   fun v => ⟨units_converter.from_size_fails_iff k v, fun hn =>
      units_converter.returns_of_not_fails _
        (fun hf => hn ((units_converter.from_size_fails_iff k v).1 hf))⟩,
   fun v => ⟨units_converter.from_point_fails_iff k v, fun hn =>
      units_converter.returns_of_not_fails _
        (fun hf => hn ((units_converter.from_point_fails_iff k v).1 hf))⟩,
   fun v => ⟨units_converter.from_rect_fails_iff k v, fun hn =>
      units_converter.returns_of_not_fails _
        (fun hf => hn ((units_converter.from_rect_fails_iff k v).1 hf))⟩,
   fun v => ⟨units_converter.from_margins_fails_iff k v, fun hn =>
      units_converter.returns_of_not_fails _
        (fun hf => hn ((units_converter.from_margins_fails_iff k v).1 hf))⟩⟩

/-! ## Scalars and Percentage (C9, C10) -/

/-- C9: for every unit and every scalar v, the scalar conversion (either direction,
explicit-extent or implicit-extent form) is the horizontal component of the size
conversion of (v, 0), failing exactly when that fails; so a converter that differs only
in the vertical DPI, and a reference extent (for the implicit form: device extents) that
differs only in its vertical component, give the same scalar result; e.g. the scalar 10
in Points at horizontal DPI 96 converts to 40/3 for every vertical DPI. -/
theorem C9_scalar_horizontal_only (k : units_converter) (e : size) (v : dimension) :
    k.to_device_units_ext_dimension e v =
      (k.to_device_units_ext_size e ⟨v, 0⟩).map size.cx ∧
    k.from_device_units_ext_dimension e v =
      (k.from_device_units_ext_size e ⟨v, 0⟩).map size.cx ∧
    k.to_device_units_dimension v = (k.to_device_units_size ⟨v, 0⟩).map size.cx ∧
    k.from_device_units_dimension v = (k.from_device_units_size ⟨v, 0⟩).map size.cx ∧
    (∀ (k2 : units_converter) (e2 : size),
      k2.units = k.units →
      k2.iContext.device_metrics_available = k.iContext.device_metrics_available →
      k2.iContext.device_metrics.horizontal_dpi = k.iContext.device_metrics.horizontal_dpi →
      k2.iContext.device_metrics.em_size = k.iContext.device_metrics.em_size →
      e2.cx = e.cx →
      k2.to_device_units_ext_dimension e2 v = k.to_device_units_ext_dimension e v ∧
      k2.from_device_units_ext_dimension e2 v = k.from_device_units_ext_dimension e v) ∧
    (∀ k2 : units_converter,
      k2.units = k.units →
      k2.iContext.device_metrics_available = k.iContext.device_metrics_available →
      k2.iContext.device_metrics.horizontal_dpi = k.iContext.device_metrics.horizontal_dpi →
      k2.iContext.device_metrics.em_size = k.iContext.device_metrics.em_size →
      k2.iContext.device_metrics.extents.cx = k.iContext.device_metrics.extents.cx →
      k2.to_device_units_dimension v = k.to_device_units_dimension v ∧
      k2.from_device_units_dimension v = k.from_device_units_dimension v) ∧
    (∀ (V : dimension) (ext : size) (saved : units),
      (units_converter.mk (units_context.mk
        (metrics_source.mk true (i_device_metrics.mk 96 V 1 ext)) units.Points) saved
        ).to_device_units_dimension 10 = Except.ok (40 / 3)) := by
  refine ⟨?_, ?_, ?_, ?_, ?_, ?_, ?_⟩
  · rw [units_converter.to_ext_dimension_eq, units_converter.to_ext_size_eq]
    by_cases hm : k.metrics_missing
    · rw [if_pos hm, if_pos hm]; rfl
    · rw [if_neg hm, if_neg hm]; rfl
  · rw [units_converter.from_ext_dimension_eq, units_converter.from_ext_size_eq]
    by_cases hm : k.metrics_missing
    · rw [if_pos hm, if_pos hm]; rfl
    · rw [if_neg hm, if_neg hm]; rfl
  · cases h : k.iContext.device_metrics_available
    · rw [units_converter.to_dimension_unavailable k v h,
        units_converter.to_size_unavailable k _ h]
      by_cases hu : k.units = units.Pixels
      · rw [if_pos hu, if_pos hu]; rfl
      · rw [if_neg hu, if_neg hu]; rfl
    · rw [units_converter.to_dimension_available k v h,
        units_converter.to_size_available k _ h, units_converter.to_ext_size_eq,
        if_neg (units_converter.not_missing_of_available k h)]
      rfl
  · cases h : k.iContext.device_metrics_available
    · rw [units_converter.from_dimension_unavailable k v h,
        units_converter.from_size_unavailable k _ h]
      by_cases hu : k.units = units.Pixels
      · rw [if_pos hu, if_pos hu]; rfl
      · rw [if_neg hu, if_neg hu]; rfl
    · rw [units_converter.from_dimension_available k v h,
        units_converter.from_size_available k _ h, units_converter.from_ext_size_eq,
        if_neg (units_converter.not_missing_of_available k h)]
      rfl
  · intro k2 e2 hu ha hh he hx
    have hmm := units_converter.metrics_missing_congr k k2 hu ha
    rw [units_converter.to_ext_dimension_eq, units_converter.to_ext_dimension_eq,
      units_converter.from_ext_dimension_eq, units_converter.from_ext_dimension_eq,
      units_converter.to_factor_fst_congr k k2 e e2 hu hh he hx,
      units_converter.from_factor_fst_congr k k2 e e2 hu hh he hx]
    by_cases hm : k.metrics_missing
    · simp only [if_pos hm, if_pos (hmm.2 hm), and_self]
    · simp only [if_neg hm, if_neg (fun h2 => hm (hmm.1 h2)), and_self]
  · intro k2 hu ha hh he hx
    cases h : k.iContext.device_metrics_available
    · have h2 : k2.iContext.device_metrics_available = false := by rw [ha, h]
      rw [units_converter.to_dimension_unavailable k v h,
        units_converter.to_dimension_unavailable k2 v h2,
        units_converter.from_dimension_unavailable k v h,
        units_converter.from_dimension_unavailable k2 v h2, hu]
      exact ⟨rfl, rfl⟩
    · have h2 : k2.iContext.device_metrics_available = true := by rw [ha, h]
      rw [units_converter.to_dimension_available k v h,
        units_converter.to_dimension_available k2 v h2,
        units_converter.from_dimension_available k v h,
        units_converter.from_dimension_available k2 v h2,
        units_converter.to_factor_fst_congr k k2 _ _ hu hh he hx,
        units_converter.from_factor_fst_congr k k2 _ _ hu hh he hx]
      exact ⟨rfl, rfl⟩
  · intro V ext saved
    rw [units_converter.to_dimension_available
      (units_converter.mk (units_context.mk
        (metrics_source.mk true (i_device_metrics.mk 96 V 1 ext)) units.Points) saved) 10 rfl]
    simp only [units_converter.to_factor, units_converter.units, units_context.units,
      units_context.device_metrics]
    norm_num

/-- C10: with current unit Percentage, `to_device_units` with reference extent (ex, ey)
maps every point or size (x, y) (also delta and 2D vector) to (ex*x/100, ey*y/100),
whatever the DPIs, the em-size and the availability of metrics, so any two converters in
Percentage agree; e.g. the point (50, 50) with extent (200, 100) converts to (100, 50). -/
theorem C10_percentage_reference (k : units_converter) (e : size) (x y : dimension)
    (hu : k.units = units.Percentage) :
    k.to_device_units_ext_point e ⟨x, y⟩ = Except.ok ⟨e.cx * x / 100, e.cy * y / 100⟩ ∧
    k.to_device_units_ext_size e ⟨x, y⟩ = Except.ok ⟨e.cx * x / 100, e.cy * y / 100⟩ ∧
    k.to_device_units_ext_delta e ⟨x, y⟩ = Except.ok ⟨e.cx * x / 100, e.cy * y / 100⟩ ∧
    k.to_device_units_ext_vector2 e ⟨x, y⟩ = Except.ok ⟨e.cx * x / 100, e.cy * y / 100⟩ ∧
    (∀ k2 : units_converter, k2.units = units.Percentage →
      k2.to_device_units_ext_point e ⟨x, y⟩ = k.to_device_units_ext_point e ⟨x, y⟩ ∧
      k2.to_device_units_ext_size e ⟨x, y⟩ = k.to_device_units_ext_size e ⟨x, y⟩) := by
  have key : ∀ k1 : units_converter, k1.units = units.Percentage →
      k1.to_device_units_ext_point e ⟨x, y⟩ = Except.ok ⟨e.cx * x / 100, e.cy * y / 100⟩ ∧
      k1.to_device_units_ext_size e ⟨x, y⟩ = Except.ok ⟨e.cx * x / 100, e.cy * y / 100⟩ ∧
      k1.to_device_units_ext_delta e ⟨x, y⟩ = Except.ok ⟨e.cx * x / 100, e.cy * y / 100⟩ ∧
      k1.to_device_units_ext_vector2 e ⟨x, y⟩
        = Except.ok ⟨e.cx * x / 100, e.cy * y / 100⟩ := by
    intro k1 h1
    have hm : ¬ k1.metrics_missing := units_converter.not_missing_of_percentage k1 h1
    simp only [units_converter.to_ext_size_eq, units_converter.to_ext_point_eq,
      units_converter.to_ext_delta_eq, units_converter.to_ext_vector2_eq,
      if_neg hm, units_converter.to_factor_percentage k1 e h1,
      units_converter.percentage_to_arith, and_self]
  obtain ⟨a, b, c, d⟩ := key k hu
  refine ⟨a, b, c, d, ?_⟩
  intro k2 h2
  obtain ⟨a2, b2, _, _⟩ := key k2 h2
  rw [a, b, a2, b2]
  exact ⟨rfl, rfl⟩

/-- Witness of C10: the point (50, 50) with extent (200, 100) converts to (100, 50). -/
theorem C10_percentage_reference_witness :
    (sample_converter units.Percentage).units = units.Percentage ∧
    (sample_converter units.Percentage).to_device_units_ext_point ⟨200, 100⟩ ⟨50, 50⟩
      = Except.ok ⟨100, 50⟩ := by
  refine ⟨rfl, ?_⟩
  have h := (C10_percentage_reference (sample_converter units.Percentage) ⟨200, 100⟩ 50 50
    rfl).1
  rw [h]
  norm_num

/-! ## Scopes: what a program leaves behind -/

theorem destroy_eq (k : units_converter) :
    k.destroy = ⟨k.iContext.iSource, k.iSavedUnits⟩ := rfl

theorem set_units_snd_eq (k : units_converter) (u : units) :
    (k.set_units u).2 = ⟨⟨k.iContext.iSource, u⟩, k.iSavedUnits⟩ := rfl

/-- Nothing a program does changes the saved unit or the source of the converter it
runs on. -/
theorem run_in_frame (p : prog) : ∀ k : units_converter,
    (run_in k p).1.iSavedUnits = k.iSavedUnits ∧
    (run_in k p).1.iContext.iSource = k.iContext.iSource := by
  induction p with
  | done => intro k; exact ⟨rfl, rfl⟩
  | set_units u rest ih =>
    intro k
    have h := ih (k.set_units u).2
    simp only [run_in]
    exact ⟨h.1, h.2⟩
  | convert c rest ih =>
    intro k
    simp only [run_in]
    cases k.convert c with
    | ok r => exact ih k
    | error f => exact ⟨rfl, rfl⟩
  | scope body rest ihb ihr =>
    intro k
    have hb := ihb (units_converter.mk_from k.iContext)
    simp only [run_in]
    rcases hrun : run_in (units_converter.mk_from k.iContext) body with ⟨inner, exc⟩
    rw [hrun] at hb
    cases exc with
    | none =>
      have hr := ihr { k with iContext := inner.destroy }
      exact ⟨hr.1, by rw [hr.2, destroy_eq]; exact hb.2⟩
    | some f => exact ⟨rfl, hb.2⟩

/-- A converter scope leaves the context exactly as it found it. -/
theorem run_scope_restores (c : units_context) (body : prog) : (run_scope c body).1 = c := by
  have h := run_in_frame body (units_converter.mk_from c)
  unfold run_scope
  rw [destroy_eq, h.1, h.2]
  rfl

/-- A program that only converts leaves the converter as it found it. -/
theorem run_in_conversions_only (p : prog) : ∀ k : units_converter,
    p.conversions_only → (run_in k p).1 = k := by
  induction p with
  | done => intro k _; rfl
  | set_units u rest _ => intro k h; exact absurd h (by simp only [prog.conversions_only, not_false_eq_true])
  | convert c rest ih =>
    intro k h
    simp only [run_in]
    cases k.convert c with
    | ok r => exact ih k h
    | error f => rfl
  | scope body rest _ _ => intro k h; exact absurd h (by simp only [prog.conversions_only, not_false_eq_true])

/-! ## Margins (C11) -/

/-- C11: with metrics available, `to_device_units` and `from_device_units` of margins
convert each side on its own: left and right are the horizontal component of the size
conversion of (side, 0), top and bottom the vertical component of the size conversion
of (0, side); so left and right are multiplied by the horizontal factor of the size
conversion, top and bottom by the vertical one; e.g. the margins (1, 2, 3, 4) in Inches
at 96 x 72 DPI convert to (96, 144, 288, 288). -/
theorem C11_margins_independence (k : units_converter) (m : margins)
    (h : k.iContext.device_metrics_available = true) :
    (∃ L T R B : size,
      k.to_device_units_size ⟨m.left, 0⟩ = Except.ok L ∧
      k.to_device_units_size ⟨0, m.top⟩ = Except.ok T ∧
      k.to_device_units_size ⟨m.right, 0⟩ = Except.ok R ∧
      k.to_device_units_size ⟨0, m.bottom⟩ = Except.ok B ∧
      k.to_device_units_margins m = Except.ok ⟨L.cx, T.cy, R.cx, B.cy⟩) ∧
    (∃ fx fy : dimension,
      (∀ x y : dimension, k.to_device_units_size ⟨x, y⟩ = Except.ok ⟨x * fx, y * fy⟩) ∧
      (∀ m2 : margins, k.to_device_units_margins m2 =
        Except.ok ⟨m2.left * fx, m2.top * fy, m2.right * fx, m2.bottom * fy⟩)) ∧
    (∃ L T R B : size,
      k.from_device_units_size ⟨m.left, 0⟩ = Except.ok L ∧
      k.from_device_units_size ⟨0, m.top⟩ = Except.ok T ∧
      k.from_device_units_size ⟨m.right, 0⟩ = Except.ok R ∧
      k.from_device_units_size ⟨0, m.bottom⟩ = Except.ok B ∧
      k.from_device_units_margins m = Except.ok ⟨L.cx, T.cy, R.cx, B.cy⟩) ∧
    (∃ fx fy : dimension,
      (∀ x y : dimension, k.from_device_units_size ⟨x, y⟩ = Except.ok ⟨x * fx, y * fy⟩) ∧
      (∀ m2 : margins, k.from_device_units_margins m2 =
        Except.ok ⟨m2.left * fx, m2.top * fy, m2.right * fx, m2.bottom * fy⟩)) ∧
    (sample_converter units.Inches).to_device_units_margins ⟨1, 2, 3, 4⟩
      = Except.ok ⟨96, 144, 288, 288⟩ := by
  have hm : ¬ k.metrics_missing := units_converter.not_missing_of_available k h
  have hs_to : ∀ v : size, k.to_device_units_size v =
      Except.ok ⟨v.cx * (k.to_factor k.iContext.device_metrics.extents).1,
        v.cy * (k.to_factor k.iContext.device_metrics.extents).2⟩ := by
    intro v
    rw [units_converter.to_size_available k v h, units_converter.to_ext_size_eq, if_neg hm]
  have hs_from : ∀ v : size, k.from_device_units_size v =
      Except.ok ⟨v.cx * (k.from_factor k.iContext.device_metrics.extents).1,
        v.cy * (k.from_factor k.iContext.device_metrics.extents).2⟩ := by
    intro v
    rw [units_converter.from_size_available k v h, units_converter.from_ext_size_eq,
      if_neg hm]
  refine ⟨?_, ?_, ?_, ?_, ?_⟩
  · refine ⟨_, _, _, _, hs_to _, hs_to _, hs_to _, hs_to _, ?_⟩
    rw [units_converter.to_margins_available k m h]
  · exact ⟨_, _, fun x y => hs_to ⟨x, y⟩,
      fun m2 => units_converter.to_margins_available k m2 h⟩
  · refine ⟨_, _, _, _, hs_from _, hs_from _, hs_from _, hs_from _, ?_⟩
    rw [units_converter.from_margins_available k m h]
  · exact ⟨_, _, fun x y => hs_from ⟨x, y⟩,
      fun m2 => units_converter.from_margins_available k m2 h⟩
  · rw [units_converter.to_margins_available (sample_converter units.Inches) _ rfl]
    simp only [units_converter.to_factor, sample_converter, units_converter.units,
      units_context.units, units_context.device_metrics]
    norm_num

/-- Witness of C11: Millimetres at 96 x 72 DPI, the margins (127, 127, 254, 254). -/
theorem C11_margins_independence_witness :
    (sample_converter units.Millimetres).iContext.device_metrics_available = true ∧
    ∃ L T R B : size,
      (sample_converter units.Millimetres).to_device_units_size ⟨127, 0⟩ = Except.ok L ∧
      (sample_converter units.Millimetres).to_device_units_size ⟨0, 127⟩ = Except.ok T ∧
      (sample_converter units.Millimetres).to_device_units_size ⟨254, 0⟩ = Except.ok R ∧
      (sample_converter units.Millimetres).to_device_units_size ⟨0, 254⟩ = Except.ok B ∧
      (sample_converter units.Millimetres).to_device_units_margins ⟨127, 127, 254, 254⟩
        = Except.ok ⟨L.cx, T.cy, R.cx, B.cy⟩ :=
  ⟨rfl, (C11_margins_independence (sample_converter units.Millimetres)
    ⟨127, 127, 254, 254⟩ rfl).1⟩

/-! ## The current unit: context, converter, scopes (C12 - C14) -/

/-- C12: on a context whose current unit is u0, construct an outer converter, set the
unit to u1, construct an inner converter on the same context, set the unit to u2: the
unit is then u2 and the inner converter has saved u1; when the inner scope ends the
context's unit is u1 (the outer converter still alive, with u0 saved), and when the
outer scope ends it is u0.  Stated on the program run and, step by step, on the
constructor, `set_units` and destructor; the instance Pixels, Inches, Ems is spelled
out. -/
theorem C12_scoped_restore_nesting (src : metrics_source) (u0 u1 u2 : units) :
    run_in (units_converter.mk_from ⟨src, u1⟩) (prog.set_units u2 prog.done)
      = (⟨⟨src, u2⟩, u1⟩, none) ∧
    run_in (units_converter.mk_from ⟨src, u0⟩)
        (prog.set_units u1 (prog.scope (prog.set_units u2 prog.done) prog.done))
      = (⟨⟨src, u1⟩, u0⟩, none) ∧
    run_scope ⟨src, u0⟩
        (prog.set_units u1 (prog.scope (prog.set_units u2 prog.done) prog.done))
      = (⟨src, u0⟩, none) ∧
    (((units_converter.mk_from
        ((units_converter.mk_from ⟨src, u0⟩).set_units u1).2.iContext).set_units u2).2.units
      = u2) ∧
    (((units_converter.mk_from
        ((units_converter.mk_from ⟨src, u0⟩).set_units u1).2.iContext).set_units u2).2.destroy
      = ⟨src, u1⟩) ∧
    (units_converter.mk ⟨src, u1⟩
        ((units_converter.mk_from ⟨src, u0⟩).set_units u1).2.iSavedUnits).destroy
      = ⟨src, u0⟩ ∧
    (run_scope ⟨src, units.Pixels⟩
        (prog.set_units units.Inches
          (prog.scope (prog.set_units units.Ems prog.done) prog.done))).1.units
      = units.Pixels :=
  ⟨rfl, rfl, rfl, rfl, rfl, rfl, rfl⟩

/-- C13: for every converter scope and every body (any sequence of `set_units` calls,
conversions and nested scopes), after the scope ends the context's current unit is the
unit it had when the converter was constructed, which is the converter's saved unit
throughout; the context is left exactly as found, also when a conversion in the body
throws `device_metrics_unavailable` (shown on a body that does); `set_units` never
changes `saved_units()`. -/
theorem C13_scope_exit_restoration (c : units_context) (body : prog) :
    (run_scope c body).1.units = c.units ∧
    (run_scope c body).1 = c ∧
    (units_converter.mk_from c).saved_units = c.units ∧
    (run_in (units_converter.mk_from c) body).1.saved_units = c.units ∧
    (∀ (k : units_converter) (u : units), (k.set_units u).2.saved_units = k.saved_units) ∧
    (∀ (k : units_converter) (p : prog), (run_in k p).1.saved_units = k.saved_units) ∧
    (∀ (src : metrics_source) (u0 : units), src.device_metrics_available = false →
      run_scope ⟨src, u0⟩
          (prog.set_units units.Millimetres
            (prog.convert (conversion.to_device_units_size ⟨1, 1⟩)
              (prog.set_units units.Picas prog.done)))
        = (⟨src, u0⟩, some failure.device_metrics_unavailable)) := by
  refine ⟨?_, run_scope_restores c body, rfl, ?_, fun _ _ => rfl, ?_, ?_⟩
  · rw [run_scope_restores]
  · exact (run_in_frame body (units_converter.mk_from c)).1
  · intro k p
    exact (run_in_frame p k).1
  · intro src u0 hsrc
    have hf : (units_converter.mk ⟨src, units.Millimetres⟩ u0).convert
        (conversion.to_device_units_size ⟨1, 1⟩)
          = Except.error failure.device_metrics_unavailable := by
      have h1 := (units_converter.to_size_fails_iff
        (units_converter.mk ⟨src, units.Millimetres⟩ u0) ⟨1, 1⟩).2
        ⟨hsrc, fun hp => units.noConfusion hp⟩
      simp only [units_converter.convert, h1]
      rfl
    simp only [run_scope, run_in, units_converter.mk_from, units_context.units,
      set_units_snd_eq, hf, destroy_eq]

/-- C14: a newly constructed `units_context` reports Pixels; `set_units(u)` returns the
unit that was current before the call and afterwards `units()` is u, the source being
untouched; so `set_units(set_units(u))` restores the original context; and the
converter's `units()` and `set_units` give the results of the bound context's. -/
theorem C14_units_context_get_set (src : metrics_source) (c : units_context)
    (k : units_converter) (u : units) :
    (units_context.mk_from src).units = units.Pixels ∧
    (c.set_units u).1 = c.units ∧
    (c.set_units u).2.units = u ∧
    (c.set_units u).2.iSource = c.iSource ∧
    ((c.set_units u).2.set_units (c.set_units u).1).1 = u ∧
    ((c.set_units u).2.set_units (c.set_units u).1).2 = c ∧
    k.units = k.iContext.units ∧
    (k.set_units u).1 = (k.iContext.set_units u).1 ∧
    (k.set_units u).2.iContext = (k.iContext.set_units u).2 ∧
    (k.set_units u).2.units = u :=
  ⟨rfl, rfl, rfl, rfl, rfl, rfl, rfl, rfl, rfl, rfl⟩

/-! ## Rectangles and the implicit extent (C15, C16) -/

/-- C15: for every unit, extent and rectangle r, `to_device_units(extent, r)` is the
rectangle of the point conversion of r's position and the size conversion of r's
extents, and it fails exactly when those conversions fail (all three fail together);
likewise for `from_device_units`, and for the implicit-extent forms. -/
theorem C15_rect_conversion (k : units_converter) (e : size) (r : rect) :
    k.to_device_units_ext_rect e r =
      (k.to_device_units_ext_point e r.position >>= fun p =>
        k.to_device_units_ext_size e r.extents >>= fun s => pure (rect.mk p s)) ∧
    ((∃ p s, k.to_device_units_ext_point e r.position = Except.ok p ∧
        k.to_device_units_ext_size e r.extents = Except.ok s ∧
        k.to_device_units_ext_rect e r = Except.ok ⟨p, s⟩) ∨
      (k.to_device_units_ext_point e r.position
          = Except.error failure.device_metrics_unavailable ∧
        k.to_device_units_ext_size e r.extents
          = Except.error failure.device_metrics_unavailable ∧
        k.to_device_units_ext_rect e r
          = Except.error failure.device_metrics_unavailable)) ∧
    (k.to_device_units_ext_rect e r = Except.error failure.device_metrics_unavailable ↔
      k.to_device_units_ext_point e r.position
        = Except.error failure.device_metrics_unavailable) ∧
    (k.to_device_units_ext_rect e r = Except.error failure.device_metrics_unavailable ↔
      k.to_device_units_ext_size e r.extents
        = Except.error failure.device_metrics_unavailable) ∧
    k.to_device_units_rect r =
      (k.to_device_units_point r.position >>= fun p =>
        k.to_device_units_size r.extents >>= fun s => pure (rect.mk p s)) ∧
    k.from_device_units_ext_rect e r =
      (k.from_device_units_ext_point e r.position >>= fun p =>
        k.from_device_units_ext_size e r.extents >>= fun s => pure (rect.mk p s)) ∧
    ((∃ p s, k.from_device_units_ext_point e r.position = Except.ok p ∧
        k.from_device_units_ext_size e r.extents = Except.ok s ∧
        k.from_device_units_ext_rect e r = Except.ok ⟨p, s⟩) ∨
      (k.from_device_units_ext_point e r.position
          = Except.error failure.device_metrics_unavailable ∧
        k.from_device_units_ext_size e r.extents
          = Except.error failure.device_metrics_unavailable ∧
        k.from_device_units_ext_rect e r
          = Except.error failure.device_metrics_unavailable)) ∧
    (k.from_device_units_ext_rect e r = Except.error failure.device_metrics_unavailable ↔
      k.from_device_units_ext_point e r.position
        = Except.error failure.device_metrics_unavailable) ∧
    (k.from_device_units_ext_rect e r = Except.error failure.device_metrics_unavailable ↔
      k.from_device_units_ext_size e r.extents
        = Except.error failure.device_metrics_unavailable) ∧
    k.from_device_units_rect r =
      (k.from_device_units_point r.position >>= fun p =>
        k.from_device_units_size r.extents >>= fun s => pure (rect.mk p s)) := by
  refine ⟨?_, ?_, ?_, ?_, ?_, ?_, ?_, ?_, ?_, ?_⟩
  · rw [units_converter.to_ext_rect_eq, units_converter.to_ext_point_eq,
      units_converter.to_ext_size_eq]
    by_cases hm : k.metrics_missing
    · simp only [if_pos hm, bind_error]
    · simp only [if_neg hm, bind_ok, pure_def]
  · by_cases hm : k.metrics_missing
    · exact Or.inr ⟨(units_converter.to_ext_point_fails_iff k e _).2 hm,
        (units_converter.to_ext_size_fails_iff k e _).2 hm,
        (units_converter.to_ext_rect_fails_iff k e _).2 hm⟩
    · refine Or.inl ⟨⟨r.position.x * (k.to_factor e).1, r.position.y * (k.to_factor e).2⟩,
        ⟨r.extents.cx * (k.to_factor e).1, r.extents.cy * (k.to_factor e).2⟩, ?_, ?_, ?_⟩
      · rw [units_converter.to_ext_point_eq, if_neg hm]
      · rw [units_converter.to_ext_size_eq, if_neg hm]
      · rw [units_converter.to_ext_rect_eq, if_neg hm]
  · rw [units_converter.to_ext_rect_fails_iff, units_converter.to_ext_point_fails_iff]
  · rw [units_converter.to_ext_rect_fails_iff, units_converter.to_ext_size_fails_iff]
  · cases h : k.iContext.device_metrics_available
    · rw [units_converter.to_rect_unavailable k r h,
        units_converter.to_point_unavailable k _ h,
        units_converter.to_size_unavailable k _ h]
      by_cases hu : k.units = units.Pixels
      · simp only [if_pos hu, bind_ok, pure_def]
      · simp only [if_neg hu, bind_error]
    · have hm : ¬ k.metrics_missing := units_converter.not_missing_of_available k h
      rw [units_converter.to_rect_available k r h,
        units_converter.to_point_available k _ h,
        units_converter.to_size_available k _ h,
        units_converter.to_ext_rect_eq, units_converter.to_ext_point_eq,
        units_converter.to_ext_size_eq]
      simp only [if_neg hm, bind_ok, pure_def]
  · rw [units_converter.from_ext_rect_eq, units_converter.from_ext_point_eq,
      units_converter.from_ext_size_eq]
    by_cases hm : k.metrics_missing
    · simp only [if_pos hm, bind_error]
    · simp only [if_neg hm, bind_ok, pure_def]
  · by_cases hm : k.metrics_missing
    · exact Or.inr ⟨(units_converter.from_ext_point_fails_iff k e _).2 hm,
        (units_converter.from_ext_size_fails_iff k e _).2 hm,
        (units_converter.from_ext_rect_fails_iff k e _).2 hm⟩
    · refine Or.inl ⟨⟨r.position.x * (k.from_factor e).1, r.position.y * (k.from_factor e).2⟩,
        ⟨r.extents.cx * (k.from_factor e).1, r.extents.cy * (k.from_factor e).2⟩, ?_, ?_, ?_⟩
      · rw [units_converter.from_ext_point_eq, if_neg hm]
      · rw [units_converter.from_ext_size_eq, if_neg hm]
      · rw [units_converter.from_ext_rect_eq, if_neg hm]
  · rw [units_converter.from_ext_rect_fails_iff, units_converter.from_ext_point_fails_iff]
  · rw [units_converter.from_ext_rect_fails_iff, units_converter.from_ext_size_fails_iff]
  · cases h : k.iContext.device_metrics_available
    · rw [units_converter.from_rect_unavailable k r h,
        units_converter.from_point_unavailable k _ h,
        units_converter.from_size_unavailable k _ h]
      by_cases hu : k.units = units.Pixels
      · simp only [if_pos hu, bind_ok, pure_def]
      · simp only [if_neg hu, bind_error]
    · have hm : ¬ k.metrics_missing := units_converter.not_missing_of_available k h
      rw [units_converter.from_rect_available k r h,
        units_converter.from_point_available k _ h,
        units_converter.from_size_available k _ h,
        units_converter.from_ext_rect_eq, units_converter.from_ext_point_eq,
        units_converter.from_ext_size_eq]
      simp only [if_neg hm, bind_ok, pure_def]

/-- C16: when device metrics are available, every implicit-extent conversion (either
direction; scalar, 2D vector, delta, size, point, rectangle) returns exactly the result
of the explicit-extent conversion of the same value with the device extents as reference
extent; in particular an implicit Percentage conversion is relative to the device
extents. -/
theorem C16_implicit_uses_device_extents (k : units_converter)
    (h : k.iContext.device_metrics_available = true) :
    (∀ v : dimension, k.to_device_units_dimension v =
      k.to_device_units_ext_dimension k.iContext.device_metrics.extents v) ∧
    (∀ v : vector2, k.to_device_units_vector2 v =
      k.to_device_units_ext_vector2 k.iContext.device_metrics.extents v) ∧
    (∀ v : delta, k.to_device_units_delta v =
      k.to_device_units_ext_delta k.iContext.device_metrics.extents v) ∧
    (∀ v : size, k.to_device_units_size v =
      k.to_device_units_ext_size k.iContext.device_metrics.extents v) ∧
    (∀ v : point, k.to_device_units_point v =
      k.to_device_units_ext_point k.iContext.device_metrics.extents v) ∧
    (∀ v : rect, k.to_device_units_rect v =
      k.to_device_units_ext_rect k.iContext.device_metrics.extents v) ∧
    (∀ v : dimension, k.from_device_units_dimension v =
      k.from_device_units_ext_dimension k.iContext.device_metrics.extents v) ∧
    (∀ v : vector2, k.from_device_units_vector2 v =
      k.from_device_units_ext_vector2 k.iContext.device_metrics.extents v) ∧
    (∀ v : delta, k.from_device_units_delta v =
      k.from_device_units_ext_delta k.iContext.device_metrics.extents v) ∧
    (∀ v : size, k.from_device_units_size v =
      k.from_device_units_ext_size k.iContext.device_metrics.extents v) ∧
    (∀ v : point, k.from_device_units_point v =
      k.from_device_units_ext_point k.iContext.device_metrics.extents v) ∧
    (∀ v : rect, k.from_device_units_rect v =
      k.from_device_units_ext_rect k.iContext.device_metrics.extents v) ∧
    (k.units = units.Percentage → ∀ x y : dimension,
      k.to_device_units_size ⟨x, y⟩ =
        Except.ok ⟨k.iContext.device_metrics.extents.cx * x / 100,
          k.iContext.device_metrics.extents.cy * y / 100⟩ ∧
      k.to_device_units_point ⟨x, y⟩ =
        Except.ok ⟨k.iContext.device_metrics.extents.cx * x / 100,
          k.iContext.device_metrics.extents.cy * y / 100⟩) := by
  have hm : ¬ k.metrics_missing := units_converter.not_missing_of_available k h
  refine ⟨?_, ?_, ?_, ?_, ?_, ?_, ?_, ?_, ?_, ?_, ?_, ?_, ?_⟩
  · intro v
    rw [units_converter.to_dimension_available k v h, units_converter.to_ext_dimension_eq,
      if_neg hm]
  · intro v
    exact units_converter.to_vector2_available k v h
  · intro v
    exact units_converter.to_delta_available k v h
  · intro v
    exact units_converter.to_size_available k v h
  · intro v
    exact units_converter.to_point_available k v h
  · intro v
    exact units_converter.to_rect_available k v h
  · intro v
    rw [units_converter.from_dimension_available k v h, units_converter.from_ext_dimension_eq,
      if_neg hm]
  · intro v
    exact units_converter.from_vector2_available k v h
  · intro v
    exact units_converter.from_delta_available k v h
  · intro v
    exact units_converter.from_size_available k v h
  · intro v
    exact units_converter.from_point_available k v h
  · intro v
    exact units_converter.from_rect_available k v h
  · intro hu x y
    rw [units_converter.to_size_available k _ h, units_converter.to_point_available k _ h]
    simp only [units_converter.to_ext_size_eq, units_converter.to_ext_point_eq, if_neg hm,
      units_converter.to_factor_percentage k _ hu, units_converter.percentage_to_arith,
      and_self]

/-- Witness of C16: Percentage on a device of 800 x 600 pixels, the size (50, 50). -/
theorem C16_implicit_uses_device_extents_witness :
    (sample_converter units.Percentage).iContext.device_metrics_available = true ∧
    (sample_converter units.Percentage).to_device_units_size ⟨50, 50⟩ =
      (sample_converter units.Percentage).to_device_units_ext_size ⟨800, 600⟩ ⟨50, 50⟩ ∧
    (sample_converter units.Percentage).to_device_units_size ⟨50, 50⟩
      = Except.ok ⟨800 * 50 / 100, 600 * 50 / 100⟩ :=
  ⟨rfl,
    (C16_implicit_uses_device_extents (sample_converter units.Percentage) rfl).2.2.2.1
      ⟨50, 50⟩,
    ((C16_implicit_uses_device_extents (sample_converter units.Percentage)
      rfl).2.2.2.2.2.2.2.2.2.2.2.2 rfl 50 50).1⟩

/-! ## Unrecognized units (C17) -/

namespace units_converter

theorem to_factor_unrecognized (k : units_converter) (e : size) (raw : Nat)
    (h : k.units = neogfx.units.Unrecognized raw) : k.to_factor e = (1, 1) := by
  unfold to_factor; rw [h]

theorem from_factor_unrecognized (k : units_converter) (e : size) (raw : Nat)
    (h : k.units = neogfx.units.Unrecognized raw) : k.from_factor e = (1, 1) := by
  unfold from_factor; rw [h]

end units_converter

/-- C17, as stated, fails: with a unit value outside the eight recognized ones and
device metrics unavailable, the explicit-extent and the implicit-extent size conversion
both signal `device_metrics_unavailable`, where Pixels returns the input. -/
theorem C17_unrecognized_unit_counterexample :
    (detached_converter (units.Unrecognized 8)).iContext.device_metrics_available = false ∧
    (detached_converter (units.Unrecognized 8)).to_device_units_ext_size ⟨800, 600⟩ ⟨5, 5⟩
      = Except.error failure.device_metrics_unavailable ∧
    (detached_converter (units.Unrecognized 8)).to_device_units_size ⟨5, 5⟩
      = Except.error failure.device_metrics_unavailable ∧
    (detached_converter units.Pixels).to_device_units_ext_size ⟨800, 600⟩ ⟨5, 5⟩
      = Except.ok ⟨5, 5⟩ :=
  ⟨rfl,
    (units_converter.to_ext_size_fails_iff _ _ _).2
      ⟨rfl, fun hp => units.noConfusion hp, fun hp => units.noConfusion hp⟩,
    (units_converter.to_size_fails_iff _ _).2 ⟨rfl, fun hp => units.noConfusion hp⟩,
    units_converter.to_ext_size_pixels _ _ _ rfl⟩

/-- C17 (amended): for every unit value outside the eight recognized units, when device
metrics are available every conversion (both directions, both forms, every shape) returns
its input unchanged and signals no failure, as for Pixels; when device metrics are
unavailable every conversion signals `device_metrics_unavailable`, unlike Pixels. -/
theorem C17_unrecognized_unit (k : units_converter) (raw : Nat)
    (hu : k.units = units.Unrecognized raw) :
    (k.iContext.device_metrics_available = true →
      (∀ (e : size) (v : dimension), k.to_device_units_ext_dimension e v = Except.ok v) ∧
      (∀ (e : size) (v : vector2), k.to_device_units_ext_vector2 e v = Except.ok v) ∧
      (∀ (e : size) (v : delta), k.to_device_units_ext_delta e v = Except.ok v) ∧
      (∀ (e : size) (v : size), k.to_device_units_ext_size e v = Except.ok v) ∧
      (∀ (e : size) (v : point), k.to_device_units_ext_point e v = Except.ok v) ∧
      (∀ (e : size) (v : rect), k.to_device_units_ext_rect e v = Except.ok v) ∧
      (∀ (e : size) (v : dimension), k.from_device_units_ext_dimension e v = Except.ok v) ∧
      (∀ (e : size) (v : vector2), k.from_device_units_ext_vector2 e v = Except.ok v) ∧
      (∀ (e : size) (v : delta), k.from_device_units_ext_delta e v = Except.ok v) ∧
      (∀ (e : size) (v : size), k.from_device_units_ext_size e v = Except.ok v) ∧
      (∀ (e : size) (v : point), k.from_device_units_ext_point e v = Except.ok v) ∧
      (∀ (e : size) (v : rect), k.from_device_units_ext_rect e v = Except.ok v) ∧
      (∀ v : dimension, k.to_device_units_dimension v = Except.ok v) ∧
      (∀ v : vector2, k.to_device_units_vector2 v = Except.ok v) ∧
      (∀ v : delta, k.to_device_units_delta v = Except.ok v) ∧
      (∀ v : size, k.to_device_units_size v = Except.ok v) ∧
      (∀ v : point, k.to_device_units_point v = Except.ok v) ∧
      (∀ v : rect, k.to_device_units_rect v = Except.ok v) ∧
      (∀ v : margins, k.to_device_units_margins v = Except.ok v) ∧
      (∀ v : dimension, k.from_device_units_dimension v = Except.ok v) ∧
      (∀ v : vector2, k.from_device_units_vector2 v = Except.ok v) ∧
      (∀ v : delta, k.from_device_units_delta v = Except.ok v) ∧
      (∀ v : size, k.from_device_units_size v = Except.ok v) ∧
      (∀ v : point, k.from_device_units_point v = Except.ok v) ∧
      (∀ v : rect, k.from_device_units_rect v = Except.ok v) ∧
      (∀ v : margins, k.from_device_units_margins v = Except.ok v)) ∧
    (k.iContext.device_metrics_available = false →
      (∀ (e : size) (v : dimension), k.to_device_units_ext_dimension e v =
        Except.error failure.device_metrics_unavailable) ∧
      (∀ (e : size) (v : vector2), k.to_device_units_ext_vector2 e v =
        Except.error failure.device_metrics_unavailable) ∧
      (∀ (e : size) (v : delta), k.to_device_units_ext_delta e v =
        Except.error failure.device_metrics_unavailable) ∧
      (∀ (e : size) (v : size), k.to_device_units_ext_size e v =
        Except.error failure.device_metrics_unavailable) ∧
      (∀ (e : size) (v : point), k.to_device_units_ext_point e v =
        Except.error failure.device_metrics_unavailable) ∧
      (∀ (e : size) (v : rect), k.to_device_units_ext_rect e v =
        Except.error failure.device_metrics_unavailable) ∧
      (∀ (e : size) (v : dimension), k.from_device_units_ext_dimension e v =
        Except.error failure.device_metrics_unavailable) ∧
      (∀ (e : size) (v : vector2), k.from_device_units_ext_vector2 e v =
        Except.error failure.device_metrics_unavailable) ∧
      (∀ (e : size) (v : delta), k.from_device_units_ext_delta e v =
        Except.error failure.device_metrics_unavailable) ∧
      (∀ (e : size) (v : size), k.from_device_units_ext_size e v =
        Except.error failure.device_metrics_unavailable) ∧
      (∀ (e : size) (v : point), k.from_device_units_ext_point e v =
        Except.error failure.device_metrics_unavailable) ∧
      (∀ (e : size) (v : rect), k.from_device_units_ext_rect e v =
        Except.error failure.device_metrics_unavailable) ∧
      (∀ v : dimension, k.to_device_units_dimension v =
        Except.error failure.device_metrics_unavailable) ∧
      (∀ v : vector2, k.to_device_units_vector2 v =
        Except.error failure.device_metrics_unavailable) ∧
      (∀ v : delta, k.to_device_units_delta v =
        Except.error failure.device_metrics_unavailable) ∧
      (∀ v : size, k.to_device_units_size v =
        Except.error failure.device_metrics_unavailable) ∧
      (∀ v : point, k.to_device_units_point v =
        Except.error failure.device_metrics_unavailable) ∧
      (∀ v : rect, k.to_device_units_rect v =
        Except.error failure.device_metrics_unavailable) ∧
      (∀ v : margins, k.to_device_units_margins v =
        Except.error failure.device_metrics_unavailable) ∧
      (∀ v : dimension, k.from_device_units_dimension v =
        Except.error failure.device_metrics_unavailable) ∧
      (∀ v : vector2, k.from_device_units_vector2 v =
        Except.error failure.device_metrics_unavailable) ∧
      (∀ v : delta, k.from_device_units_delta v =
        Except.error failure.device_metrics_unavailable) ∧
      (∀ v : size, k.from_device_units_size v =
        Except.error failure.device_metrics_unavailable) ∧
      (∀ v : point, k.from_device_units_point v =
        Except.error failure.device_metrics_unavailable) ∧
      (∀ v : rect, k.from_device_units_rect v =
        Except.error failure.device_metrics_unavailable) ∧
      (∀ v : margins, k.from_device_units_margins v =
        Except.error failure.device_metrics_unavailable)) := by
  refine ⟨?_, ?_⟩
  · intro h
    have hm : ¬ k.metrics_missing := units_converter.not_missing_of_available k h
    refine ⟨?_, ?_, ?_, ?_, ?_, ?_, ?_, ?_, ?_, ?_, ?_, ?_, ?_, ?_, ?_, ?_, ?_, ?_, ?_, ?_, ?_, ?_, ?_, ?_, ?_, ?_⟩
    · intro e v
      rw [units_converter.to_ext_dimension_eq, if_neg hm, units_converter.to_factor_unrecognized k e raw hu]
      simp only [mul_one]
    · intro e v
      rw [units_converter.to_ext_vector2_eq, if_neg hm, units_converter.to_factor_unrecognized k e raw hu]
      simp only [mul_one]
    · intro e v
      rw [units_converter.to_ext_delta_eq, if_neg hm, units_converter.to_factor_unrecognized k e raw hu]
      simp only [mul_one]
    · intro e v
      rw [units_converter.to_ext_size_eq, if_neg hm, units_converter.to_factor_unrecognized k e raw hu]
      simp only [mul_one]
    · intro e v
      rw [units_converter.to_ext_point_eq, if_neg hm, units_converter.to_factor_unrecognized k e raw hu]
      simp only [mul_one]
    · intro e v
      rw [units_converter.to_ext_rect_eq, if_neg hm, units_converter.to_factor_unrecognized k e raw hu]
      simp only [mul_one]
    · intro e v
      rw [units_converter.from_ext_dimension_eq, if_neg hm, units_converter.from_factor_unrecognized k e raw hu]
      simp only [mul_one]
    · intro e v
      rw [units_converter.from_ext_vector2_eq, if_neg hm, units_converter.from_factor_unrecognized k e raw hu]
      simp only [mul_one]
    · intro e v
      rw [units_converter.from_ext_delta_eq, if_neg hm, units_converter.from_factor_unrecognized k e raw hu]
      simp only [mul_one]
    · intro e v
      rw [units_converter.from_ext_size_eq, if_neg hm, units_converter.from_factor_unrecognized k e raw hu]
      simp only [mul_one]
    · intro e v
      rw [units_converter.from_ext_point_eq, if_neg hm, units_converter.from_factor_unrecognized k e raw hu]
      simp only [mul_one]
    · intro e v
      rw [units_converter.from_ext_rect_eq, if_neg hm, units_converter.from_factor_unrecognized k e raw hu]
      simp only [mul_one]
    · intro v
      rw [units_converter.to_dimension_available k v h,
        units_converter.to_factor_unrecognized k _ raw hu]
      simp only [mul_one]
    · intro v
      rw [units_converter.to_vector2_available k v h, units_converter.to_ext_vector2_eq, if_neg hm,
        units_converter.to_factor_unrecognized k _ raw hu]
      simp only [mul_one]
    · intro v
      rw [units_converter.to_delta_available k v h, units_converter.to_ext_delta_eq, if_neg hm,
        units_converter.to_factor_unrecognized k _ raw hu]
      simp only [mul_one]
    · intro v
      rw [units_converter.to_size_available k v h, units_converter.to_ext_size_eq, if_neg hm,
        units_converter.to_factor_unrecognized k _ raw hu]
      simp only [mul_one]
    · intro v
      rw [units_converter.to_point_available k v h, units_converter.to_ext_point_eq, if_neg hm,
        units_converter.to_factor_unrecognized k _ raw hu]
      simp only [mul_one]
    · intro v
      rw [units_converter.to_rect_available k v h, units_converter.to_ext_rect_eq, if_neg hm,
        units_converter.to_factor_unrecognized k _ raw hu]
      simp only [mul_one]
    · intro v
      rw [units_converter.to_margins_available k v h,
        units_converter.to_factor_unrecognized k _ raw hu]
      simp only [mul_one]
    · intro v
      rw [units_converter.from_dimension_available k v h,
        units_converter.from_factor_unrecognized k _ raw hu]
      simp only [mul_one]
    · intro v
      rw [units_converter.from_vector2_available k v h, units_converter.from_ext_vector2_eq, if_neg hm,
        units_converter.from_factor_unrecognized k _ raw hu]
      simp only [mul_one]
    · intro v
      rw [units_converter.from_delta_available k v h, units_converter.from_ext_delta_eq, if_neg hm,
        units_converter.from_factor_unrecognized k _ raw hu]
      simp only [mul_one]
    · intro v
      rw [units_converter.from_size_available k v h, units_converter.from_ext_size_eq, if_neg hm,
        units_converter.from_factor_unrecognized k _ raw hu]
      simp only [mul_one]
    · intro v
      rw [units_converter.from_point_available k v h, units_converter.from_ext_point_eq, if_neg hm,
        units_converter.from_factor_unrecognized k _ raw hu]
      simp only [mul_one]
    · intro v
      rw [units_converter.from_rect_available k v h, units_converter.from_ext_rect_eq, if_neg hm,
        units_converter.from_factor_unrecognized k _ raw hu]
      simp only [mul_one]
    · intro v
      rw [units_converter.from_margins_available k v h,
        units_converter.from_factor_unrecognized k _ raw hu]
      simp only [mul_one]
  · intro h
    have hne : k.units ≠ units.Pixels ∧ k.units ≠ units.Percentage := by
      rw [hu]; exact ⟨fun hp => units.noConfusion hp, fun hp => units.noConfusion hp⟩
    have hm : k.metrics_missing := ⟨h, hne.1, hne.2⟩
    have hi : k.implicit_fails := ⟨h, hne.1⟩
    exact ⟨fun e v => (units_converter.to_ext_dimension_fails_iff k e v).2 hm,
      fun e v => (units_converter.to_ext_vector2_fails_iff k e v).2 hm,
      fun e v => (units_converter.to_ext_delta_fails_iff k e v).2 hm,
      fun e v => (units_converter.to_ext_size_fails_iff k e v).2 hm,
      fun e v => (units_converter.to_ext_point_fails_iff k e v).2 hm,
      fun e v => (units_converter.to_ext_rect_fails_iff k e v).2 hm,
      fun e v => (units_converter.from_ext_dimension_fails_iff k e v).2 hm,
      fun e v => (units_converter.from_ext_vector2_fails_iff k e v).2 hm,
      fun e v => (units_converter.from_ext_delta_fails_iff k e v).2 hm,
      fun e v => (units_converter.from_ext_size_fails_iff k e v).2 hm,
      fun e v => (units_converter.from_ext_point_fails_iff k e v).2 hm,
      fun e v => (units_converter.from_ext_rect_fails_iff k e v).2 hm,
      fun v => (units_converter.to_dimension_fails_iff k v).2 hi,
      fun v => (units_converter.to_vector2_fails_iff k v).2 hi,
      fun v => (units_converter.to_delta_fails_iff k v).2 hi,
      fun v => (units_converter.to_size_fails_iff k v).2 hi,
      fun v => (units_converter.to_point_fails_iff k v).2 hi,
      fun v => (units_converter.to_rect_fails_iff k v).2 hi,
      fun v => (units_converter.to_margins_fails_iff k v).2 hi,
      fun v => (units_converter.from_dimension_fails_iff k v).2 hi,
      fun v => (units_converter.from_vector2_fails_iff k v).2 hi,
      fun v => (units_converter.from_delta_fails_iff k v).2 hi,
      fun v => (units_converter.from_size_fails_iff k v).2 hi,
      fun v => (units_converter.from_point_fails_iff k v).2 hi,
      fun v => (units_converter.from_rect_fails_iff k v).2 hi,
      fun v => (units_converter.from_margins_fails_iff k v).2 hi⟩

/-- Witness of C17 (amended): the unit value 8 with metrics available, and with metrics
unavailable. -/
theorem C17_unrecognized_unit_witness :
    (sample_converter (units.Unrecognized 8)).units = units.Unrecognized 8 ∧
    (sample_converter (units.Unrecognized 8)).to_device_units_ext_size ⟨800, 600⟩ ⟨5, 5⟩
      = Except.ok ⟨5, 5⟩ ∧
    (detached_converter (units.Unrecognized 8)).to_device_units_ext_size ⟨800, 600⟩ ⟨5, 5⟩
      = Except.error failure.device_metrics_unavailable :=
  ⟨rfl,
    ((C17_unrecognized_unit (sample_converter (units.Unrecognized 8)) 8 rfl).1 rfl).2.2.2.1
      ⟨800, 600⟩ ⟨5, 5⟩,
    ((C17_unrecognized_unit (detached_converter (units.Unrecognized 8)) 8 rfl).2 rfl).2.2.2.1
      ⟨800, 600⟩ ⟨5, 5⟩⟩

/-! ## Physical units and the reverse round trip (C18, C19) -/

/-- C18: for every horizontal and vertical DPI (H, V), with metrics available, one inch,
72 points, 6 picas, 25.4 millimetres and 2.54 centimetres all convert to the same device
size: `to_device_units` of (1, 1) in Inches, (72, 72) in Points, (6, 6) in Picas,
(25.4, 25.4) in Millimetres and (2.54, 2.54) in Centimetres is (H, V), in the
explicit-extent form for every extent, and in the implicit-extent form. -/
theorem C18_physical_unit_consistency (m : i_device_metrics) (e : size) :
    (metrics_converter m units.Inches).to_device_units_ext_size e ⟨1, 1⟩
      = Except.ok ⟨m.horizontal_dpi, m.vertical_dpi⟩ ∧
    (metrics_converter m units.Points).to_device_units_ext_size e ⟨72, 72⟩
      = Except.ok ⟨m.horizontal_dpi, m.vertical_dpi⟩ ∧
    (metrics_converter m units.Picas).to_device_units_ext_size e ⟨6, 6⟩
      = Except.ok ⟨m.horizontal_dpi, m.vertical_dpi⟩ ∧
    (metrics_converter m units.Millimetres).to_device_units_ext_size e ⟨25.4, 25.4⟩
      = Except.ok ⟨m.horizontal_dpi, m.vertical_dpi⟩ ∧
    (metrics_converter m units.Centimetres).to_device_units_ext_size e ⟨2.54, 2.54⟩
      = Except.ok ⟨m.horizontal_dpi, m.vertical_dpi⟩ ∧
    (metrics_converter m units.Inches).to_device_units_size ⟨1, 1⟩
      = Except.ok ⟨m.horizontal_dpi, m.vertical_dpi⟩ ∧
    (metrics_converter m units.Points).to_device_units_size ⟨72, 72⟩
      = Except.ok ⟨m.horizontal_dpi, m.vertical_dpi⟩ ∧
    (metrics_converter m units.Picas).to_device_units_size ⟨6, 6⟩
      = Except.ok ⟨m.horizontal_dpi, m.vertical_dpi⟩ ∧
    (metrics_converter m units.Millimetres).to_device_units_size ⟨25.4, 25.4⟩
      = Except.ok ⟨m.horizontal_dpi, m.vertical_dpi⟩ ∧
    (metrics_converter m units.Centimetres).to_device_units_size ⟨2.54, 2.54⟩
      = Except.ok ⟨m.horizontal_dpi, m.vertical_dpi⟩ := by
  refine ⟨?_, ?_, ?_, ?_, ?_, ?_, ?_, ?_, ?_, ?_⟩
  · rw [units_converter.to_ext_size_eq,
      if_neg (units_converter.not_missing_of_available (metrics_converter m units.Inches) rfl)]
    simp only [units_converter.to_factor, metrics_converter, units_converter.units,
      units_context.units, units_context.device_metrics, Except.ok.injEq, size.mk.injEq]
    constructor <;> ring
  · rw [units_converter.to_ext_size_eq,
      if_neg (units_converter.not_missing_of_available (metrics_converter m units.Points) rfl)]
    simp only [units_converter.to_factor, metrics_converter, units_converter.units,
      units_context.units, units_context.device_metrics, Except.ok.injEq, size.mk.injEq]
    constructor <;> ring
  · rw [units_converter.to_ext_size_eq,
      if_neg (units_converter.not_missing_of_available (metrics_converter m units.Picas) rfl)]
    simp only [units_converter.to_factor, metrics_converter, units_converter.units,
      units_context.units, units_context.device_metrics, Except.ok.injEq, size.mk.injEq]
    constructor <;> ring
  · rw [units_converter.to_ext_size_eq,
      if_neg (units_converter.not_missing_of_available (metrics_converter m units.Millimetres) rfl)]
    simp only [units_converter.to_factor, metrics_converter, units_converter.units,
      units_context.units, units_context.device_metrics, Except.ok.injEq, size.mk.injEq]
    constructor <;> ring
  · rw [units_converter.to_ext_size_eq,
      if_neg (units_converter.not_missing_of_available (metrics_converter m units.Centimetres) rfl)]
    simp only [units_converter.to_factor, metrics_converter, units_converter.units,
      units_context.units, units_context.device_metrics, Except.ok.injEq, size.mk.injEq]
    constructor <;> ring
  · rw [units_converter.to_size_available (metrics_converter m units.Inches) _ rfl,
      units_converter.to_ext_size_eq,
      if_neg (units_converter.not_missing_of_available (metrics_converter m units.Inches) rfl)]
    simp only [units_converter.to_factor, metrics_converter, units_converter.units,
      units_context.units, units_context.device_metrics, Except.ok.injEq, size.mk.injEq]
    constructor <;> ring
  · rw [units_converter.to_size_available (metrics_converter m units.Points) _ rfl,
      units_converter.to_ext_size_eq,
      if_neg (units_converter.not_missing_of_available (metrics_converter m units.Points) rfl)]
    simp only [units_converter.to_factor, metrics_converter, units_converter.units,
      units_context.units, units_context.device_metrics, Except.ok.injEq, size.mk.injEq]
    constructor <;> ring
  · rw [units_converter.to_size_available (metrics_converter m units.Picas) _ rfl,
      units_converter.to_ext_size_eq,
      if_neg (units_converter.not_missing_of_available (metrics_converter m units.Picas) rfl)]
    simp only [units_converter.to_factor, metrics_converter, units_converter.units,
      units_context.units, units_context.device_metrics, Except.ok.injEq, size.mk.injEq]
    constructor <;> ring
  · rw [units_converter.to_size_available (metrics_converter m units.Millimetres) _ rfl,
      units_converter.to_ext_size_eq,
      if_neg (units_converter.not_missing_of_available (metrics_converter m units.Millimetres) rfl)]
    simp only [units_converter.to_factor, metrics_converter, units_converter.units,
      units_context.units, units_context.device_metrics, Except.ok.injEq, size.mk.injEq]
    constructor <;> ring
  · rw [units_converter.to_size_available (metrics_converter m units.Centimetres) _ rfl,
      units_converter.to_ext_size_eq,
      if_neg (units_converter.not_missing_of_available (metrics_converter m units.Centimetres) rfl)]
    simp only [units_converter.to_factor, metrics_converter, units_converter.units,
      units_context.units, units_context.device_metrics, Except.ok.injEq, size.mk.injEq]
    constructor <;> ring

/-- C19: for every unit, when metrics are available, the horizontal DPI, the vertical DPI
and the em-size are non-zero and, for Percentage, both components of the reference extent
are non-zero, converting a device value from device units and back to device units under
the same extent returns it: for every point and size, and also delta, 2D vector, scalar
and rectangle. -/
theorem C19_reverse_round_trip (k : units_converter) (e : size)
    (h : k.iContext.device_metrics_available = true)
    (hH : k.iContext.device_metrics.horizontal_dpi ≠ 0)
    (hV : k.iContext.device_metrics.vertical_dpi ≠ 0)
    (hE : k.iContext.device_metrics.em_size ≠ 0)
    (hP : k.units = units.Percentage → e.cx ≠ 0 ∧ e.cy ≠ 0) :
    (∀ D : point, (k.from_device_units_ext_point e D >>= k.to_device_units_ext_point e) = Except.ok D) ∧
    (∀ D : size, (k.from_device_units_ext_size e D >>= k.to_device_units_ext_size e) = Except.ok D) ∧
    (∀ D : delta, (k.from_device_units_ext_delta e D >>= k.to_device_units_ext_delta e) = Except.ok D) ∧
    (∀ D : vector2, (k.from_device_units_ext_vector2 e D >>= k.to_device_units_ext_vector2 e) = Except.ok D) ∧
    (∀ D : dimension, (k.from_device_units_ext_dimension e D >>= k.to_device_units_ext_dimension e) = Except.ok D) ∧
    (∀ D : rect, (k.from_device_units_ext_rect e D >>= k.to_device_units_ext_rect e) = Except.ok D) := by
  have hm : ¬ k.metrics_missing := units_converter.not_missing_of_available k h
  have hz : k.divisors_nonzero e := by
    unfold units_converter.divisors_nonzero
    cases hu : k.units <;> simp only <;>
      first
      | exact ⟨hH, hV⟩
      | exact ⟨hE, hH, hV⟩
      | exact hP hu
  obtain ⟨hx, hy⟩ := units_converter.factor_mul_cancel k e hz
  have ex : ∀ a : dimension, a * (k.from_factor e).1 * (k.to_factor e).1 = a := by
    intro a; rw [mul_assoc, mul_comm (k.from_factor e).1, hx, mul_one]
  have ey : ∀ a : dimension, a * (k.from_factor e).2 * (k.to_factor e).2 = a := by
    intro a; rw [mul_assoc, mul_comm (k.from_factor e).2, hy, mul_one]
  refine ⟨?_, ?_, ?_, ?_, ?_, ?_⟩
  · intro D
    rw [units_converter.from_ext_point_eq, if_neg hm, bind_ok,
      units_converter.to_ext_point_eq, if_neg hm]
    simp only [ex, ey]
  · intro D
    rw [units_converter.from_ext_size_eq, if_neg hm, bind_ok,
      units_converter.to_ext_size_eq, if_neg hm]
    simp only [ex, ey]
  · intro D
    rw [units_converter.from_ext_delta_eq, if_neg hm, bind_ok,
      units_converter.to_ext_delta_eq, if_neg hm]
    simp only [ex, ey]
  · intro D
    rw [units_converter.from_ext_vector2_eq, if_neg hm, bind_ok,
      units_converter.to_ext_vector2_eq, if_neg hm]
    simp only [ex, ey]
  · intro D
    rw [units_converter.from_ext_dimension_eq, if_neg hm, bind_ok,
      units_converter.to_ext_dimension_eq, if_neg hm, ex]
  · intro D
    rw [units_converter.from_ext_rect_eq, if_neg hm, bind_ok,
      units_converter.to_ext_rect_eq, if_neg hm]
    simp only [ex, ey]

/-- Witness of C19: Percentage with reference extent (200, 100), the device point
(100, 50). -/
theorem C19_reverse_round_trip_witness :
    (sample_converter units.Percentage).iContext.device_metrics_available = true ∧
    ((sample_converter units.Percentage).from_device_units_ext_point ⟨200, 100⟩ ⟨100, 50⟩ >>=
      (sample_converter units.Percentage).to_device_units_ext_point ⟨200, 100⟩)
      = Except.ok ⟨100, 50⟩ :=
  ⟨rfl,
    (C19_reverse_round_trip (sample_converter units.Percentage) ⟨200, 100⟩ rfl
      (by simp [sample_converter, units_context.device_metrics])
      (by simp [sample_converter, units_context.device_metrics])
      (by simp [sample_converter, units_context.device_metrics])
      (fun _ => ⟨by norm_num, by norm_num⟩)).1 ⟨100, 50⟩⟩

/-! ## Conversions leave the current unit alone (C20) -/

namespace stateful

/-- Run call by call, `to_device_units_ext_vector2` returns what the function of the
converter returns and hands the converter on as it found it. -/
theorem to_device_units_ext_vector2_run (e : size) (v : vector2) (k : units_converter) :
    stateful.to_device_units_ext_vector2 e v k = (k.to_device_units_ext_vector2 e v, k) := by
  rcases k with ⟨⟨⟨a, m⟩, u⟩, sv⟩
  cases a <;> cases u <;> rfl

/-- Run call by call, `to_device_units_ext_delta` returns what the function of the
converter returns and hands the converter on as it found it. -/
theorem to_device_units_ext_delta_run (e : size) (v : delta) (k : units_converter) :
    stateful.to_device_units_ext_delta e v k = (k.to_device_units_ext_delta e v, k) := by
  rcases k with ⟨⟨⟨a, m⟩, u⟩, sv⟩
  cases a <;> cases u <;> rfl

/-- Run call by call, `to_device_units_ext_size` returns what the function of the
converter returns and hands the converter on as it found it. -/
theorem to_device_units_ext_size_run (e : size) (v : size) (k : units_converter) :
    stateful.to_device_units_ext_size e v k = (k.to_device_units_ext_size e v, k) := by
  rcases k with ⟨⟨⟨a, m⟩, u⟩, sv⟩
  cases a <;> cases u <;> rfl

/-- Run call by call, `to_device_units_ext_point` returns what the function of the
converter returns and hands the converter on as it found it. -/
theorem to_device_units_ext_point_run (e : size) (v : point) (k : units_converter) :
    stateful.to_device_units_ext_point e v k = (k.to_device_units_ext_point e v, k) := by
  rcases k with ⟨⟨⟨a, m⟩, u⟩, sv⟩
  cases a <;> cases u <;> rfl

/-- Run call by call, `to_device_units_ext_dimension` returns what the function of the
converter returns and hands the converter on as it found it. -/
theorem to_device_units_ext_dimension_run (e : size) (v : dimension) (k : units_converter) :
    stateful.to_device_units_ext_dimension e v k = (k.to_device_units_ext_dimension e v, k) := by
  rcases k with ⟨⟨⟨a, m⟩, u⟩, sv⟩
  cases a <;> cases u <;> rfl

/-- Run call by call, `to_device_units_ext_rect` returns what the function of the
converter returns and hands the converter on as it found it. -/
theorem to_device_units_ext_rect_run (e : size) (v : rect) (k : units_converter) :
    stateful.to_device_units_ext_rect e v k = (k.to_device_units_ext_rect e v, k) := by
  rcases k with ⟨⟨⟨a, m⟩, u⟩, sv⟩
  cases a <;> cases u <;> rfl

/-- Run call by call, `to_device_units_vector2` returns what the function of the converter
returns and hands the converter on as it found it. -/
theorem to_device_units_vector2_run (v : vector2) (k : units_converter) :
    stateful.to_device_units_vector2 v k = (k.to_device_units_vector2 v, k) := by
  rcases k with ⟨⟨⟨a, m⟩, u⟩, sv⟩
  cases a <;> cases u <;> rfl

/-- Run call by call, `to_device_units_delta` returns what the function of the converter
returns and hands the converter on as it found it. -/
theorem to_device_units_delta_run (v : delta) (k : units_converter) :
    stateful.to_device_units_delta v k = (k.to_device_units_delta v, k) := by
  rcases k with ⟨⟨⟨a, m⟩, u⟩, sv⟩
  cases a <;> cases u <;> rfl

/-- Run call by call, `to_device_units_size` returns what the function of the converter
returns and hands the converter on as it found it. -/
theorem to_device_units_size_run (v : size) (k : units_converter) :
    stateful.to_device_units_size v k = (k.to_device_units_size v, k) := by
  rcases k with ⟨⟨⟨a, m⟩, u⟩, sv⟩
  cases a <;> cases u <;> rfl

/-- Run call by call, `to_device_units_point` returns what the function of the converter
returns and hands the converter on as it found it. -/
theorem to_device_units_point_run (v : point) (k : units_converter) :
    stateful.to_device_units_point v k = (k.to_device_units_point v, k) := by
  rcases k with ⟨⟨⟨a, m⟩, u⟩, sv⟩
  cases a <;> cases u <;> rfl

/-- Run call by call, `to_device_units_rect` returns what the function of the converter
returns and hands the converter on as it found it. -/
theorem to_device_units_rect_run (v : rect) (k : units_converter) :
    stateful.to_device_units_rect v k = (k.to_device_units_rect v, k) := by
  rcases k with ⟨⟨⟨a, m⟩, u⟩, sv⟩
  cases a <;> cases u <;> rfl

/-- Run call by call, `to_device_units_dimension` returns what the function of the converter
returns and hands the converter on as it found it. -/
theorem to_device_units_dimension_run (v : dimension) (k : units_converter) :
    stateful.to_device_units_dimension v k = (k.to_device_units_dimension v, k) := by
  rcases k with ⟨⟨⟨a, m⟩, u⟩, sv⟩
  cases a <;> cases u <;> rfl

/-- Run call by call, `to_device_units_margins` returns what the function of the converter
returns and hands the converter on as it found it. -/
theorem to_device_units_margins_run (v : margins) (k : units_converter) :
    stateful.to_device_units_margins v k = (k.to_device_units_margins v, k) := by
  rcases k with ⟨⟨⟨a, m⟩, u⟩, sv⟩
  cases a <;> cases u <;> rfl

/-- Run call by call, `from_device_units_ext_vector2` returns what the function of the
converter returns and hands the converter on as it found it. -/
theorem from_device_units_ext_vector2_run (e : size) (v : vector2) (k : units_converter) :
    stateful.from_device_units_ext_vector2 e v k = (k.from_device_units_ext_vector2 e v, k) := by
  rcases k with ⟨⟨⟨a, m⟩, u⟩, sv⟩
  cases a <;> cases u <;> rfl

/-- Run call by call, `from_device_units_ext_delta` returns what the function of the
converter returns and hands the converter on as it found it. -/
theorem from_device_units_ext_delta_run (e : size) (v : delta) (k : units_converter) :
    stateful.from_device_units_ext_delta e v k = (k.from_device_units_ext_delta e v, k) := by
  rcases k with ⟨⟨⟨a, m⟩, u⟩, sv⟩
  cases a <;> cases u <;> rfl

/-- Run call by call, `from_device_units_ext_size` returns what the function of the
converter returns and hands the converter on as it found it. -/
theorem from_device_units_ext_size_run (e : size) (v : size) (k : units_converter) :
    stateful.from_device_units_ext_size e v k = (k.from_device_units_ext_size e v, k) := by
  rcases k with ⟨⟨⟨a, m⟩, u⟩, sv⟩
  cases a <;> cases u <;> rfl

/-- Run call by call, `from_device_units_ext_point` returns what the function of the
converter returns and hands the converter on as it found it. -/
theorem from_device_units_ext_point_run (e : size) (v : point) (k : units_converter) :
    stateful.from_device_units_ext_point e v k = (k.from_device_units_ext_point e v, k) := by
  rcases k with ⟨⟨⟨a, m⟩, u⟩, sv⟩
  cases a <;> cases u <;> rfl

/-- Run call by call, `from_device_units_ext_dimension` returns what the function of the
converter returns and hands the converter on as it found it. -/
theorem from_device_units_ext_dimension_run (e : size) (v : dimension) (k : units_converter) :
    stateful.from_device_units_ext_dimension e v k = (k.from_device_units_ext_dimension e v, k) := by
  rcases k with ⟨⟨⟨a, m⟩, u⟩, sv⟩
  cases a <;> cases u <;> rfl

/-- Run call by call, `from_device_units_ext_rect` returns what the function of the
converter returns and hands the converter on as it found it. -/
theorem from_device_units_ext_rect_run (e : size) (v : rect) (k : units_converter) :
    stateful.from_device_units_ext_rect e v k = (k.from_device_units_ext_rect e v, k) := by
  rcases k with ⟨⟨⟨a, m⟩, u⟩, sv⟩
  cases a <;> cases u <;> rfl

/-- Run call by call, `from_device_units_vector2` returns what the function of the converter
returns and hands the converter on as it found it. -/
theorem from_device_units_vector2_run (v : vector2) (k : units_converter) :
    stateful.from_device_units_vector2 v k = (k.from_device_units_vector2 v, k) := by
  rcases k with ⟨⟨⟨a, m⟩, u⟩, sv⟩
  cases a <;> cases u <;> rfl

/-- Run call by call, `from_device_units_delta` returns what the function of the converter
returns and hands the converter on as it found it. -/
theorem from_device_units_delta_run (v : delta) (k : units_converter) :
    stateful.from_device_units_delta v k = (k.from_device_units_delta v, k) := by
  rcases k with ⟨⟨⟨a, m⟩, u⟩, sv⟩
  cases a <;> cases u <;> rfl

/-- Run call by call, `from_device_units_size` returns what the function of the converter
returns and hands the converter on as it found it. -/
theorem from_device_units_size_run (v : size) (k : units_converter) :
    stateful.from_device_units_size v k = (k.from_device_units_size v, k) := by
  rcases k with ⟨⟨⟨a, m⟩, u⟩, sv⟩
  cases a <;> cases u <;> rfl

/-- Run call by call, `from_device_units_point` returns what the function of the converter
returns and hands the converter on as it found it. -/
theorem from_device_units_point_run (v : point) (k : units_converter) :
    stateful.from_device_units_point v k = (k.from_device_units_point v, k) := by
  rcases k with ⟨⟨⟨a, m⟩, u⟩, sv⟩
  cases a <;> cases u <;> rfl

/-- Run call by call, `from_device_units_rect` returns what the function of the converter
returns and hands the converter on as it found it. -/
theorem from_device_units_rect_run (v : rect) (k : units_converter) :
    stateful.from_device_units_rect v k = (k.from_device_units_rect v, k) := by
  rcases k with ⟨⟨⟨a, m⟩, u⟩, sv⟩
  cases a <;> cases u <;> rfl

/-- Run call by call, `from_device_units_dimension` returns what the function of the converter
returns and hands the converter on as it found it. -/
theorem from_device_units_dimension_run (v : dimension) (k : units_converter) :
    stateful.from_device_units_dimension v k = (k.from_device_units_dimension v, k) := by
  rcases k with ⟨⟨⟨a, m⟩, u⟩, sv⟩
  cases a <;> cases u <;> rfl

/-- Run call by call, `from_device_units_margins` returns what the function of the converter
returns and hands the converter on as it found it. -/
theorem from_device_units_margins_run (v : margins) (k : units_converter) :
    stateful.from_device_units_margins v k = (k.from_device_units_margins v, k) := by
  rcases k with ⟨⟨⟨a, m⟩, u⟩, sv⟩
  cases a <;> cases u <;> rfl

/-- A member that hands the object on unchanged, followed by `return`. -/
theorem run_then_return {α β : Type} (m : member α) (g : α → β) (k : units_converter)
    (r : Except failure α) (h : m k = (r, k)) :
    (do return g (← m) : member β) k = (r.map g, k) := by
  show member.seq m (fun a => member.ret (g a)) k = (r.map g, k)
  unfold member.seq
  rw [h]
  cases r <;> rfl

/-- Every conversion call returns what `units_converter.convert` returns and hands the
converter on as it found it. -/
theorem convert_run (c : conversion) (k : units_converter) :
    stateful.convert c k = (k.convert c, k) := by
  cases c with
  | to_device_units_dimension v =>
    exact run_then_return _ _ k _ (to_device_units_dimension_run v k)
  | to_device_units_vector2 v =>
    exact run_then_return _ _ k _ (to_device_units_vector2_run v k)
  | to_device_units_delta v =>
    exact run_then_return _ _ k _ (to_device_units_delta_run v k)
  | to_device_units_size v =>
    exact run_then_return _ _ k _ (to_device_units_size_run v k)
  | to_device_units_point v =>
    exact run_then_return _ _ k _ (to_device_units_point_run v k)
  | to_device_units_rect v =>
    exact run_then_return _ _ k _ (to_device_units_rect_run v k)
  | to_device_units_margins v =>
    exact run_then_return _ _ k _ (to_device_units_margins_run v k)
  | to_device_units_ext_dimension e v =>
    exact run_then_return _ _ k _ (to_device_units_ext_dimension_run e v k)
  | to_device_units_ext_vector2 e v =>
    exact run_then_return _ _ k _ (to_device_units_ext_vector2_run e v k)
  | to_device_units_ext_delta e v =>
    exact run_then_return _ _ k _ (to_device_units_ext_delta_run e v k)
  | to_device_units_ext_size e v =>
    exact run_then_return _ _ k _ (to_device_units_ext_size_run e v k)
  | to_device_units_ext_point e v =>
    exact run_then_return _ _ k _ (to_device_units_ext_point_run e v k)
  | to_device_units_ext_rect e v =>
    exact run_then_return _ _ k _ (to_device_units_ext_rect_run e v k)
  | from_device_units_dimension v =>
    exact run_then_return _ _ k _ (from_device_units_dimension_run v k)
  | from_device_units_vector2 v =>
    exact run_then_return _ _ k _ (from_device_units_vector2_run v k)
  | from_device_units_delta v =>
    exact run_then_return _ _ k _ (from_device_units_delta_run v k)
  | from_device_units_size v =>
    exact run_then_return _ _ k _ (from_device_units_size_run v k)
  | from_device_units_point v =>
    exact run_then_return _ _ k _ (from_device_units_point_run v k)
  | from_device_units_rect v =>
    exact run_then_return _ _ k _ (from_device_units_rect_run v k)
  | from_device_units_margins v =>
    exact run_then_return _ _ k _ (from_device_units_margins_run v k)
  | from_device_units_ext_dimension e v =>
    exact run_then_return _ _ k _ (from_device_units_ext_dimension_run e v k)
  | from_device_units_ext_vector2 e v =>
    exact run_then_return _ _ k _ (from_device_units_ext_vector2_run e v k)
  | from_device_units_ext_delta e v =>
    exact run_then_return _ _ k _ (from_device_units_ext_delta_run e v k)
  | from_device_units_ext_size e v =>
    exact run_then_return _ _ k _ (from_device_units_ext_size_run e v k)
  | from_device_units_ext_point e v =>
    exact run_then_return _ _ k _ (from_device_units_ext_point_run e v k)
  | from_device_units_ext_rect e v =>
    exact run_then_return _ _ k _ (from_device_units_ext_rect_run e v k)

end stateful

/-- C20: a conversion call (any of the 26 overloads, run call by call on the converter
object), whether it returns a value or throws `device_metrics_unavailable`, hands on the
converter and its context as they were: the context's current unit and the converter's
saved unit after the call are those before it, and the outcome is that of the conversion;
`set_units` does change the current unit (and not the saved one), and so does the
destructor.  Both outcomes of a call occur. -/
theorem C20_conversions_keep_units (k : units_converter) (c : conversion) :
    (stateful.convert c k).2 = k ∧
    (stateful.convert c k).2.iContext.units = k.iContext.units ∧
    (stateful.convert c k).2.units = k.units ∧
    (stateful.convert c k).2.saved_units = k.saved_units ∧
    (stateful.convert c k).1 = k.convert c ∧
    (∀ r, (stateful.convert c k).1 = Except.ok r →
      (stateful.convert c k).2.units = k.units ∧
      (stateful.convert c k).2.saved_units = k.saved_units) ∧
    ((stateful.convert c k).1 = Except.error failure.device_metrics_unavailable →
      (stateful.convert c k).2.units = k.units ∧
      (stateful.convert c k).2.saved_units = k.saved_units) ∧
    (∀ u : units,
      (stateful.set_units u k).1 = Except.ok k.units ∧
      (stateful.set_units u k).2.units = u ∧
      (stateful.set_units u k).2.saved_units = k.saved_units ∧
      (stateful.set_units u k).2 = (k.set_units u).2) ∧
    k.destroy.units = k.saved_units ∧
    (run_in k (prog.convert c prog.done)).1 = (stateful.convert c k).2 ∧
    stateful.convert (conversion.to_device_units_size ⟨1, 1⟩) (detached_converter units.Inches)
      = (Except.error failure.device_metrics_unavailable, detached_converter units.Inches) ∧
    stateful.convert (conversion.to_device_units_size ⟨1, 1⟩) (detached_converter units.Pixels)
      = (Except.ok (geometry_value.of_size ⟨1, 1⟩), detached_converter units.Pixels) := by
  have hrun := stateful.convert_run c k
  have hk : (stateful.convert c k).2 = k := by rw [hrun]
  have hin : (run_in k (prog.convert c prog.done)).1 = k :=
    run_in_conversions_only (prog.convert c prog.done) k trivial
  refine ⟨hk, by rw [hk], by rw [hk], by rw [hk], by rw [hrun],
    fun _ _ => by rw [hk]; exact ⟨rfl, rfl⟩, fun _ => by rw [hk]; exact ⟨rfl, rfl⟩,
    fun _ => ⟨rfl, rfl, rfl, rfl⟩, rfl, by rw [hin, hk], ?_, ?_⟩
  · rw [stateful.convert_run]
    have h1 := (units_converter.to_size_fails_iff (detached_converter units.Inches)
      ⟨1, 1⟩).2 ⟨rfl, fun hp => units.noConfusion hp⟩
    simp only [units_converter.convert, h1]
    rfl
  · rw [stateful.convert_run]
    have h1 := units_converter.to_size_pixels (detached_converter units.Pixels) ⟨1, 1⟩ rfl
    simp only [units_converter.convert, h1]
    rfl

/-! ## The button: reading `set_checked_state` -/

namespace button

/-- The three exits of `set_checked_state`: nothing to do, the throw, and the write
followed by `update()`, `toggled` and the event of the new state. -/
theorem set_checked_state_eq (b : button) (s : Option Bool) :
    b.set_checked_state s =
      if b.iCheckedState = s then (Except.ok false, b)
      else if s = none ∧ b.iCheckable ≠ button_checkable.TriState then
        (Except.error button_failure.not_tri_state_checkable, b)
      else
        (Except.ok true,
          ⟨b.iCheckable, s,
            b.trace ++ [button_effect.update, button_effect.trigger button_event.toggled,
              button_effect.trigger (spec_state_event s)]⟩) := by
  unfold set_checked_state
  by_cases h1 : b.iCheckedState = s
  · simp only [h1, if_true]; rfl
  · simp only [h1, if_false]
    by_cases h2 : s = none ∧ b.iCheckable ≠ button_checkable.TriState
    · rw [if_pos h2, if_pos h2]; rfl
    · rw [if_neg h2, if_neg h2]
      rcases s with _ | _ | _ <;>
        simp [is_checked, is_unchecked, is_indeterminate, update, trigger, spec_state_event,
          pure, Except.pure]

theorem forward_fst_eq_ok (r : Except button_failure Bool × button) :
    (forward r).1 = Except.ok () ↔ ∃ f, r.1 = Except.ok f := by
  rcases r with ⟨o, b⟩
  cases o with
  | error e => simp [forward, Except.map]
  | ok f => simp [forward, Except.map]

theorem forward_fst_eq_error (r : Except button_failure Bool × button) :
    (forward r).1 = Except.error button_failure.not_tri_state_checkable ↔
      r.1 = Except.error button_failure.not_tri_state_checkable := by
  rcases r with ⟨o, b⟩
  cases o with
  | error e => simp [forward, Except.map]
  | ok f => simp [forward, Except.map]

theorem forward_snd (r : Except button_failure Bool × button) : (forward r).2 = r.2 := rfl

/-- Setting a definite state never throws. -/
theorem set_checked_eq (b : button) (a : Bool) :
    b.set_checked a =
      if b.iCheckedState = some a then (Except.ok (), b)
      else
        (Except.ok (),
          ⟨b.iCheckable, some a,
            b.trace ++ [button_effect.update, button_effect.trigger button_event.toggled,
              button_effect.trigger (spec_state_event (some a))]⟩) := by
  unfold set_checked
  rw [set_checked_state_eq]
  by_cases h1 : b.iCheckedState = some a
  · simp only [h1, if_true]; rfl
  · simp only [h1, if_false, reduceCtorEq, false_and]; rfl

/-- What `toggle` does, by the state before. -/
theorem toggle_eq (b : button) :
    b.toggle =
      (Except.ok (),
        ⟨b.iCheckable, spec_toggled_state b.iCheckedState,
          b.trace ++ [button_effect.update, button_effect.trigger button_event.toggled,
            button_effect.trigger (spec_state_event (spec_toggled_state b.iCheckedState))]⟩) := by
  rcases b with ⟨m, s, tr⟩
  unfold toggle
  rcases s with _ | _ | _ <;>
    simp [can_toggle, is_checked, is_indeterminate, set_checked_eq, spec_toggled_state]

end button

theorem events_of_append (xs ys : List button_effect) :
    events_of (xs ++ ys) = events_of xs ++ events_of ys := by
  induction xs with
  | nil => rfl
  | cons x rest ih =>
    cases x with
    | update => simpa [events_of] using ih
    | trigger e => simpa [events_of] using ih

/-! ## The button: failure, toggle, reachable states, clicks (C21 - C25) -/

/-- C21: `set_checked_state(s)` throws `not_tri_state_checkable` if and only if s is the
indeterminate state, the current checked state is not already indeterminate and the
checkable mode is not TriState; when it throws, the button (checked state, checkable mode,
and the record of `update()` calls and triggered events) is unchanged; the same holds
for `set_indeterminate()`, which on an already indeterminate button never throws,
whatever the checkable mode. -/
theorem C21_set_checked_state_failure (b : button) (s : Option Bool) :
    ((b.set_checked_state s).1 = Except.error button_failure.not_tri_state_checkable ↔
      (s = none ∧ b.iCheckedState ≠ none ∧ b.iCheckable ≠ button_checkable.TriState)) ∧
    ((b.set_checked_state s).1 = Except.error button_failure.not_tri_state_checkable →
      (b.set_checked_state s).2 = b ∧
      (b.set_checked_state s).2.iCheckedState = b.iCheckedState ∧
      (b.set_checked_state s).2.iCheckable = b.iCheckable ∧
      (b.set_checked_state s).2.trace = b.trace) ∧
    (b.set_indeterminate.1 = Except.error button_failure.not_tri_state_checkable ↔
      (b.iCheckedState ≠ none ∧ b.iCheckable ≠ button_checkable.TriState)) ∧
    (b.set_indeterminate.1 = Except.error button_failure.not_tri_state_checkable →
      b.set_indeterminate.2 = b) ∧
    (b.is_indeterminate = true → b.set_indeterminate = (Except.ok (), b)) := by
  have key : (b.set_checked_state s).1 = Except.error button_failure.not_tri_state_checkable ↔
      (s = none ∧ b.iCheckedState ≠ none ∧ b.iCheckable ≠ button_checkable.TriState) := by
    rw [button.set_checked_state_eq]
    by_cases h1 : b.iCheckedState = s
    · rw [if_pos h1]
      constructor
      · intro h; exact Except.noConfusion h
      · rintro ⟨hs, hn, _⟩; rw [hs] at h1; exact absurd h1 hn
    · rw [if_neg h1]
      by_cases h2 : s = none ∧ b.iCheckable ≠ button_checkable.TriState
      · rw [if_pos h2]
        constructor
        · intro _; exact ⟨h2.1, fun hn => h1 (by rw [hn, h2.1]), h2.2⟩
        · intro _; rfl
      · rw [if_neg h2]
        constructor
        · intro h; exact Except.noConfusion h
        · rintro ⟨hs, _, hm⟩; exact absurd ⟨hs, hm⟩ h2
  have unch : (b.set_checked_state s).1 = Except.error button_failure.not_tri_state_checkable →
      (b.set_checked_state s).2 = b := by
    rw [button.set_checked_state_eq]
    by_cases h1 : b.iCheckedState = s
    · rw [if_pos h1]; intro _; rfl
    · rw [if_neg h1]
      by_cases h2 : s = none ∧ b.iCheckable ≠ button_checkable.TriState
      · rw [if_pos h2]; intro _; rfl
      · rw [if_neg h2]; intro h; exact Except.noConfusion h
  have keyn : (b.set_checked_state none).1 =
      Except.error button_failure.not_tri_state_checkable ↔
      (b.iCheckedState ≠ none ∧ b.iCheckable ≠ button_checkable.TriState) := by
    rw [button.set_checked_state_eq]
    by_cases h1 : b.iCheckedState = none
    · rw [if_pos h1]
      constructor
      · intro h; exact Except.noConfusion h
      · rintro ⟨hn, _⟩; exact absurd h1 hn
    · rw [if_neg h1]
      by_cases h2 : (none : Option Bool) = none ∧ b.iCheckable ≠ button_checkable.TriState
      · rw [if_pos h2]
        constructor
        · intro _; exact ⟨h1, h2.2⟩
        · intro _; rfl
      · rw [if_neg h2]
        constructor
        · intro h; exact Except.noConfusion h
        · rintro ⟨_, hm⟩; exact absurd ⟨rfl, hm⟩ h2
  have unchn : (b.set_checked_state none).1 =
      Except.error button_failure.not_tri_state_checkable →
      (b.set_checked_state none).2 = b := by
    rw [button.set_checked_state_eq]
    by_cases h1 : b.iCheckedState = none
    · rw [if_pos h1]; intro _; rfl
    · rw [if_neg h1]
      by_cases h2 : (none : Option Bool) = none ∧ b.iCheckable ≠ button_checkable.TriState
      · rw [if_pos h2]; intro _; rfl
      · rw [if_neg h2]; intro h; exact Except.noConfusion h
  refine ⟨key, ?_, ?_, ?_, ?_⟩
  · intro h
    have hb := unch h
    exact ⟨hb, by rw [hb], by rw [hb], by rw [hb]⟩
  · unfold button.set_indeterminate
    rw [button.forward_fst_eq_error]
    exact keyn
  · unfold button.set_indeterminate
    rw [button.forward_fst_eq_error, button.forward_snd]
    exact unchn
  · intro hi
    have h1 : b.iCheckedState = none := by
      simpa [button.is_indeterminate] using hi
    unfold button.set_indeterminate
    rw [button.set_checked_state_eq, if_pos h1]
    rfl

/-- C22: for every checkable mode, `toggle()` takes checked to unchecked, indeterminate to
unchecked and unchecked to checked; it never throws, keeps the checkable mode, never
leaves the button indeterminate, and two toggles in a row starting from a checked or
unchecked button give back the starting state. -/
theorem C22_toggle (b : button) :
    b.toggle.1 = Except.ok () ∧
    b.toggle.2.iCheckedState = spec_toggled_state b.iCheckedState ∧
    b.toggle.2.iCheckable = b.iCheckable ∧
    (b.is_checked = true → b.toggle.2.is_unchecked = true) ∧
    (b.is_indeterminate = true → b.toggle.2.is_unchecked = true) ∧
    (b.is_unchecked = true → b.toggle.2.is_checked = true) ∧
    b.toggle.2.is_indeterminate = false ∧
    b.toggle.2.toggle.1 = Except.ok () ∧
    (b.is_indeterminate = false → b.toggle.2.toggle.2.iCheckedState = b.iCheckedState) := by
  have h2 : b.toggle.2.toggle = _ := button.toggle_eq b.toggle.2
  rw [button.toggle_eq b] at h2 ⊢
  rw [h2]
  rcases b with ⟨m, s, tr⟩
  rcases s with _ | _ | _ <;>
    simp [button.is_checked, button.is_unchecked, button.is_indeterminate, spec_toggled_state]

/-- What `handle_clicked` does, by the checkable mode and the flag. -/
theorem button.handle_clicked_eq (b : button) (destroyed : Bool) :
    b.handle_clicked destroyed =
      if destroyed = false ∧ b.iCheckable ≠ button_checkable.NotCheckable then
        (Except.ok (),
          ⟨b.iCheckable, spec_toggled_state b.iCheckedState,
            b.trace ++ [button_effect.trigger button_event.clicked,
              button_effect.trigger button_event.async_clicked, button_effect.update,
              button_effect.trigger button_event.toggled,
              button_effect.trigger (spec_state_event (spec_toggled_state b.iCheckedState))]⟩)
      else
        (Except.ok (),
          ⟨b.iCheckable, b.iCheckedState,
            b.trace ++ [button_effect.trigger button_event.clicked,
              button_effect.trigger button_event.async_clicked]⟩) := by
  rcases b with ⟨m, s, tr⟩
  unfold button.handle_clicked
  simp only [button.toggle_eq, button.trigger]
  cases destroyed <;> cases m <;> simp [pure, Except.pure]

/-- Without a call `set_checkable(TriState)`, a call keeps the mode off TriState and the
checked state definite. -/
theorem button.call_keeps_definite (b : button) (c : button_call)
    (hm : b.iCheckable ≠ button_checkable.TriState) (hs : b.iCheckedState ≠ none)
    (hc : c ≠ button_call.set_checkable button_checkable.TriState) :
    (b.call c).2.iCheckable ≠ button_checkable.TriState ∧ (b.call c).2.iCheckedState ≠ none := by
  rcases b with ⟨m, s, tr⟩
  have hsd : ∃ a, s = some a := by
    cases s with
    | none => exact absurd rfl hs
    | some a => exact ⟨a, rfl⟩
  obtain ⟨a, rfl⟩ := hsd
  cases c with
  | check =>
    have h := button.set_checked_eq ⟨m, some a, tr⟩ true
    unfold button.set_checked at h
    simp only [button.call, button.check, h]
    split <;> exact ⟨hm, fun hn => Option.noConfusion hn⟩
  | uncheck =>
    have h := button.set_checked_eq ⟨m, some a, tr⟩ false
    unfold button.set_checked at h
    simp only [button.call, button.uncheck, h]
    split <;> exact ⟨hm, fun hn => Option.noConfusion hn⟩
  | set_checked x =>
    simp only [button.call, button.set_checked_eq]
    split <;> exact ⟨hm, fun hn => Option.noConfusion hn⟩
  | set_indeterminate =>
    simp only [button.call, button.set_indeterminate, button.forward_snd,
      button.set_checked_state_eq]
    rw [if_neg (fun hn => Option.noConfusion hn), if_pos ⟨trivial, hm⟩]
    exact ⟨hm, fun hn => Option.noConfusion hn⟩
  | toggle =>
    simp only [button.call, button.toggle_eq]
    refine ⟨hm, ?_⟩
    cases a <;> exact fun hn => Option.noConfusion hn
  | click =>
    simp only [button.call, button.handle_clicked_eq]
    split
    · refine ⟨hm, ?_⟩
      cases a <;> exact fun hn => Option.noConfusion hn
    · exact ⟨hm, fun hn => Option.noConfusion hn⟩
  | set_checkable x =>
    simp only [button.call, button.set_checkable]
    refine ⟨?_, fun hn => Option.noConfusion hn⟩
    intro hx
    exact hc (by rw [hx])

/-- The same through a whole sequence of calls. -/
theorem button.run_calls_keeps_definite (calls : List button_call) : ∀ b : button,
    b.iCheckable ≠ button_checkable.TriState → b.iCheckedState ≠ none →
    (∀ c ∈ calls, c ≠ button_call.set_checkable button_checkable.TriState) →
    (b.run_calls calls).iCheckable ≠ button_checkable.TriState ∧
      (b.run_calls calls).iCheckedState ≠ none := by
  induction calls with
  | nil => intro b hm hs _; exact ⟨hm, hs⟩
  | cons c cs ih =>
    intro b hm hs hc
    have h1 := button.call_keeps_definite b c hm hs (hc c (List.mem_cons_self c cs))
    exact ih (b.call c).2 h1.1 h1.2 (fun c2 h2 => hc c2 (List.mem_cons_of_mem c h2))

/-- C23: a button starts unchecked and NotCheckable, and after any sequence of `check`,
`uncheck`, `set_checked`, `set_indeterminate`, `toggle`, click and `set_checkable` calls in
which `set_checkable` is never called with TriState it is not indeterminate and not
TriState, so a `set_indeterminate` there throws and leaves the button unchanged; in every
state exactly one of `is_checked`, `is_unchecked`, `is_indeterminate` is true.  (With
`set_checkable(TriState)` the indeterminate state is reached.) -/
theorem C23_reachable_states (calls : List button_call)
    (h : ∀ c ∈ calls, c ≠ button_call.set_checkable button_checkable.TriState) :
    button.construct.is_unchecked = true ∧
    button.construct.checkable = button_checkable.NotCheckable ∧
    (button.construct.run_calls calls).is_indeterminate = false ∧
    (button.construct.run_calls calls).checkable ≠ button_checkable.TriState ∧
    (button.construct.run_calls calls).set_indeterminate =
      (Except.error button_failure.not_tri_state_checkable,
        button.construct.run_calls calls) ∧
    (∀ b : button,
      (b.is_checked = true ∧ b.is_unchecked = false ∧ b.is_indeterminate = false) ∨
      (b.is_checked = false ∧ b.is_unchecked = true ∧ b.is_indeterminate = false) ∨
      (b.is_checked = false ∧ b.is_unchecked = false ∧ b.is_indeterminate = true)) ∧
    (button.construct.run_calls
      [button_call.set_checkable button_checkable.TriState,
        button_call.set_indeterminate]).is_indeterminate = true := by
  obtain ⟨hm, hs⟩ := button.run_calls_keeps_definite calls button.construct
    (fun hn => button_checkable.noConfusion hn) (fun hn => Option.noConfusion hn) h
  refine ⟨rfl, rfl, ?_, hm, ?_, ?_, rfl⟩
  · cases hq : (button.construct.run_calls calls).iCheckedState with
    | none => exact absurd hq hs
    | some a => simp [button.is_indeterminate, hq]
  · unfold button.set_indeterminate
    rw [button.set_checked_state_eq, if_neg hs, if_pos ⟨rfl, hm⟩]
    rfl
  · intro b
    rcases b with ⟨m, s, tr⟩
    rcases s with _ | _ | _ <;>
      simp [button.is_checked, button.is_unchecked, button.is_indeterminate]

/-- Witness of C23: make the button BiState, click it, try `set_indeterminate`, toggle. -/
theorem C23_reachable_states_witness :
    (∀ c ∈ [button_call.set_checkable button_checkable.BiState, button_call.click,
        button_call.set_indeterminate, button_call.toggle],
      c ≠ button_call.set_checkable button_checkable.TriState) ∧
    (button.construct.run_calls
      [button_call.set_checkable button_checkable.BiState, button_call.click,
        button_call.set_indeterminate, button_call.toggle]).is_indeterminate = false :=
  ⟨by decide,
    (C23_reachable_states
      [button_call.set_checkable button_checkable.BiState, button_call.click,
        button_call.set_indeterminate, button_call.toggle] (by decide)).2.2.1⟩

/-- C24: when `set_checked_state(s)` does not throw, it returns true if and only if s
differs from the current checked state; when it returns false the button is unchanged and
nothing is triggered; when it returns true the new state is s, the checkable mode is kept,
and what it does is `update()`, then `toggled`, then the one of `checked`, `unchecked`,
`indeterminate` that matches s: the events triggered are exactly those two. -/
theorem C24_set_checked_state_result (b : button) (s : Option Bool)
    (hok : (b.set_checked_state s).1 ≠ Except.error button_failure.not_tri_state_checkable) :
    ((b.set_checked_state s).1 = Except.ok true ↔ s ≠ b.iCheckedState) ∧
    ((b.set_checked_state s).1 = Except.ok false ↔ s = b.iCheckedState) ∧
    ((b.set_checked_state s).1 = Except.ok false → (b.set_checked_state s).2 = b) ∧
    ((b.set_checked_state s).1 = Except.ok true →
      (b.set_checked_state s).2.iCheckedState = s ∧
      (b.set_checked_state s).2.iCheckable = b.iCheckable ∧
      (b.set_checked_state s).2.trace =
        b.trace ++ [button_effect.update, button_effect.trigger button_event.toggled,
          button_effect.trigger (spec_state_event s)] ∧
      events_of (b.set_checked_state s).2.trace =
        events_of b.trace ++ [button_event.toggled, spec_state_event s]) := by
  rw [button.set_checked_state_eq] at hok ⊢
  by_cases h1 : b.iCheckedState = s
  · rw [if_pos h1]
    refine ⟨?_, ?_, fun _ => rfl, ?_⟩
    · constructor
      · intro h
        exact absurd (Except.ok.inj h) (by decide)
      · intro h; exact absurd h1.symm h
    · exact ⟨fun _ => h1.symm, fun _ => rfl⟩
    · intro h
      exact absurd (Except.ok.inj h) (by decide)
  · rw [if_neg h1] at hok ⊢
    by_cases h2 : s = none ∧ b.iCheckable ≠ button_checkable.TriState
    · rw [if_pos h2] at hok
      exact absurd rfl hok
    · rw [if_neg h2]
      refine ⟨?_, ?_, ?_, ?_⟩
      · exact ⟨fun _ hs => h1 hs.symm, fun _ => rfl⟩
      · constructor
        · intro h
          exact absurd (Except.ok.inj h) (by decide)
        · intro hs; exact absurd hs.symm h1
      · intro h
        exact absurd (Except.ok.inj h) (by decide)
      · intro _
        refine ⟨rfl, rfl, rfl, ?_⟩
        rw [events_of_append]
        rfl

/-- Witness of C24: checking the unchecked button a constructor leaves. -/
theorem C24_set_checked_state_result_witness :
    (button.construct.set_checked_state (some true)).1
      ≠ Except.error button_failure.not_tri_state_checkable ∧
    ((button.construct.set_checked_state (some true)).1 = Except.ok true ↔
      some true ≠ button.construct.iCheckedState) :=
  ⟨fun h => Except.noConfusion h,
    (C24_set_checked_state_result button.construct (some true)
      (fun h => Except.noConfusion h)).1⟩

/-- C25: `handle_clicked` changes the checked state only when the button is checkable:
with mode NotCheckable the state after the click is the state before; with any other mode
(BiState, TriState), and the button not destroyed by a `clicked` handler, it is the toggle
of the state before; it never throws and keeps the mode.  The space key, the mnemonic and
a left mouse release inside the client rect of a capturing button lead to the same checked
state as `handle_clicked`; any other key leaves the button alone. -/
theorem C25_click_toggles_when_checkable (b : button) (destroyed : Bool) :
    (b.iCheckable = button_checkable.NotCheckable →
      (b.handle_clicked destroyed).2.iCheckedState = b.iCheckedState) ∧
    (b.iCheckable ≠ button_checkable.NotCheckable → destroyed = false →
      (b.handle_clicked destroyed).2.iCheckedState = spec_toggled_state b.iCheckedState ∧
      (b.handle_clicked destroyed).2.iCheckedState = b.toggle.2.iCheckedState) ∧
    (b.handle_clicked destroyed).1 = Except.ok () ∧
    (b.handle_clicked destroyed).2.iCheckable = b.iCheckable ∧
    (b.key_pressed scan_code_e.ScanCode_SPACE destroyed).1 = Except.ok true ∧
    (b.key_pressed scan_code_e.ScanCode_SPACE destroyed).2 = (b.handle_clicked destroyed).2 ∧
    (∀ raw : Nat, b.key_pressed (scan_code_e.other raw) destroyed = (Except.ok false, b)) ∧
    b.mnemonic_execute destroyed = b.handle_clicked destroyed ∧
    (b.mouse_button_released mouse_button.Left true true destroyed).2.iCheckedState =
      (b.handle_clicked destroyed).2.iCheckedState ∧
    (b.mouse_button_released mouse_button.Left true true destroyed).2.iCheckable =
      b.iCheckable := by
  have hu := button.handle_clicked_eq b.update destroyed
  have hk : b.key_pressed scan_code_e.ScanCode_SPACE destroyed =
      (((b.handle_clicked destroyed).1.map fun _ => true), (b.handle_clicked destroyed).2) := by
    unfold button.key_pressed
    rw [if_pos rfl]
  have hr : b.mouse_button_released mouse_button.Left true true destroyed =
      (match (b.update.handle_clicked destroyed).1 with
        | .error f => (throw f, (b.update.handle_clicked destroyed).2)
        | .ok _ =>
          if !destroyed then
            (pure (), (b.update.handle_clicked destroyed).2.trigger button_event.released)
          else (pure (), (b.update.handle_clicked destroyed).2)) := by
    unfold button.mouse_button_released
    simp only [if_true]
  rw [hk, hr, hu, button.handle_clicked_eq, button.toggle_eq]
  refine ⟨?_, ?_, ?_, ?_, ?_, rfl, fun _ => rfl, button.handle_clicked_eq b destroyed, ?_, ?_⟩
  · intro hn
    rw [if_neg (fun hc => hc.2 hn)]
  · intro hn hd
    rw [if_pos ⟨hd, hn⟩]
    exact ⟨rfl, rfl⟩
  · split <;> rfl
  · split <;> rfl
  · split <;> rfl
  · by_cases hc : destroyed = false ∧ b.iCheckable ≠ button_checkable.NotCheckable
    · have hc2 : destroyed = false ∧ b.update.iCheckable ≠ button_checkable.NotCheckable := hc
      rw [if_pos hc, if_pos hc2]
      cases destroyed <;> rfl
    · have hc2 : ¬ (destroyed = false ∧ b.update.iCheckable ≠ button_checkable.NotCheckable) :=
        hc
      rw [if_neg hc, if_neg hc2]
      cases destroyed <;> rfl
  · by_cases hc : destroyed = false ∧ b.update.iCheckable ≠ button_checkable.NotCheckable
    · rw [if_pos hc]
      cases destroyed <;> rfl
    · rw [if_neg hc]
      cases destroyed <;> rfl

end neogfx
